import Mathlib

/-!
# CTP flat-API wrapper and SPI callback bridge

A shallow embedding of the C++ sources

* `libs/ctp/linux/wrapper/spi_bridge.cpp` (classes `MdSpiBridge`, `TraderSpiBridge`),
* `libs/ctp/mac64/wrapper/spi_bridge.h` (the callback tables),
* `libs/ctp/wrapper/ctp_wrapper.cpp` (the common flat API, with its platform macros),
* `libs/ctp/linux/wrapper/ctp_wrapper.cpp` (the Linux flat API),
* `libs/ctp/wrapper/logger.h` (the `CTP_DEBUG` macro and `DebugLogger`).

Every C++ function becomes a Lean function that returns the list of externally
visible effects it performs, in program order: calls through caller-supplied
function pointers, calls of vendor SDK methods, lines written by the debug
logger, and text written directly to `std::cout`.
-/

namespace Ctp

/-- A C pointer value (data or function pointer); address `0` is the null pointer. -/
abbrev Ptr := Nat

/-- A value passed in a C call: a pointer, an `int`, or a pointer to a static
character array whose content is known (`static char empty_info[] = ""`). -/
inductive CVal where
  | ptr (p : Ptr)
  | int (i : Int)
  | lit (s : String)
  deriving DecidableEq, Repr

/-- An argument of a `CTP_DEBUG` format. `load p field` is the value read through
the pointer `p` (as in `pRspInfo->ErrorID`); `cstr p` is the C string read at `p`. -/
inductive FmtArg where
  | int (i : Int)
  | ptr (p : Ptr)
  | str (s : String)
  | cstr (p : Ptr)
  | load (p : Ptr) (field : String)
  deriving DecidableEq, Repr

/-- The message of one `CTP_DEBUG` use: the format and its arguments. The
timestamp and source-location prefix that `DebugLogger::debug` puts in front of
the message are not part of this record. -/
structure LogMsg where
  format : String
  args : List FmtArg
  deriving DecidableEq, Repr

/-- A call of a method of a vendor SDK object: `static_cast<cls *>(self)->method(args)`. -/
structure VendorCall where
  cls : String
  method : String
  self : Ptr
  args : List CVal
  deriving DecidableEq, Repr

/-- The effects of a function body, in the order the code performs them. -/
inductive Effect where
  /-- Call through a caller-supplied function pointer. -/
  | invoke (fn : Ptr) (args : List CVal)
  /-- Call of a vendor SDK method. -/
  | vendor (c : VendorCall)
  /-- A line written to `std::cout` by `DebugLogger::debug`. -/
  | logConsole (m : LogMsg)
  /-- A line written to the open log file by `DebugLogger::debug`. -/
  | logFile (path : String) (m : LogMsg)
  /-- A line written directly to `std::cout`, outside the logger. -/
  | cout (text : String)
  /-- An assignment to a field of the member callbacks of an adapter:
  `callbacks.field = value`. -/
  | store (field : String) (value : Ptr)
  deriving DecidableEq, Repr

/-! ## The debug logger (`logger.h`, `logger.cpp`) -/

/-- The fields of `DebugLogger`. `file_stream_` is `some path` when the stream is
open on `path` and `none` when it is closed. -/
structure DebugLogger where
  enabled_ : Bool
  use_file_ : Bool
  file_stream_ : Option String
  deriving DecidableEq, Repr

/-- The inline member `isEnabled`. -/
def DebugLogger.isEnabled (lg : DebugLogger) : Bool := lg.enabled_

/-- The member `DebugLogger::debug` for a format that `vsnprintf` accepts: nothing
when disabled; otherwise the line goes to the file and the console when a file
sink is in use and open, and to the console alone when not. -/
def DebugLogger.debug (lg : DebugLogger) (m : LogMsg) : List Effect :=
  if !lg.enabled_ then []
  else
    match lg.use_file_, lg.file_stream_ with
    | true, some path => [.logFile path m, .logConsole m]
    | _, _ => [.logConsole m]

/-- The macro `CTP_DEBUG(format, ...)`: the arguments are evaluated and `debug` is
called only when the logger is enabled. The Linux sources include
`common/debug_logger.h`; `logger.h` carries the same include guard
(`DEBUG_LOGGER_H`) and its macro text is used for both. -/
def CTP_DEBUG (lg : DebugLogger) (format : String) (args : List FmtArg) : List Effect :=
  if lg.isEnabled then lg.debug ⟨format, args⟩ else []

/-! ## The callback tables (`spi_bridge.h`) -/

/-- The struct MdSpiCallbacks: the context pointer and one nullable function pointer per market-data event. -/
structure MdSpiCallbacks where
  user_data : Ptr
  on_front_connected : Ptr
  on_front_disconnected : Ptr
  on_heart_beat_warning : Ptr
  on_rsp_user_login : Ptr
  on_rsp_user_logout : Ptr
  on_rsp_error : Ptr
  on_rsp_sub_market_data : Ptr
  on_rsp_unsub_market_data : Ptr
  on_rtn_depth_market_data : Ptr
  on_rtn_for_quote_rsp : Ptr
  deriving DecidableEq, Repr

/-- The struct TraderSpiCallbacks: the context pointer and one nullable function pointer per trader event. -/
structure TraderSpiCallbacks where
  user_data : Ptr
  on_front_connected : Ptr
  on_front_disconnected : Ptr
  on_heart_beat_warning : Ptr
  on_rsp_authenticate : Ptr
  on_rsp_user_login : Ptr
  on_rsp_user_logout : Ptr
  on_rsp_error : Ptr
  on_rsp_order_insert : Ptr
  on_rsp_order_action : Ptr
  on_rtn_order : Ptr
  on_rtn_trade : Ptr
  on_rsp_qry_trading_account : Ptr
  on_rsp_qry_investor_position : Ptr
  on_err_rtn_order_insert : Ptr
  on_err_rtn_order_action : Ptr
  on_rsp_qry_order : Ptr
  on_rsp_qry_trade : Ptr
  on_rsp_qry_instrument : Ptr
  on_rsp_qry_instrument_margin_rate : Ptr
  on_rsp_qry_instrument_commission_rate : Ptr
  on_rsp_qry_exchange : Ptr
  on_rsp_qry_product : Ptr
  on_rsp_settlement_info_confirm : Ptr
  on_rsp_parked_order_insert : Ptr
  on_rsp_parked_order_action : Ptr
  on_rsp_exec_order_insert : Ptr
  on_rsp_exec_order_action : Ptr
  on_rsp_for_quote_insert : Ptr
  on_rsp_quote_insert : Ptr
  on_rsp_quote_action : Ptr
  on_rsp_batch_order_action : Ptr
  on_rsp_remove_parked_order : Ptr
  on_rsp_remove_parked_order_action : Ptr
  on_rsp_qry_max_order_volume : Ptr
  on_rsp_qry_depth_market_data : Ptr
  on_rsp_qry_settlement_info : Ptr
  on_rsp_qry_transfer_bank : Ptr
  on_rsp_qry_investor_position_detail : Ptr
  on_rsp_qry_notice : Ptr
  deriving DecidableEq, Repr

/-! ## The adapters (`spi_bridge.cpp`)

Each method takes the adapter (`self`), the logger state when the method uses
`CTP_DEBUG`, and the arguments the vendor runtime passes. The logger state is
read once per method: a callback that reconfigures the logger while it runs is
outside this model. -/

/-- The class MdSpiBridge: its only data member is the table copied at construction. -/
structure MdSpiBridge where
  callbacks : MdSpiCallbacks
  deriving DecidableEq, Repr

/-- The class TraderSpiBridge: its only data member is the table copied at construction. -/
structure TraderSpiBridge where
  callbacks : TraderSpiCallbacks
  deriving DecidableEq, Repr

/-- The method MdSpiBridge::OnFrontConnected. -/
def MdSpiBridge.OnFrontConnected (self : MdSpiBridge) (lg : DebugLogger) : List Effect :=
  CTP_DEBUG lg "MdSPI OnFrontConnected回调触发" [] ++
  (if self.callbacks.on_front_connected ≠ 0 then
    CTP_DEBUG lg "调用Rust回调 on_front_connected, user_data=%p" [.ptr self.callbacks.user_data] ++
    [.invoke self.callbacks.on_front_connected [.ptr self.callbacks.user_data]] ++
    CTP_DEBUG lg "Rust回调 on_front_connected 完成" []
  else
    CTP_DEBUG lg "on_front_connected回调为空，跳过调用" [] ++
    [.cout "[MdSpiBridge] ❌ on_front_connected回调为空!"])

/-- The method MdSpiBridge::OnFrontDisconnected. -/
def MdSpiBridge.OnFrontDisconnected (self : MdSpiBridge) (nReason : Int) : List Effect :=
  if self.callbacks.on_front_disconnected ≠ 0 then
    [.invoke self.callbacks.on_front_disconnected [.ptr self.callbacks.user_data, .int nReason]]
  else []

/-- The method MdSpiBridge::OnHeartBeatWarning. -/
def MdSpiBridge.OnHeartBeatWarning (self : MdSpiBridge) (nTimeLapse : Int) : List Effect :=
  if self.callbacks.on_heart_beat_warning ≠ 0 then
    [.invoke self.callbacks.on_heart_beat_warning [.ptr self.callbacks.user_data, .int nTimeLapse]]
  else []

/-- The method MdSpiBridge::OnRspUserLogin. -/
def MdSpiBridge.OnRspUserLogin (self : MdSpiBridge) (lg : DebugLogger)
    (pRspUserLogin pRspInfo : Ptr) (nRequestID : Int) (bIsLast : Bool) : List Effect :=
  CTP_DEBUG lg "MdSPI OnRspUserLogin回调触发, request_id=%d, is_last=%s"
    [.int nRequestID, .str (if bIsLast then "true" else "false")] ++
  (if pRspInfo ≠ 0 then
    CTP_DEBUG lg "MD登录响应信息: ErrorID=%d, ErrorMsg=%.64s"
      [.load pRspInfo "ErrorID", .load pRspInfo "ErrorMsg"]
  else []) ++
  (if self.callbacks.on_rsp_user_login ≠ 0 then
    CTP_DEBUG lg "调用Rust回调 on_rsp_user_login" [] ++
    [.invoke self.callbacks.on_rsp_user_login
      [.ptr self.callbacks.user_data, .ptr pRspUserLogin, .ptr pRspInfo, .int nRequestID,
        .int (if bIsLast then 1 else 0)]] ++
    CTP_DEBUG lg "Rust回调 on_rsp_user_login 完成" []
  else [])

/-- The method MdSpiBridge::OnRspUserLogout. -/
def MdSpiBridge.OnRspUserLogout (self : MdSpiBridge)
    (pUserLogout pRspInfo : Ptr) (nRequestID : Int) (bIsLast : Bool) : List Effect :=
  if self.callbacks.on_rsp_user_logout ≠ 0 then
    [.invoke self.callbacks.on_rsp_user_logout
      [.ptr self.callbacks.user_data, .ptr pUserLogout, .ptr pRspInfo, .int nRequestID,
        .int (if bIsLast then 1 else 0)]]
  else []

/-- The method MdSpiBridge::OnRspError. -/
def MdSpiBridge.OnRspError (self : MdSpiBridge)
    (pRspInfo : Ptr) (nRequestID : Int) (bIsLast : Bool) : List Effect :=
  if self.callbacks.on_rsp_error ≠ 0 then
    [.invoke self.callbacks.on_rsp_error
      [.ptr self.callbacks.user_data, .ptr pRspInfo, .int nRequestID,
        .int (if bIsLast then 1 else 0)]]
  else []

/-- The method MdSpiBridge::OnRspSubMarketData. -/
def MdSpiBridge.OnRspSubMarketData (self : MdSpiBridge)
    (pSpecificInstrument pRspInfo : Ptr) (nRequestID : Int) (bIsLast : Bool) : List Effect :=
  if self.callbacks.on_rsp_sub_market_data ≠ 0 then
    [.invoke self.callbacks.on_rsp_sub_market_data
      [.ptr self.callbacks.user_data, .ptr pSpecificInstrument, .ptr pRspInfo, .int nRequestID,
        .int (if bIsLast then 1 else 0)]]
  else []

/-- The method MdSpiBridge::OnRspUnSubMarketData. -/
def MdSpiBridge.OnRspUnSubMarketData (self : MdSpiBridge)
    (pSpecificInstrument pRspInfo : Ptr) (nRequestID : Int) (bIsLast : Bool) : List Effect :=
  if self.callbacks.on_rsp_unsub_market_data ≠ 0 then
    [.invoke self.callbacks.on_rsp_unsub_market_data
      [.ptr self.callbacks.user_data, .ptr pSpecificInstrument, .ptr pRspInfo, .int nRequestID,
        .int (if bIsLast then 1 else 0)]]
  else []

/-- The method MdSpiBridge::OnRtnDepthMarketData. -/
def MdSpiBridge.OnRtnDepthMarketData (self : MdSpiBridge) (lg : DebugLogger)
    (pDepthMarketData : Ptr) : List Effect :=
  (if pDepthMarketData ≠ 0 then
    CTP_DEBUG lg "MdSPI OnRtnDepthMarketData回调触发, InstrumentID=%.31s, LastPrice=%.8f"
      [.load pDepthMarketData "InstrumentID", .load pDepthMarketData "LastPrice"]
  else
    CTP_DEBUG lg "MdSPI OnRtnDepthMarketData回调触发, 但数据为空" []) ++
  (if self.callbacks.on_rtn_depth_market_data ≠ 0 then
    [.invoke self.callbacks.on_rtn_depth_market_data
      [.ptr self.callbacks.user_data, .ptr pDepthMarketData]]
  else [])

/-- The method MdSpiBridge::OnRtnForQuoteRsp. -/
def MdSpiBridge.OnRtnForQuoteRsp (self : MdSpiBridge) (pForQuoteRsp : Ptr) : List Effect :=
  if self.callbacks.on_rtn_for_quote_rsp ≠ 0 then
    [.invoke self.callbacks.on_rtn_for_quote_rsp [.ptr self.callbacks.user_data, .ptr pForQuoteRsp]]
  else []

/-- The method TraderSpiBridge::OnFrontConnected. -/
def TraderSpiBridge.OnFrontConnected (self : TraderSpiBridge) (lg : DebugLogger) : List Effect :=
  CTP_DEBUG lg "TraderSPI OnFrontConnected回调触发" [] ++
  (if self.callbacks.on_front_connected ≠ 0 then
    CTP_DEBUG lg "调用Rust回调 on_front_connected, user_data=%p" [.ptr self.callbacks.user_data] ++
    [.invoke self.callbacks.on_front_connected [.ptr self.callbacks.user_data]] ++
    CTP_DEBUG lg "Rust回调 on_front_connected 完成" []
  else
    CTP_DEBUG lg "on_front_connected回调为空，跳过调用" [] ++
    [.cout "[TraderSpiBridge] ❌ on_front_connected回调为空!"])

/-- The method TraderSpiBridge::OnFrontDisconnected. -/
def TraderSpiBridge.OnFrontDisconnected (self : TraderSpiBridge) (nReason : Int) : List Effect :=
  if self.callbacks.on_front_disconnected ≠ 0 then
    [.invoke self.callbacks.on_front_disconnected [.ptr self.callbacks.user_data, .int nReason]]
  else []

/-- The method TraderSpiBridge::OnHeartBeatWarning. -/
def TraderSpiBridge.OnHeartBeatWarning (self : TraderSpiBridge) (nTimeLapse : Int) : List Effect :=
  if self.callbacks.on_heart_beat_warning ≠ 0 then
    [.invoke self.callbacks.on_heart_beat_warning [.ptr self.callbacks.user_data, .int nTimeLapse]]
  else []

/-- The method TraderSpiBridge::OnRspAuthenticate. -/
def TraderSpiBridge.OnRspAuthenticate (self : TraderSpiBridge)
    (pRspAuthenticateField pRspInfo : Ptr) (nRequestID : Int) (bIsLast : Bool) : List Effect :=
  if self.callbacks.on_rsp_authenticate ≠ 0 then
    [.invoke self.callbacks.on_rsp_authenticate
      [.ptr self.callbacks.user_data, .ptr pRspAuthenticateField, .ptr pRspInfo, .int nRequestID,
        .int (if bIsLast then 1 else 0)]]
  else []

/-- The method TraderSpiBridge::OnRspUserLogin. -/
def TraderSpiBridge.OnRspUserLogin (self : TraderSpiBridge) (lg : DebugLogger)
    (pRspUserLogin pRspInfo : Ptr) (nRequestID : Int) (bIsLast : Bool) : List Effect :=
  CTP_DEBUG lg "TraderSPI OnRspUserLogin回调触发, request_id=%d, is_last=%s"
    [.int nRequestID, .str (if bIsLast then "true" else "false")] ++
  (if pRspInfo ≠ 0 then
    CTP_DEBUG lg "Trader登录响应信息: ErrorID=%d, ErrorMsg=%.64s"
      [.load pRspInfo "ErrorID", .load pRspInfo "ErrorMsg"]
  else []) ++
  (if self.callbacks.on_rsp_user_login ≠ 0 then
    CTP_DEBUG lg "调用Rust回调 on_rsp_user_login" [] ++
    [.invoke self.callbacks.on_rsp_user_login
      [.ptr self.callbacks.user_data, .ptr pRspUserLogin, .ptr pRspInfo, .int nRequestID,
        .int (if bIsLast then 1 else 0)]] ++
    CTP_DEBUG lg "Rust回调 on_rsp_user_login 完成" []
  else [])

/-- The method TraderSpiBridge::OnRspUserLogout. -/
def TraderSpiBridge.OnRspUserLogout (self : TraderSpiBridge)
    (pUserLogout pRspInfo : Ptr) (nRequestID : Int) (bIsLast : Bool) : List Effect :=
  if self.callbacks.on_rsp_user_logout ≠ 0 then
    [.invoke self.callbacks.on_rsp_user_logout
      [.ptr self.callbacks.user_data, .ptr pUserLogout, .ptr pRspInfo, .int nRequestID,
        .int (if bIsLast then 1 else 0)]]
  else []

/-- The method TraderSpiBridge::OnRspError. -/
def TraderSpiBridge.OnRspError (self : TraderSpiBridge)
    (pRspInfo : Ptr) (nRequestID : Int) (bIsLast : Bool) : List Effect :=
  if self.callbacks.on_rsp_error ≠ 0 then
    [.invoke self.callbacks.on_rsp_error
      [.ptr self.callbacks.user_data, .ptr pRspInfo, .int nRequestID,
        .int (if bIsLast then 1 else 0)]]
  else []

/-- The method TraderSpiBridge::OnRspOrderInsert. -/
def TraderSpiBridge.OnRspOrderInsert (self : TraderSpiBridge)
    (pInputOrder pRspInfo : Ptr) (nRequestID : Int) (bIsLast : Bool) : List Effect :=
  if self.callbacks.on_rsp_order_insert ≠ 0 then
    [.invoke self.callbacks.on_rsp_order_insert
      [.ptr self.callbacks.user_data, .ptr pInputOrder, .ptr pRspInfo, .int nRequestID,
        .int (if bIsLast then 1 else 0)]]
  else []

/-- The method TraderSpiBridge::OnRspOrderAction. -/
def TraderSpiBridge.OnRspOrderAction (self : TraderSpiBridge)
    (pInputOrderAction pRspInfo : Ptr) (nRequestID : Int) (bIsLast : Bool) : List Effect :=
  if self.callbacks.on_rsp_order_action ≠ 0 then
    [.invoke self.callbacks.on_rsp_order_action
      [.ptr self.callbacks.user_data, .ptr pInputOrderAction, .ptr pRspInfo, .int nRequestID,
        .int (if bIsLast then 1 else 0)]]
  else []

/-- The method TraderSpiBridge::OnRtnOrder. -/
def TraderSpiBridge.OnRtnOrder (self : TraderSpiBridge) (lg : DebugLogger)
    (pOrder : Ptr) : List Effect :=
  (if pOrder ≠ 0 then
    CTP_DEBUG lg "TraderSPI OnRtnOrder回调触发, OrderRef=%.13s, OrderStatus=%c"
      [.load pOrder "OrderRef", .load pOrder "OrderStatus"]
  else
    CTP_DEBUG lg "TraderSPI OnRtnOrder回调触发, 但数据为空" []) ++
  (if self.callbacks.on_rtn_order ≠ 0 then
    [.invoke self.callbacks.on_rtn_order [.ptr self.callbacks.user_data, .ptr pOrder]]
  else [])

/-- The method TraderSpiBridge::OnRtnTrade. -/
def TraderSpiBridge.OnRtnTrade (self : TraderSpiBridge) (lg : DebugLogger)
    (pTrade : Ptr) : List Effect :=
  (if pTrade ≠ 0 then
    CTP_DEBUG lg "TraderSPI OnRtnTrade回调触发, TradeID=%.21s, Price=%.8f, Volume=%d"
      [.load pTrade "TradeID", .load pTrade "Price", .load pTrade "Volume"]
  else
    CTP_DEBUG lg "TraderSPI OnRtnTrade回调触发, 但数据为空" []) ++
  (if self.callbacks.on_rtn_trade ≠ 0 then
    [.invoke self.callbacks.on_rtn_trade [.ptr self.callbacks.user_data, .ptr pTrade]]
  else [])

/-- The method TraderSpiBridge::OnRspQryTradingAccount. -/
def TraderSpiBridge.OnRspQryTradingAccount (self : TraderSpiBridge)
    (pTradingAccount pRspInfo : Ptr) (nRequestID : Int) (bIsLast : Bool) : List Effect :=
  if self.callbacks.on_rsp_qry_trading_account ≠ 0 then
    [.invoke self.callbacks.on_rsp_qry_trading_account
      [.ptr self.callbacks.user_data, .ptr pTradingAccount, .ptr pRspInfo, .int nRequestID,
        .int (if bIsLast then 1 else 0)]]
  else []

/-- The method TraderSpiBridge::OnRspQryInvestorPosition. -/
def TraderSpiBridge.OnRspQryInvestorPosition (self : TraderSpiBridge)
    (pInvestorPosition pRspInfo : Ptr) (nRequestID : Int) (bIsLast : Bool) : List Effect :=
  if self.callbacks.on_rsp_qry_investor_position ≠ 0 then
    [.invoke self.callbacks.on_rsp_qry_investor_position
      [.ptr self.callbacks.user_data, .ptr pInvestorPosition, .ptr pRspInfo, .int nRequestID,
        .int (if bIsLast then 1 else 0)]]
  else []

/-- The method TraderSpiBridge::OnErrRtnOrderInsert. -/
def TraderSpiBridge.OnErrRtnOrderInsert (self : TraderSpiBridge)
    (pInputOrder pRspInfo : Ptr) : List Effect :=
  if self.callbacks.on_err_rtn_order_insert ≠ 0 then
    [.invoke self.callbacks.on_err_rtn_order_insert
      [.ptr self.callbacks.user_data, .ptr pInputOrder, .ptr pRspInfo]]
  else []

/-- The method TraderSpiBridge::OnErrRtnOrderAction. -/
def TraderSpiBridge.OnErrRtnOrderAction (self : TraderSpiBridge)
    (pOrderAction pRspInfo : Ptr) : List Effect :=
  if self.callbacks.on_err_rtn_order_action ≠ 0 then
    [.invoke self.callbacks.on_err_rtn_order_action
      [.ptr self.callbacks.user_data, .ptr pOrderAction, .ptr pRspInfo]]
  else []

/-- The method TraderSpiBridge::OnRspQryOrder. -/
def TraderSpiBridge.OnRspQryOrder (self : TraderSpiBridge)
    (pOrder pRspInfo : Ptr) (nRequestID : Int) (bIsLast : Bool) : List Effect :=
  if self.callbacks.on_rsp_qry_order ≠ 0 then
    [.invoke self.callbacks.on_rsp_qry_order
      [.ptr self.callbacks.user_data, .ptr pOrder, .ptr pRspInfo, .int nRequestID,
        .int (if bIsLast then 1 else 0)]]
  else []

/-- The method TraderSpiBridge::OnRspQryTrade. -/
def TraderSpiBridge.OnRspQryTrade (self : TraderSpiBridge)
    (pTrade pRspInfo : Ptr) (nRequestID : Int) (bIsLast : Bool) : List Effect :=
  if self.callbacks.on_rsp_qry_trade ≠ 0 then
    [.invoke self.callbacks.on_rsp_qry_trade
      [.ptr self.callbacks.user_data, .ptr pTrade, .ptr pRspInfo, .int nRequestID,
        .int (if bIsLast then 1 else 0)]]
  else []

/-- The method TraderSpiBridge::OnRspQryInstrument. -/
def TraderSpiBridge.OnRspQryInstrument (self : TraderSpiBridge)
    (pInstrument pRspInfo : Ptr) (nRequestID : Int) (bIsLast : Bool) : List Effect :=
  if self.callbacks.on_rsp_qry_instrument ≠ 0 then
    [.invoke self.callbacks.on_rsp_qry_instrument
      [.ptr self.callbacks.user_data, .ptr pInstrument, .ptr pRspInfo, .int nRequestID,
        .int (if bIsLast then 1 else 0)]]
  else []

/-- The method TraderSpiBridge::OnRspQryInstrumentMarginRate. -/
def TraderSpiBridge.OnRspQryInstrumentMarginRate (self : TraderSpiBridge)
    (pInstrumentMarginRate pRspInfo : Ptr) (nRequestID : Int) (bIsLast : Bool) : List Effect :=
  if self.callbacks.on_rsp_qry_instrument_margin_rate ≠ 0 then
    [.invoke self.callbacks.on_rsp_qry_instrument_margin_rate
      [.ptr self.callbacks.user_data, .ptr pInstrumentMarginRate, .ptr pRspInfo, .int nRequestID,
        .int (if bIsLast then 1 else 0)]]
  else []

/-- The method TraderSpiBridge::OnRspQryInstrumentCommissionRate. -/
def TraderSpiBridge.OnRspQryInstrumentCommissionRate (self : TraderSpiBridge)
    (pInstrumentCommissionRate pRspInfo : Ptr) (nRequestID : Int) (bIsLast : Bool) : List Effect :=
  if self.callbacks.on_rsp_qry_instrument_commission_rate ≠ 0 then
    [.invoke self.callbacks.on_rsp_qry_instrument_commission_rate
      [.ptr self.callbacks.user_data, .ptr pInstrumentCommissionRate, .ptr pRspInfo, .int nRequestID,
        .int (if bIsLast then 1 else 0)]]
  else []

/-- The method TraderSpiBridge::OnRspQryExchange. -/
def TraderSpiBridge.OnRspQryExchange (self : TraderSpiBridge)
    (pExchange pRspInfo : Ptr) (nRequestID : Int) (bIsLast : Bool) : List Effect :=
  if self.callbacks.on_rsp_qry_exchange ≠ 0 then
    [.invoke self.callbacks.on_rsp_qry_exchange
      [.ptr self.callbacks.user_data, .ptr pExchange, .ptr pRspInfo, .int nRequestID,
        .int (if bIsLast then 1 else 0)]]
  else []

/-- The method TraderSpiBridge::OnRspQryProduct. -/
def TraderSpiBridge.OnRspQryProduct (self : TraderSpiBridge)
    (pProduct pRspInfo : Ptr) (nRequestID : Int) (bIsLast : Bool) : List Effect :=
  if self.callbacks.on_rsp_qry_product ≠ 0 then
    [.invoke self.callbacks.on_rsp_qry_product
      [.ptr self.callbacks.user_data, .ptr pProduct, .ptr pRspInfo, .int nRequestID,
        .int (if bIsLast then 1 else 0)]]
  else []

/-- The method TraderSpiBridge::OnRspSettlementInfoConfirm. -/
def TraderSpiBridge.OnRspSettlementInfoConfirm (self : TraderSpiBridge)
    (pSettlementInfoConfirm pRspInfo : Ptr) (nRequestID : Int) (bIsLast : Bool) : List Effect :=
  if self.callbacks.on_rsp_settlement_info_confirm ≠ 0 then
    [.invoke self.callbacks.on_rsp_settlement_info_confirm
      [.ptr self.callbacks.user_data, .ptr pSettlementInfoConfirm, .ptr pRspInfo, .int nRequestID,
        .int (if bIsLast then 1 else 0)]]
  else []

/-- The method TraderSpiBridge::OnRspParkedOrderInsert. -/
def TraderSpiBridge.OnRspParkedOrderInsert (self : TraderSpiBridge)
    (pParkedOrder pRspInfo : Ptr) (nRequestID : Int) (bIsLast : Bool) : List Effect :=
  if self.callbacks.on_rsp_parked_order_insert ≠ 0 then
    [.invoke self.callbacks.on_rsp_parked_order_insert
      [.ptr self.callbacks.user_data, .ptr pParkedOrder, .ptr pRspInfo, .int nRequestID,
        .int (if bIsLast then 1 else 0)]]
  else []

/-- The method TraderSpiBridge::OnRspParkedOrderAction. -/
def TraderSpiBridge.OnRspParkedOrderAction (self : TraderSpiBridge)
    (pParkedOrderAction pRspInfo : Ptr) (nRequestID : Int) (bIsLast : Bool) : List Effect :=
  if self.callbacks.on_rsp_parked_order_action ≠ 0 then
    [.invoke self.callbacks.on_rsp_parked_order_action
      [.ptr self.callbacks.user_data, .ptr pParkedOrderAction, .ptr pRspInfo, .int nRequestID,
        .int (if bIsLast then 1 else 0)]]
  else []

/-- The method TraderSpiBridge::OnRspExecOrderInsert. -/
def TraderSpiBridge.OnRspExecOrderInsert (self : TraderSpiBridge)
    (pInputExecOrder pRspInfo : Ptr) (nRequestID : Int) (bIsLast : Bool) : List Effect :=
  if self.callbacks.on_rsp_exec_order_insert ≠ 0 then
    [.invoke self.callbacks.on_rsp_exec_order_insert
      [.ptr self.callbacks.user_data, .ptr pInputExecOrder, .ptr pRspInfo, .int nRequestID,
        .int (if bIsLast then 1 else 0)]]
  else []

/-- The method TraderSpiBridge::OnRspExecOrderAction. -/
def TraderSpiBridge.OnRspExecOrderAction (self : TraderSpiBridge)
    (pInputExecOrderAction pRspInfo : Ptr) (nRequestID : Int) (bIsLast : Bool) : List Effect :=
  if self.callbacks.on_rsp_exec_order_action ≠ 0 then
    [.invoke self.callbacks.on_rsp_exec_order_action
      [.ptr self.callbacks.user_data, .ptr pInputExecOrderAction, .ptr pRspInfo, .int nRequestID,
        .int (if bIsLast then 1 else 0)]]
  else []

/-- The method TraderSpiBridge::OnRspForQuoteInsert. -/
def TraderSpiBridge.OnRspForQuoteInsert (self : TraderSpiBridge)
    (pInputForQuote pRspInfo : Ptr) (nRequestID : Int) (bIsLast : Bool) : List Effect :=
  if self.callbacks.on_rsp_for_quote_insert ≠ 0 then
    [.invoke self.callbacks.on_rsp_for_quote_insert
      [.ptr self.callbacks.user_data, .ptr pInputForQuote, .ptr pRspInfo, .int nRequestID,
        .int (if bIsLast then 1 else 0)]]
  else []

/-- The method TraderSpiBridge::OnRspQuoteInsert. -/
def TraderSpiBridge.OnRspQuoteInsert (self : TraderSpiBridge)
    (pInputQuote pRspInfo : Ptr) (nRequestID : Int) (bIsLast : Bool) : List Effect :=
  if self.callbacks.on_rsp_quote_insert ≠ 0 then
    [.invoke self.callbacks.on_rsp_quote_insert
      [.ptr self.callbacks.user_data, .ptr pInputQuote, .ptr pRspInfo, .int nRequestID,
        .int (if bIsLast then 1 else 0)]]
  else []

/-- The method TraderSpiBridge::OnRspQuoteAction. -/
def TraderSpiBridge.OnRspQuoteAction (self : TraderSpiBridge)
    (pInputQuoteAction pRspInfo : Ptr) (nRequestID : Int) (bIsLast : Bool) : List Effect :=
  if self.callbacks.on_rsp_quote_action ≠ 0 then
    [.invoke self.callbacks.on_rsp_quote_action
      [.ptr self.callbacks.user_data, .ptr pInputQuoteAction, .ptr pRspInfo, .int nRequestID,
        .int (if bIsLast then 1 else 0)]]
  else []

/-- The method TraderSpiBridge::OnRspBatchOrderAction. -/
def TraderSpiBridge.OnRspBatchOrderAction (self : TraderSpiBridge)
    (pInputBatchOrderAction pRspInfo : Ptr) (nRequestID : Int) (bIsLast : Bool) : List Effect :=
  if self.callbacks.on_rsp_batch_order_action ≠ 0 then
    [.invoke self.callbacks.on_rsp_batch_order_action
      [.ptr self.callbacks.user_data, .ptr pInputBatchOrderAction, .ptr pRspInfo, .int nRequestID,
        .int (if bIsLast then 1 else 0)]]
  else []

/-- The method TraderSpiBridge::OnRspRemoveParkedOrder. -/
def TraderSpiBridge.OnRspRemoveParkedOrder (self : TraderSpiBridge)
    (pRemoveParkedOrder pRspInfo : Ptr) (nRequestID : Int) (bIsLast : Bool) : List Effect :=
  if self.callbacks.on_rsp_remove_parked_order ≠ 0 then
    [.invoke self.callbacks.on_rsp_remove_parked_order
      [.ptr self.callbacks.user_data, .ptr pRemoveParkedOrder, .ptr pRspInfo, .int nRequestID,
        .int (if bIsLast then 1 else 0)]]
  else []

/-- The method TraderSpiBridge::OnRspRemoveParkedOrderAction. -/
def TraderSpiBridge.OnRspRemoveParkedOrderAction (self : TraderSpiBridge)
    (pRemoveParkedOrderAction pRspInfo : Ptr) (nRequestID : Int) (bIsLast : Bool) : List Effect :=
  if self.callbacks.on_rsp_remove_parked_order_action ≠ 0 then
    [.invoke self.callbacks.on_rsp_remove_parked_order_action
      [.ptr self.callbacks.user_data, .ptr pRemoveParkedOrderAction, .ptr pRspInfo, .int nRequestID,
        .int (if bIsLast then 1 else 0)]]
  else []

/-- The method TraderSpiBridge::OnRspQryMaxOrderVolume. -/
def TraderSpiBridge.OnRspQryMaxOrderVolume (self : TraderSpiBridge)
    (pQryMaxOrderVolume pRspInfo : Ptr) (nRequestID : Int) (bIsLast : Bool) : List Effect :=
  if self.callbacks.on_rsp_qry_max_order_volume ≠ 0 then
    [.invoke self.callbacks.on_rsp_qry_max_order_volume
      [.ptr self.callbacks.user_data, .ptr pQryMaxOrderVolume, .ptr pRspInfo, .int nRequestID,
        .int (if bIsLast then 1 else 0)]]
  else []

/-- The method TraderSpiBridge::OnRspQryDepthMarketData. -/
def TraderSpiBridge.OnRspQryDepthMarketData (self : TraderSpiBridge)
    (pDepthMarketData pRspInfo : Ptr) (nRequestID : Int) (bIsLast : Bool) : List Effect :=
  if self.callbacks.on_rsp_qry_depth_market_data ≠ 0 then
    [.invoke self.callbacks.on_rsp_qry_depth_market_data
      [.ptr self.callbacks.user_data, .ptr pDepthMarketData, .ptr pRspInfo, .int nRequestID,
        .int (if bIsLast then 1 else 0)]]
  else []

/-- The method TraderSpiBridge::OnRspQrySettlementInfo. -/
def TraderSpiBridge.OnRspQrySettlementInfo (self : TraderSpiBridge)
    (pSettlementInfo pRspInfo : Ptr) (nRequestID : Int) (bIsLast : Bool) : List Effect :=
  if self.callbacks.on_rsp_qry_settlement_info ≠ 0 then
    [.invoke self.callbacks.on_rsp_qry_settlement_info
      [.ptr self.callbacks.user_data, .ptr pSettlementInfo, .ptr pRspInfo, .int nRequestID,
        .int (if bIsLast then 1 else 0)]]
  else []

/-- The method TraderSpiBridge::OnRspQryTransferBank. -/
def TraderSpiBridge.OnRspQryTransferBank (self : TraderSpiBridge)
    (pTransferBank pRspInfo : Ptr) (nRequestID : Int) (bIsLast : Bool) : List Effect :=
  if self.callbacks.on_rsp_qry_transfer_bank ≠ 0 then
    [.invoke self.callbacks.on_rsp_qry_transfer_bank
      [.ptr self.callbacks.user_data, .ptr pTransferBank, .ptr pRspInfo, .int nRequestID,
        .int (if bIsLast then 1 else 0)]]
  else []

/-- The method TraderSpiBridge::OnRspQryInvestorPositionDetail. -/
def TraderSpiBridge.OnRspQryInvestorPositionDetail (self : TraderSpiBridge)
    (pInvestorPositionDetail pRspInfo : Ptr) (nRequestID : Int) (bIsLast : Bool) : List Effect :=
  if self.callbacks.on_rsp_qry_investor_position_detail ≠ 0 then
    [.invoke self.callbacks.on_rsp_qry_investor_position_detail
      [.ptr self.callbacks.user_data, .ptr pInvestorPositionDetail, .ptr pRspInfo, .int nRequestID,
        .int (if bIsLast then 1 else 0)]]
  else []

/-- The method TraderSpiBridge::OnRspQryNotice. -/
def TraderSpiBridge.OnRspQryNotice (self : TraderSpiBridge)
    (pNotice pRspInfo : Ptr) (nRequestID : Int) (bIsLast : Bool) : List Effect :=
  if self.callbacks.on_rsp_qry_notice ≠ 0 then
    [.invoke self.callbacks.on_rsp_qry_notice
      [.ptr self.callbacks.user_data, .ptr pNotice, .ptr pRspInfo, .int nRequestID,
        .int (if bIsLast then 1 else 0)]]
  else []

/-! ## Vendor events

One constructor per virtual method of the vendor event interface, carrying the
arguments of that method; `deliver` is the virtual dispatch. -/

/-- An event of the interface CThostFtdcMdSpi as delivered by the vendor runtime. -/
inductive MdEvent where
  | OnFrontConnected
  | OnFrontDisconnected (nReason : Int)
  | OnHeartBeatWarning (nTimeLapse : Int)
  | OnRspUserLogin (pRspUserLogin pRspInfo : Ptr) (nRequestID : Int) (bIsLast : Bool)
  | OnRspUserLogout (pUserLogout pRspInfo : Ptr) (nRequestID : Int) (bIsLast : Bool)
  | OnRspError (pRspInfo : Ptr) (nRequestID : Int) (bIsLast : Bool)
  | OnRspSubMarketData (pSpecificInstrument pRspInfo : Ptr) (nRequestID : Int) (bIsLast : Bool)
  | OnRspUnSubMarketData (pSpecificInstrument pRspInfo : Ptr) (nRequestID : Int) (bIsLast : Bool)
  | OnRtnDepthMarketData (pDepthMarketData : Ptr)
  | OnRtnForQuoteRsp (pForQuoteRsp : Ptr)
  deriving DecidableEq, Repr

/-- An event of the interface CThostFtdcTraderSpi as delivered by the vendor runtime. -/
inductive TraderEvent where
  | OnFrontConnected
  | OnFrontDisconnected (nReason : Int)
  | OnHeartBeatWarning (nTimeLapse : Int)
  | OnRspAuthenticate (pRspAuthenticateField pRspInfo : Ptr) (nRequestID : Int) (bIsLast : Bool)
  | OnRspUserLogin (pRspUserLogin pRspInfo : Ptr) (nRequestID : Int) (bIsLast : Bool)
  | OnRspUserLogout (pUserLogout pRspInfo : Ptr) (nRequestID : Int) (bIsLast : Bool)
  | OnRspError (pRspInfo : Ptr) (nRequestID : Int) (bIsLast : Bool)
  | OnRspOrderInsert (pInputOrder pRspInfo : Ptr) (nRequestID : Int) (bIsLast : Bool)
  | OnRspOrderAction (pInputOrderAction pRspInfo : Ptr) (nRequestID : Int) (bIsLast : Bool)
  | OnRtnOrder (pOrder : Ptr)
  | OnRtnTrade (pTrade : Ptr)
  | OnRspQryTradingAccount (pTradingAccount pRspInfo : Ptr) (nRequestID : Int) (bIsLast : Bool)
  | OnRspQryInvestorPosition (pInvestorPosition pRspInfo : Ptr) (nRequestID : Int) (bIsLast : Bool)
  | OnErrRtnOrderInsert (pInputOrder pRspInfo : Ptr)
  | OnErrRtnOrderAction (pOrderAction pRspInfo : Ptr)
  | OnRspQryOrder (pOrder pRspInfo : Ptr) (nRequestID : Int) (bIsLast : Bool)
  | OnRspQryTrade (pTrade pRspInfo : Ptr) (nRequestID : Int) (bIsLast : Bool)
  | OnRspQryInstrument (pInstrument pRspInfo : Ptr) (nRequestID : Int) (bIsLast : Bool)
  | OnRspQryInstrumentMarginRate (pInstrumentMarginRate pRspInfo : Ptr) (nRequestID : Int) (bIsLast : Bool)
  | OnRspQryInstrumentCommissionRate (pInstrumentCommissionRate pRspInfo : Ptr) (nRequestID : Int) (bIsLast : Bool)
  | OnRspQryExchange (pExchange pRspInfo : Ptr) (nRequestID : Int) (bIsLast : Bool)
  | OnRspQryProduct (pProduct pRspInfo : Ptr) (nRequestID : Int) (bIsLast : Bool)
  | OnRspSettlementInfoConfirm (pSettlementInfoConfirm pRspInfo : Ptr) (nRequestID : Int) (bIsLast : Bool)
  | OnRspParkedOrderInsert (pParkedOrder pRspInfo : Ptr) (nRequestID : Int) (bIsLast : Bool)
  | OnRspParkedOrderAction (pParkedOrderAction pRspInfo : Ptr) (nRequestID : Int) (bIsLast : Bool)
  | OnRspExecOrderInsert (pInputExecOrder pRspInfo : Ptr) (nRequestID : Int) (bIsLast : Bool)
  | OnRspExecOrderAction (pInputExecOrderAction pRspInfo : Ptr) (nRequestID : Int) (bIsLast : Bool)
  | OnRspForQuoteInsert (pInputForQuote pRspInfo : Ptr) (nRequestID : Int) (bIsLast : Bool)
  | OnRspQuoteInsert (pInputQuote pRspInfo : Ptr) (nRequestID : Int) (bIsLast : Bool)
  | OnRspQuoteAction (pInputQuoteAction pRspInfo : Ptr) (nRequestID : Int) (bIsLast : Bool)
  | OnRspBatchOrderAction (pInputBatchOrderAction pRspInfo : Ptr) (nRequestID : Int) (bIsLast : Bool)
  | OnRspRemoveParkedOrder (pRemoveParkedOrder pRspInfo : Ptr) (nRequestID : Int) (bIsLast : Bool)
  | OnRspRemoveParkedOrderAction (pRemoveParkedOrderAction pRspInfo : Ptr) (nRequestID : Int) (bIsLast : Bool)
  | OnRspQryMaxOrderVolume (pQryMaxOrderVolume pRspInfo : Ptr) (nRequestID : Int) (bIsLast : Bool)
  | OnRspQryDepthMarketData (pDepthMarketData pRspInfo : Ptr) (nRequestID : Int) (bIsLast : Bool)
  | OnRspQrySettlementInfo (pSettlementInfo pRspInfo : Ptr) (nRequestID : Int) (bIsLast : Bool)
  | OnRspQryTransferBank (pTransferBank pRspInfo : Ptr) (nRequestID : Int) (bIsLast : Bool)
  | OnRspQryInvestorPositionDetail (pInvestorPositionDetail pRspInfo : Ptr) (nRequestID : Int) (bIsLast : Bool)
  | OnRspQryNotice (pNotice pRspInfo : Ptr) (nRequestID : Int) (bIsLast : Bool)
  deriving DecidableEq, Repr

/-- Virtual dispatch of one market-data event to the overriding method of MdSpiBridge. -/
def MdSpiBridge.deliver (lg : DebugLogger) (self : MdSpiBridge) : MdEvent → List Effect
  | .OnFrontConnected => self.OnFrontConnected lg
  | .OnFrontDisconnected nReason => self.OnFrontDisconnected nReason
  | .OnHeartBeatWarning nTimeLapse => self.OnHeartBeatWarning nTimeLapse
  | .OnRspUserLogin pRspUserLogin pRspInfo nRequestID bIsLast =>
      self.OnRspUserLogin lg pRspUserLogin pRspInfo nRequestID bIsLast
  | .OnRspUserLogout pUserLogout pRspInfo nRequestID bIsLast =>
      self.OnRspUserLogout pUserLogout pRspInfo nRequestID bIsLast
  | .OnRspError pRspInfo nRequestID bIsLast => self.OnRspError pRspInfo nRequestID bIsLast
  | .OnRspSubMarketData pSpecificInstrument pRspInfo nRequestID bIsLast =>
      self.OnRspSubMarketData pSpecificInstrument pRspInfo nRequestID bIsLast
  | .OnRspUnSubMarketData pSpecificInstrument pRspInfo nRequestID bIsLast =>
      self.OnRspUnSubMarketData pSpecificInstrument pRspInfo nRequestID bIsLast
  | .OnRtnDepthMarketData pDepthMarketData => self.OnRtnDepthMarketData lg pDepthMarketData
  | .OnRtnForQuoteRsp pForQuoteRsp => self.OnRtnForQuoteRsp pForQuoteRsp

/-- Virtual dispatch of one trader event to the overriding method of TraderSpiBridge. -/
def TraderSpiBridge.deliver (lg : DebugLogger) (self : TraderSpiBridge) : TraderEvent → List Effect
  | .OnFrontConnected => self.OnFrontConnected lg
  | .OnFrontDisconnected nReason => self.OnFrontDisconnected nReason
  | .OnHeartBeatWarning nTimeLapse => self.OnHeartBeatWarning nTimeLapse
  | .OnRspAuthenticate pRspAuthenticateField pRspInfo nRequestID bIsLast =>
      self.OnRspAuthenticate pRspAuthenticateField pRspInfo nRequestID bIsLast
  | .OnRspUserLogin pRspUserLogin pRspInfo nRequestID bIsLast =>
      self.OnRspUserLogin lg pRspUserLogin pRspInfo nRequestID bIsLast
  | .OnRspUserLogout pUserLogout pRspInfo nRequestID bIsLast =>
      self.OnRspUserLogout pUserLogout pRspInfo nRequestID bIsLast
  | .OnRspError pRspInfo nRequestID bIsLast => self.OnRspError pRspInfo nRequestID bIsLast
  | .OnRspOrderInsert pInputOrder pRspInfo nRequestID bIsLast =>
      self.OnRspOrderInsert pInputOrder pRspInfo nRequestID bIsLast
  | .OnRspOrderAction pInputOrderAction pRspInfo nRequestID bIsLast =>
      self.OnRspOrderAction pInputOrderAction pRspInfo nRequestID bIsLast
  | .OnRtnOrder pOrder => self.OnRtnOrder lg pOrder
  | .OnRtnTrade pTrade => self.OnRtnTrade lg pTrade
  | .OnRspQryTradingAccount pTradingAccount pRspInfo nRequestID bIsLast =>
      self.OnRspQryTradingAccount pTradingAccount pRspInfo nRequestID bIsLast
  | .OnRspQryInvestorPosition pInvestorPosition pRspInfo nRequestID bIsLast =>
      self.OnRspQryInvestorPosition pInvestorPosition pRspInfo nRequestID bIsLast
  | .OnErrRtnOrderInsert pInputOrder pRspInfo => self.OnErrRtnOrderInsert pInputOrder pRspInfo
  | .OnErrRtnOrderAction pOrderAction pRspInfo => self.OnErrRtnOrderAction pOrderAction pRspInfo
  | .OnRspQryOrder pOrder pRspInfo nRequestID bIsLast =>
      self.OnRspQryOrder pOrder pRspInfo nRequestID bIsLast
  | .OnRspQryTrade pTrade pRspInfo nRequestID bIsLast =>
      self.OnRspQryTrade pTrade pRspInfo nRequestID bIsLast
  | .OnRspQryInstrument pInstrument pRspInfo nRequestID bIsLast =>
      self.OnRspQryInstrument pInstrument pRspInfo nRequestID bIsLast
  | .OnRspQryInstrumentMarginRate pInstrumentMarginRate pRspInfo nRequestID bIsLast =>
      self.OnRspQryInstrumentMarginRate pInstrumentMarginRate pRspInfo nRequestID bIsLast
  | .OnRspQryInstrumentCommissionRate pInstrumentCommissionRate pRspInfo nRequestID bIsLast =>
      self.OnRspQryInstrumentCommissionRate pInstrumentCommissionRate pRspInfo nRequestID bIsLast
  | .OnRspQryExchange pExchange pRspInfo nRequestID bIsLast =>
      self.OnRspQryExchange pExchange pRspInfo nRequestID bIsLast
  | .OnRspQryProduct pProduct pRspInfo nRequestID bIsLast =>
      self.OnRspQryProduct pProduct pRspInfo nRequestID bIsLast
  | .OnRspSettlementInfoConfirm pSettlementInfoConfirm pRspInfo nRequestID bIsLast =>
      self.OnRspSettlementInfoConfirm pSettlementInfoConfirm pRspInfo nRequestID bIsLast
  | .OnRspParkedOrderInsert pParkedOrder pRspInfo nRequestID bIsLast =>
      self.OnRspParkedOrderInsert pParkedOrder pRspInfo nRequestID bIsLast
  | .OnRspParkedOrderAction pParkedOrderAction pRspInfo nRequestID bIsLast =>
      self.OnRspParkedOrderAction pParkedOrderAction pRspInfo nRequestID bIsLast
  | .OnRspExecOrderInsert pInputExecOrder pRspInfo nRequestID bIsLast =>
      self.OnRspExecOrderInsert pInputExecOrder pRspInfo nRequestID bIsLast
  | .OnRspExecOrderAction pInputExecOrderAction pRspInfo nRequestID bIsLast =>
      self.OnRspExecOrderAction pInputExecOrderAction pRspInfo nRequestID bIsLast
  | .OnRspForQuoteInsert pInputForQuote pRspInfo nRequestID bIsLast =>
      self.OnRspForQuoteInsert pInputForQuote pRspInfo nRequestID bIsLast
  | .OnRspQuoteInsert pInputQuote pRspInfo nRequestID bIsLast =>
      self.OnRspQuoteInsert pInputQuote pRspInfo nRequestID bIsLast
  | .OnRspQuoteAction pInputQuoteAction pRspInfo nRequestID bIsLast =>
      self.OnRspQuoteAction pInputQuoteAction pRspInfo nRequestID bIsLast
  | .OnRspBatchOrderAction pInputBatchOrderAction pRspInfo nRequestID bIsLast =>
      self.OnRspBatchOrderAction pInputBatchOrderAction pRspInfo nRequestID bIsLast
  | .OnRspRemoveParkedOrder pRemoveParkedOrder pRspInfo nRequestID bIsLast =>
      self.OnRspRemoveParkedOrder pRemoveParkedOrder pRspInfo nRequestID bIsLast
  | .OnRspRemoveParkedOrderAction pRemoveParkedOrderAction pRspInfo nRequestID bIsLast =>
      self.OnRspRemoveParkedOrderAction pRemoveParkedOrderAction pRspInfo nRequestID bIsLast
  | .OnRspQryMaxOrderVolume pQryMaxOrderVolume pRspInfo nRequestID bIsLast =>
      self.OnRspQryMaxOrderVolume pQryMaxOrderVolume pRspInfo nRequestID bIsLast
  | .OnRspQryDepthMarketData pDepthMarketData pRspInfo nRequestID bIsLast =>
      self.OnRspQryDepthMarketData pDepthMarketData pRspInfo nRequestID bIsLast
  | .OnRspQrySettlementInfo pSettlementInfo pRspInfo nRequestID bIsLast =>
      self.OnRspQrySettlementInfo pSettlementInfo pRspInfo nRequestID bIsLast
  | .OnRspQryTransferBank pTransferBank pRspInfo nRequestID bIsLast =>
      self.OnRspQryTransferBank pTransferBank pRspInfo nRequestID bIsLast
  | .OnRspQryInvestorPositionDetail pInvestorPositionDetail pRspInfo nRequestID bIsLast =>
      self.OnRspQryInvestorPositionDetail pInvestorPositionDetail pRspInfo nRequestID bIsLast
  | .OnRspQryNotice pNotice pRspInfo nRequestID bIsLast =>
      self.OnRspQryNotice pNotice pRspInfo nRequestID bIsLast

/-! ## The flat API (`ctp_wrapper.h`, `ctp_wrapper.cpp`)

`FlatCall` has one constructor per function of `ctp_wrapper.h` that takes a
handle, carrying the arguments of the call. The vendor SDK is a black box: its
answers are given by an oracle. `std::cout.flush()` writes nothing and is left
out. -/

/-- A call of one of the 68 handle-taking functions declared in ctp_wrapper.h. -/
inductive FlatCall where
  | CThostFtdcMdApi_Release (api : Ptr)
  | CThostFtdcMdApi_Init (api : Ptr)
  | CThostFtdcMdApi_Join (api : Ptr)
  | CThostFtdcMdApi_GetTradingDay (api : Ptr)
  | CThostFtdcMdApi_RegisterFront (api pszFrontAddress : Ptr)
  | CThostFtdcMdApi_RegisterNameServer (api pszNsAddress : Ptr)
  | CThostFtdcMdApi_RegisterFensUserInfo (api pFensUserInfo : Ptr)
  | CThostFtdcMdApi_RegisterSpi (api pSpi : Ptr)
  | CThostFtdcMdApi_ReqUserLogin (api pReqUserLoginField : Ptr) (nRequestID : Int)
  | CThostFtdcMdApi_ReqUserLogout (api pUserLogout : Ptr) (nRequestID : Int)
  | CThostFtdcMdApi_SubscribeMarketData (api ppInstrumentID : Ptr) (nCount : Int)
  | CThostFtdcMdApi_UnSubscribeMarketData (api ppInstrumentID : Ptr) (nCount : Int)
  | CThostFtdcMdApi_SubscribeForQuoteRsp (api ppInstrumentID : Ptr) (nCount : Int)
  | CThostFtdcMdApi_UnSubscribeForQuoteRsp (api ppInstrumentID : Ptr) (nCount : Int)
  | CThostFtdcTraderApi_Release (api : Ptr)
  | CThostFtdcTraderApi_Init (api : Ptr)
  | CThostFtdcTraderApi_Join (api : Ptr)
  | CThostFtdcTraderApi_GetTradingDay (api : Ptr)
  | CThostFtdcTraderApi_RegisterFront (api pszFrontAddress : Ptr)
  | CThostFtdcTraderApi_RegisterNameServer (api pszNsAddress : Ptr)
  | CThostFtdcTraderApi_GetFrontInfo (api pFrontInfo : Ptr)
  | CThostFtdcTraderApi_RegisterFensUserInfo (api pFensUserInfo : Ptr)
  | CThostFtdcTraderApi_RegisterSpi (api pSpi : Ptr)
  | CThostFtdcTraderApi_ReqAuthenticate (api pReqAuthenticateField : Ptr) (nRequestID : Int)
  | CThostFtdcTraderApi_RegisterUserSystemInfo (api pUserSystemInfo : Ptr)
  | CThostFtdcTraderApi_SubmitUserSystemInfo (api pUserSystemInfo : Ptr)
  | CThostFtdcTraderApi_RegisterWechatUserSystemInfo (api pUserSystemInfo : Ptr)
  | CThostFtdcTraderApi_SubmitWechatUserSystemInfo (api pUserSystemInfo : Ptr)
  | CThostFtdcTraderApi_ReqUserLogin (api pReqUserLoginField : Ptr) (nRequestID : Int)
  | CThostFtdcTraderApi_ReqUserLogout (api pUserLogout : Ptr) (nRequestID : Int)
  | CThostFtdcTraderApi_ReqUserPasswordUpdate (api pUserPasswordUpdate : Ptr) (nRequestID : Int)
  | CThostFtdcTraderApi_ReqTradingAccountPasswordUpdate (api pTradingAccountPasswordUpdate : Ptr) (nRequestID : Int)
  | CThostFtdcTraderApi_ReqUserAuthMethod (api pReqUserAuthMethod : Ptr) (nRequestID : Int)
  | CThostFtdcTraderApi_ReqGenUserCaptcha (api pReqGenUserCaptcha : Ptr) (nRequestID : Int)
  | CThostFtdcTraderApi_ReqGenUserText (api pReqGenUserText : Ptr) (nRequestID : Int)
  | CThostFtdcTraderApi_ReqUserLoginWithCaptcha (api pReqUserLoginWithCaptcha : Ptr) (nRequestID : Int)
  | CThostFtdcTraderApi_ReqUserLoginWithText (api pReqUserLoginWithText : Ptr) (nRequestID : Int)
  | CThostFtdcTraderApi_ReqUserLoginWithOTP (api pReqUserLoginWithOTP : Ptr) (nRequestID : Int)
  | CThostFtdcTraderApi_ReqOrderInsert (api pInputOrder : Ptr) (nRequestID : Int)
  | CThostFtdcTraderApi_ReqParkedOrderInsert (api pParkedOrder : Ptr) (nRequestID : Int)
  | CThostFtdcTraderApi_ReqParkedOrderAction (api pParkedOrderAction : Ptr) (nRequestID : Int)
  | CThostFtdcTraderApi_ReqOrderAction (api pInputOrderAction : Ptr) (nRequestID : Int)
  | CThostFtdcTraderApi_ReqQryMaxOrderVolume (api pQryMaxOrderVolume : Ptr) (nRequestID : Int)
  | CThostFtdcTraderApi_ReqSettlementInfoConfirm (api pSettlementInfoConfirm : Ptr) (nRequestID : Int)
  | CThostFtdcTraderApi_ReqRemoveParkedOrder (api pRemoveParkedOrder : Ptr) (nRequestID : Int)
  | CThostFtdcTraderApi_ReqRemoveParkedOrderAction (api pRemoveParkedOrderAction : Ptr) (nRequestID : Int)
  | CThostFtdcTraderApi_ReqExecOrderInsert (api pInputExecOrder : Ptr) (nRequestID : Int)
  | CThostFtdcTraderApi_ReqExecOrderAction (api pInputExecOrderAction : Ptr) (nRequestID : Int)
  | CThostFtdcTraderApi_ReqForQuoteInsert (api pInputForQuote : Ptr) (nRequestID : Int)
  | CThostFtdcTraderApi_ReqQuoteInsert (api pInputQuote : Ptr) (nRequestID : Int)
  | CThostFtdcTraderApi_ReqQuoteAction (api pInputQuoteAction : Ptr) (nRequestID : Int)
  | CThostFtdcTraderApi_ReqBatchOrderAction (api pInputBatchOrderAction : Ptr) (nRequestID : Int)
  | CThostFtdcTraderApi_ReqOptionSelfCloseInsert (api pInputOptionSelfClose : Ptr) (nRequestID : Int)
  | CThostFtdcTraderApi_ReqOptionSelfCloseAction (api pInputOptionSelfCloseAction : Ptr) (nRequestID : Int)
  | CThostFtdcTraderApi_ReqCombActionInsert (api pInputCombAction : Ptr) (nRequestID : Int)
  | CThostFtdcTraderApi_ReqQryOrder (api pQryOrder : Ptr) (nRequestID : Int)
  | CThostFtdcTraderApi_ReqQryTrade (api pQryTrade : Ptr) (nRequestID : Int)
  | CThostFtdcTraderApi_ReqQryInvestorPosition (api pQryInvestorPosition : Ptr) (nRequestID : Int)
  | CThostFtdcTraderApi_ReqQryTradingAccount (api pQryTradingAccount : Ptr) (nRequestID : Int)
  | CThostFtdcTraderApi_ReqQryInvestor (api pQryInvestor : Ptr) (nRequestID : Int)
  | CThostFtdcTraderApi_ReqQryTradingCode (api pQryTradingCode : Ptr) (nRequestID : Int)
  | CThostFtdcTraderApi_ReqQryInstrumentMarginRate (api pQryInstrumentMarginRate : Ptr) (nRequestID : Int)
  | CThostFtdcTraderApi_ReqQryInstrumentCommissionRate (api pQryInstrumentCommissionRate : Ptr) (nRequestID : Int)
  | CThostFtdcTraderApi_ReqQryExchange (api pQryExchange : Ptr) (nRequestID : Int)
  | CThostFtdcTraderApi_ReqQryProduct (api pQryProduct : Ptr) (nRequestID : Int)
  | CThostFtdcTraderApi_ReqQryInstrument (api pQryInstrument : Ptr) (nRequestID : Int)
  | CThostFtdcTraderApi_ReqQryDepthMarketData (api pQryDepthMarketData : Ptr) (nRequestID : Int)
  | CThostFtdcTraderApi_ReqQrySettlementInfo (api pQrySettlementInfo : Ptr) (nRequestID : Int)
  deriving Repr

/-- The value a flat-API function returns: nothing, an int, or a const char pointer. -/
inductive Ret where
  | void
  | int (i : Int)
  | ptr (p : Ptr)
  deriving DecidableEq, Repr

/-- Result of running a flat-API function: the returned value and the effects performed. -/
structure Outcome where
  ret : Ret
  trace : List Effect
  deriving DecidableEq, Repr

/-- The vendor SDK as an oracle: the value an int-returning, respectively
pointer-returning, vendor method gives back for a call. -/
structure Vendor where
  int : VendorCall → Int
  ptr : VendorCall → Ptr

/-- The platform macros the common wrapper is compiled with. -/
structure Build where
  CTP_PLATFORM_LINUX : Bool
  CTP_PLATFORM_MACOS : Bool
  deriving DecidableEq, Repr

/-- Statement form: call a void vendor method. -/
def callVoid (c : VendorCall) : Outcome := ⟨.void, [.vendor c]⟩

/-- Statement form: return the result of an int-returning vendor method. -/
def callInt (V : Vendor) (c : VendorCall) : Outcome := ⟨.int (V.int c), [.vendor c]⟩

/-- Statement form: return the result of a pointer-returning vendor method. -/
def callPtr (V : Vendor) (c : VendorCall) : Outcome := ⟨.ptr (V.ptr c), [.vendor c]⟩

/-- The common wrapper (wrapper/ctp_wrapper.cpp): one arm per function, named by its constructor. -/
def Common.exec (bld : Build) (lg : DebugLogger) (V : Vendor) : FlatCall → Outcome
  | .CThostFtdcMdApi_Release api =>
    if api ≠ 0 then callVoid ⟨"CThostFtdcMdApi", "Release", api, []⟩
    else ⟨.void, []⟩
  | .CThostFtdcMdApi_Init api =>
    ⟨.void, CTP_DEBUG lg "MD API初始化开始, api=%p" [.ptr api] ++
      (if api ≠ 0 then
        [.vendor ⟨"CThostFtdcMdApi", "Init", api, []⟩] ++
        CTP_DEBUG lg "MD API初始化完成, api=%p" [.ptr api]
      else
        CTP_DEBUG lg "MD API初始化失败: API实例为空" [])⟩
  | .CThostFtdcMdApi_Join api =>
    if api ≠ 0 then callInt V ⟨"CThostFtdcMdApi", "Join", api, []⟩
    else ⟨.int (-1), []⟩
  | .CThostFtdcMdApi_GetTradingDay api =>
    if api ≠ 0 then callPtr V ⟨"CThostFtdcMdApi", "GetTradingDay", api, []⟩
    else ⟨.ptr 0, []⟩
  | .CThostFtdcMdApi_RegisterFront api pszFrontAddress =>
    if api ≠ 0 then callVoid ⟨"CThostFtdcMdApi", "RegisterFront", api, [.ptr pszFrontAddress]⟩
    else ⟨.void, []⟩
  | .CThostFtdcMdApi_RegisterNameServer api pszNsAddress =>
    if api ≠ 0 then callVoid ⟨"CThostFtdcMdApi", "RegisterNameServer", api, [.ptr pszNsAddress]⟩
    else ⟨.void, []⟩
  | .CThostFtdcMdApi_RegisterFensUserInfo api pFensUserInfo =>
    if api ≠ 0 then callVoid ⟨"CThostFtdcMdApi", "RegisterFensUserInfo", api, [.ptr pFensUserInfo]⟩
    else ⟨.void, []⟩
  | .CThostFtdcMdApi_RegisterSpi api pSpi =>
    if api ≠ 0 then callVoid ⟨"CThostFtdcMdApi", "RegisterSpi", api, [.ptr pSpi]⟩
    else ⟨.void, []⟩
  | .CThostFtdcMdApi_ReqUserLogin api pReqUserLoginField nRequestID =>
    if api ≠ 0 then
      callInt V ⟨"CThostFtdcMdApi", "ReqUserLogin", api, [.ptr pReqUserLoginField, .int nRequestID]⟩
    else ⟨.int (-1), []⟩
  | .CThostFtdcMdApi_ReqUserLogout api pUserLogout nRequestID =>
    if api ≠ 0 then
      callInt V ⟨"CThostFtdcMdApi", "ReqUserLogout", api, [.ptr pUserLogout, .int nRequestID]⟩
    else ⟨.int (-1), []⟩
  | .CThostFtdcMdApi_SubscribeMarketData api ppInstrumentID nCount =>
    if api ≠ 0 then
      callInt V ⟨"CThostFtdcMdApi", "SubscribeMarketData", api, [.ptr ppInstrumentID, .int nCount]⟩
    else ⟨.int (-1), []⟩
  | .CThostFtdcMdApi_UnSubscribeMarketData api ppInstrumentID nCount =>
    if api ≠ 0 then
      callInt V ⟨"CThostFtdcMdApi", "UnSubscribeMarketData", api, [.ptr ppInstrumentID, .int nCount]⟩
    else ⟨.int (-1), []⟩
  | .CThostFtdcMdApi_SubscribeForQuoteRsp api ppInstrumentID nCount =>
    if api ≠ 0 then
      callInt V ⟨"CThostFtdcMdApi", "SubscribeForQuoteRsp", api, [.ptr ppInstrumentID, .int nCount]⟩
    else ⟨.int (-1), []⟩
  | .CThostFtdcMdApi_UnSubscribeForQuoteRsp api ppInstrumentID nCount =>
    if api ≠ 0 then
      callInt V ⟨"CThostFtdcMdApi", "UnSubscribeForQuoteRsp", api, [.ptr ppInstrumentID, .int nCount]⟩
    else ⟨.int (-1), []⟩
  | .CThostFtdcTraderApi_Release api =>
    if api ≠ 0 then callVoid ⟨"CThostFtdcTraderApi", "Release", api, []⟩
    else ⟨.void, []⟩
  | .CThostFtdcTraderApi_Init api =>
    ⟨.void, CTP_DEBUG lg "Trader API初始化开始, api=%p" [.ptr api] ++
      (if api ≠ 0 then
        [.vendor ⟨"CThostFtdcTraderApi", "Init", api, []⟩] ++
        CTP_DEBUG lg "Trader API初始化完成, api=%p" [.ptr api]
      else
        CTP_DEBUG lg "Trader API初始化失败: API实例为空" [])⟩
  | .CThostFtdcTraderApi_Join api =>
    if api ≠ 0 then callInt V ⟨"CThostFtdcTraderApi", "Join", api, []⟩
    else ⟨.int (-1), []⟩
  | .CThostFtdcTraderApi_GetTradingDay api =>
    if api ≠ 0 then callPtr V ⟨"CThostFtdcTraderApi", "GetTradingDay", api, []⟩
    else ⟨.ptr 0, []⟩
  | .CThostFtdcTraderApi_RegisterFront api pszFrontAddress =>
    if api ≠ 0 then callVoid ⟨"CThostFtdcTraderApi", "RegisterFront", api, [.ptr pszFrontAddress]⟩
    else ⟨.void, []⟩
  | .CThostFtdcTraderApi_RegisterNameServer api pszNsAddress =>
    if api ≠ 0 then callVoid ⟨"CThostFtdcTraderApi", "RegisterNameServer", api, [.ptr pszNsAddress]⟩
    else ⟨.void, []⟩
  | .CThostFtdcTraderApi_GetFrontInfo api pFrontInfo =>
    if api ≠ 0 then callVoid ⟨"CThostFtdcTraderApi", "GetFrontInfo", api, [.ptr pFrontInfo]⟩
    else ⟨.void, []⟩
  | .CThostFtdcTraderApi_RegisterFensUserInfo api pFensUserInfo =>
    if api ≠ 0 then
      callVoid ⟨"CThostFtdcTraderApi", "RegisterFensUserInfo", api, [.ptr pFensUserInfo]⟩
    else ⟨.void, []⟩
  | .CThostFtdcTraderApi_RegisterSpi api pSpi =>
    if api ≠ 0 then callVoid ⟨"CThostFtdcTraderApi", "RegisterSpi", api, [.ptr pSpi]⟩
    else ⟨.void, []⟩
  | .CThostFtdcTraderApi_ReqAuthenticate api pReqAuthenticateField nRequestID =>
    if api ≠ 0 then
      callInt V ⟨"CThostFtdcTraderApi", "ReqAuthenticate", api, [.ptr pReqAuthenticateField, .int nRequestID]⟩
    else ⟨.int (-1), []⟩
  | .CThostFtdcTraderApi_RegisterUserSystemInfo api pUserSystemInfo =>
    if api ≠ 0 then
      callInt V ⟨"CThostFtdcTraderApi", "RegisterUserSystemInfo", api, [.ptr pUserSystemInfo]⟩
    else ⟨.int (-1), []⟩
  | .CThostFtdcTraderApi_SubmitUserSystemInfo api pUserSystemInfo =>
    if api ≠ 0 then
      callInt V ⟨"CThostFtdcTraderApi", "SubmitUserSystemInfo", api, [.ptr pUserSystemInfo]⟩
    else ⟨.int (-1), []⟩
  | .CThostFtdcTraderApi_RegisterWechatUserSystemInfo api pUserSystemInfo =>
    if api ≠ 0 then
      let c : VendorCall := ⟨"CThostFtdcTraderApi", "RegisterUserSystemInfo", api, [.ptr pUserSystemInfo]⟩
      ⟨.int (V.int c), CTP_DEBUG lg "警告: macOS版本不支持微信用户系统信息注册，使用普通注册代替" [] ++ [.vendor c]⟩
    else ⟨.int (-1), []⟩
  | .CThostFtdcTraderApi_SubmitWechatUserSystemInfo api pUserSystemInfo =>
    if api ≠ 0 then
      let c : VendorCall := ⟨"CThostFtdcTraderApi", "SubmitUserSystemInfo", api, [.ptr pUserSystemInfo]⟩
      ⟨.int (V.int c), CTP_DEBUG lg "警告: macOS版本不支持微信用户系统信息提交，使用普通提交代替" [] ++ [.vendor c]⟩
    else ⟨.int (-1), []⟩
  | .CThostFtdcTraderApi_ReqUserLogin api pReqUserLoginField nRequestID =>
    if api ≠ 0 then
      if bld.CTP_PLATFORM_MACOS then
        callInt V ⟨"CThostFtdcTraderApi", "ReqUserLogin", api,
          [.ptr pReqUserLoginField, .int nRequestID, .int 0, .lit ""]⟩
      else
        callInt V ⟨"CThostFtdcTraderApi", "ReqUserLogin", api,
          [.ptr pReqUserLoginField, .int nRequestID]⟩
    else ⟨.int (-1), []⟩
  | .CThostFtdcTraderApi_ReqUserLogout api pUserLogout nRequestID =>
    if api ≠ 0 then
      callInt V ⟨"CThostFtdcTraderApi", "ReqUserLogout", api, [.ptr pUserLogout, .int nRequestID]⟩
    else ⟨.int (-1), []⟩
  | .CThostFtdcTraderApi_ReqUserPasswordUpdate api pUserPasswordUpdate nRequestID =>
    if api ≠ 0 then
      callInt V ⟨"CThostFtdcTraderApi", "ReqUserPasswordUpdate", api, [.ptr pUserPasswordUpdate, .int nRequestID]⟩
    else ⟨.int (-1), []⟩
  | .CThostFtdcTraderApi_ReqTradingAccountPasswordUpdate api pTradingAccountPasswordUpdate nRequestID =>
    if api ≠ 0 then
      callInt V ⟨"CThostFtdcTraderApi", "ReqTradingAccountPasswordUpdate", api, [.ptr pTradingAccountPasswordUpdate, .int nRequestID]⟩
    else ⟨.int (-1), []⟩
  | .CThostFtdcTraderApi_ReqUserAuthMethod api pReqUserAuthMethod nRequestID =>
    if api ≠ 0 then
      callInt V ⟨"CThostFtdcTraderApi", "ReqUserAuthMethod", api, [.ptr pReqUserAuthMethod, .int nRequestID]⟩
    else ⟨.int (-1), []⟩
  | .CThostFtdcTraderApi_ReqGenUserCaptcha api pReqGenUserCaptcha nRequestID =>
    if api ≠ 0 then
      callInt V ⟨"CThostFtdcTraderApi", "ReqGenUserCaptcha", api, [.ptr pReqGenUserCaptcha, .int nRequestID]⟩
    else ⟨.int (-1), []⟩
  | .CThostFtdcTraderApi_ReqGenUserText api pReqGenUserText nRequestID =>
    if api ≠ 0 then
      callInt V ⟨"CThostFtdcTraderApi", "ReqGenUserText", api, [.ptr pReqGenUserText, .int nRequestID]⟩
    else ⟨.int (-1), []⟩
  | .CThostFtdcTraderApi_ReqUserLoginWithCaptcha api pReqUserLoginWithCaptcha nRequestID =>
    if api ≠ 0 then
      callInt V ⟨"CThostFtdcTraderApi", "ReqUserLoginWithCaptcha", api, [.ptr pReqUserLoginWithCaptcha, .int nRequestID]⟩
    else ⟨.int (-1), []⟩
  | .CThostFtdcTraderApi_ReqUserLoginWithText api pReqUserLoginWithText nRequestID =>
    if api ≠ 0 then
      callInt V ⟨"CThostFtdcTraderApi", "ReqUserLoginWithText", api, [.ptr pReqUserLoginWithText, .int nRequestID]⟩
    else ⟨.int (-1), []⟩
  | .CThostFtdcTraderApi_ReqUserLoginWithOTP api pReqUserLoginWithOTP nRequestID =>
    if api ≠ 0 then
      callInt V ⟨"CThostFtdcTraderApi", "ReqUserLoginWithOTP", api, [.ptr pReqUserLoginWithOTP, .int nRequestID]⟩
    else ⟨.int (-1), []⟩
  | .CThostFtdcTraderApi_ReqOrderInsert api pInputOrder nRequestID =>
    if api ≠ 0 then
      callInt V ⟨"CThostFtdcTraderApi", "ReqOrderInsert", api, [.ptr pInputOrder, .int nRequestID]⟩
    else ⟨.int (-1), []⟩
  | .CThostFtdcTraderApi_ReqParkedOrderInsert api pParkedOrder nRequestID =>
    if api ≠ 0 then
      callInt V ⟨"CThostFtdcTraderApi", "ReqParkedOrderInsert", api, [.ptr pParkedOrder, .int nRequestID]⟩
    else ⟨.int (-1), []⟩
  | .CThostFtdcTraderApi_ReqParkedOrderAction api pParkedOrderAction nRequestID =>
    if api ≠ 0 then
      callInt V ⟨"CThostFtdcTraderApi", "ReqParkedOrderAction", api, [.ptr pParkedOrderAction, .int nRequestID]⟩
    else ⟨.int (-1), []⟩
  | .CThostFtdcTraderApi_ReqOrderAction api pInputOrderAction nRequestID =>
    if api ≠ 0 then
      callInt V ⟨"CThostFtdcTraderApi", "ReqOrderAction", api, [.ptr pInputOrderAction, .int nRequestID]⟩
    else ⟨.int (-1), []⟩
  | .CThostFtdcTraderApi_ReqQryMaxOrderVolume api pQryMaxOrderVolume nRequestID =>
    if api ≠ 0 then
      callInt V ⟨"CThostFtdcTraderApi", "ReqQryMaxOrderVolume", api, [.ptr pQryMaxOrderVolume, .int nRequestID]⟩
    else ⟨.int (-1), []⟩
  | .CThostFtdcTraderApi_ReqSettlementInfoConfirm api pSettlementInfoConfirm nRequestID =>
    if api ≠ 0 then
      callInt V ⟨"CThostFtdcTraderApi", "ReqSettlementInfoConfirm", api, [.ptr pSettlementInfoConfirm, .int nRequestID]⟩
    else ⟨.int (-1), []⟩
  | .CThostFtdcTraderApi_ReqRemoveParkedOrder api pRemoveParkedOrder nRequestID =>
    if api ≠ 0 then
      callInt V ⟨"CThostFtdcTraderApi", "ReqRemoveParkedOrder", api, [.ptr pRemoveParkedOrder, .int nRequestID]⟩
    else ⟨.int (-1), []⟩
  | .CThostFtdcTraderApi_ReqRemoveParkedOrderAction api pRemoveParkedOrderAction nRequestID =>
    if api ≠ 0 then
      callInt V ⟨"CThostFtdcTraderApi", "ReqRemoveParkedOrderAction", api, [.ptr pRemoveParkedOrderAction, .int nRequestID]⟩
    else ⟨.int (-1), []⟩
  | .CThostFtdcTraderApi_ReqExecOrderInsert api pInputExecOrder nRequestID =>
    if api ≠ 0 then
      callInt V ⟨"CThostFtdcTraderApi", "ReqExecOrderInsert", api, [.ptr pInputExecOrder, .int nRequestID]⟩
    else ⟨.int (-1), []⟩
  | .CThostFtdcTraderApi_ReqExecOrderAction api pInputExecOrderAction nRequestID =>
    if api ≠ 0 then
      callInt V ⟨"CThostFtdcTraderApi", "ReqExecOrderAction", api, [.ptr pInputExecOrderAction, .int nRequestID]⟩
    else ⟨.int (-1), []⟩
  | .CThostFtdcTraderApi_ReqForQuoteInsert api pInputForQuote nRequestID =>
    if api ≠ 0 then
      callInt V ⟨"CThostFtdcTraderApi", "ReqForQuoteInsert", api, [.ptr pInputForQuote, .int nRequestID]⟩
    else ⟨.int (-1), []⟩
  | .CThostFtdcTraderApi_ReqQuoteInsert api pInputQuote nRequestID =>
    if api ≠ 0 then
      callInt V ⟨"CThostFtdcTraderApi", "ReqQuoteInsert", api, [.ptr pInputQuote, .int nRequestID]⟩
    else ⟨.int (-1), []⟩
  | .CThostFtdcTraderApi_ReqQuoteAction api pInputQuoteAction nRequestID =>
    if api ≠ 0 then
      callInt V ⟨"CThostFtdcTraderApi", "ReqQuoteAction", api, [.ptr pInputQuoteAction, .int nRequestID]⟩
    else ⟨.int (-1), []⟩
  | .CThostFtdcTraderApi_ReqBatchOrderAction api pInputBatchOrderAction nRequestID =>
    if api ≠ 0 then
      callInt V ⟨"CThostFtdcTraderApi", "ReqBatchOrderAction", api, [.ptr pInputBatchOrderAction, .int nRequestID]⟩
    else ⟨.int (-1), []⟩
  | .CThostFtdcTraderApi_ReqOptionSelfCloseInsert api pInputOptionSelfClose nRequestID =>
    if api ≠ 0 then
      callInt V ⟨"CThostFtdcTraderApi", "ReqOptionSelfCloseInsert", api, [.ptr pInputOptionSelfClose, .int nRequestID]⟩
    else ⟨.int (-1), []⟩
  | .CThostFtdcTraderApi_ReqOptionSelfCloseAction api pInputOptionSelfCloseAction nRequestID =>
    if api ≠ 0 then
      callInt V ⟨"CThostFtdcTraderApi", "ReqOptionSelfCloseAction", api, [.ptr pInputOptionSelfCloseAction, .int nRequestID]⟩
    else ⟨.int (-1), []⟩
  | .CThostFtdcTraderApi_ReqCombActionInsert api pInputCombAction nRequestID =>
    if api ≠ 0 then
      callInt V ⟨"CThostFtdcTraderApi", "ReqCombActionInsert", api, [.ptr pInputCombAction, .int nRequestID]⟩
    else ⟨.int (-1), []⟩
  | .CThostFtdcTraderApi_ReqQryOrder api pQryOrder nRequestID =>
    if api ≠ 0 then
      callInt V ⟨"CThostFtdcTraderApi", "ReqQryOrder", api, [.ptr pQryOrder, .int nRequestID]⟩
    else ⟨.int (-1), []⟩
  | .CThostFtdcTraderApi_ReqQryTrade api pQryTrade nRequestID =>
    if api ≠ 0 then
      callInt V ⟨"CThostFtdcTraderApi", "ReqQryTrade", api, [.ptr pQryTrade, .int nRequestID]⟩
    else ⟨.int (-1), []⟩
  | .CThostFtdcTraderApi_ReqQryInvestorPosition api pQryInvestorPosition nRequestID =>
    if api ≠ 0 then
      callInt V ⟨"CThostFtdcTraderApi", "ReqQryInvestorPosition", api, [.ptr pQryInvestorPosition, .int nRequestID]⟩
    else ⟨.int (-1), []⟩
  | .CThostFtdcTraderApi_ReqQryTradingAccount api pQryTradingAccount nRequestID =>
    if api ≠ 0 then
      callInt V ⟨"CThostFtdcTraderApi", "ReqQryTradingAccount", api, [.ptr pQryTradingAccount, .int nRequestID]⟩
    else ⟨.int (-1), []⟩
  | .CThostFtdcTraderApi_ReqQryInvestor api pQryInvestor nRequestID =>
    if api ≠ 0 then
      callInt V ⟨"CThostFtdcTraderApi", "ReqQryInvestor", api, [.ptr pQryInvestor, .int nRequestID]⟩
    else ⟨.int (-1), []⟩
  | .CThostFtdcTraderApi_ReqQryTradingCode api pQryTradingCode nRequestID =>
    if api ≠ 0 then
      callInt V ⟨"CThostFtdcTraderApi", "ReqQryTradingCode", api, [.ptr pQryTradingCode, .int nRequestID]⟩
    else ⟨.int (-1), []⟩
  | .CThostFtdcTraderApi_ReqQryInstrumentMarginRate api pQryInstrumentMarginRate nRequestID =>
    if api ≠ 0 then
      callInt V ⟨"CThostFtdcTraderApi", "ReqQryInstrumentMarginRate", api, [.ptr pQryInstrumentMarginRate, .int nRequestID]⟩
    else ⟨.int (-1), []⟩
  | .CThostFtdcTraderApi_ReqQryInstrumentCommissionRate api pQryInstrumentCommissionRate nRequestID =>
    if api ≠ 0 then
      callInt V ⟨"CThostFtdcTraderApi", "ReqQryInstrumentCommissionRate", api, [.ptr pQryInstrumentCommissionRate, .int nRequestID]⟩
    else ⟨.int (-1), []⟩
  | .CThostFtdcTraderApi_ReqQryExchange api pQryExchange nRequestID =>
    if api ≠ 0 then
      callInt V ⟨"CThostFtdcTraderApi", "ReqQryExchange", api, [.ptr pQryExchange, .int nRequestID]⟩
    else ⟨.int (-1), []⟩
  | .CThostFtdcTraderApi_ReqQryProduct api pQryProduct nRequestID =>
    if api ≠ 0 then
      callInt V ⟨"CThostFtdcTraderApi", "ReqQryProduct", api, [.ptr pQryProduct, .int nRequestID]⟩
    else ⟨.int (-1), []⟩
  | .CThostFtdcTraderApi_ReqQryInstrument api pQryInstrument nRequestID =>
    if api ≠ 0 then
      callInt V ⟨"CThostFtdcTraderApi", "ReqQryInstrument", api, [.ptr pQryInstrument, .int nRequestID]⟩
    else ⟨.int (-1), []⟩
  | .CThostFtdcTraderApi_ReqQryDepthMarketData api pQryDepthMarketData nRequestID =>
    if api ≠ 0 then
      callInt V ⟨"CThostFtdcTraderApi", "ReqQryDepthMarketData", api, [.ptr pQryDepthMarketData, .int nRequestID]⟩
    else ⟨.int (-1), []⟩
  | .CThostFtdcTraderApi_ReqQrySettlementInfo api pQrySettlementInfo nRequestID =>
    if api ≠ 0 then
      callInt V ⟨"CThostFtdcTraderApi", "ReqQrySettlementInfo", api, [.ptr pQrySettlementInfo, .int nRequestID]⟩
    else ⟨.int (-1), []⟩

/-- The Linux wrapper (linux/wrapper/ctp_wrapper.cpp): one arm per function, named by its constructor. -/
def Linux.exec (lg : DebugLogger) (V : Vendor) : FlatCall → Outcome
  | .CThostFtdcMdApi_Release api =>
    if api ≠ 0 then callVoid ⟨"CThostFtdcMdApi", "Release", api, []⟩
    else ⟨.void, []⟩
  | .CThostFtdcMdApi_Init api =>
    ⟨.void, CTP_DEBUG lg "MD API初始化开始, api=%p" [.ptr api] ++
      (if api ≠ 0 then
        [.vendor ⟨"CThostFtdcMdApi", "Init", api, []⟩] ++
        CTP_DEBUG lg "MD API初始化完成, api=%p" [.ptr api]
      else
        CTP_DEBUG lg "MD API初始化失败: API实例为空" [])⟩
  | .CThostFtdcMdApi_Join api =>
    if api ≠ 0 then callInt V ⟨"CThostFtdcMdApi", "Join", api, []⟩
    else ⟨.int (-1), []⟩
  | .CThostFtdcMdApi_GetTradingDay api =>
    if api ≠ 0 then callPtr V ⟨"CThostFtdcMdApi", "GetTradingDay", api, []⟩
    else ⟨.ptr 0, []⟩
  | .CThostFtdcMdApi_RegisterFront api pszFrontAddress =>
    if api ≠ 0 then callVoid ⟨"CThostFtdcMdApi", "RegisterFront", api, [.ptr pszFrontAddress]⟩
    else ⟨.void, []⟩
  | .CThostFtdcMdApi_RegisterNameServer api pszNsAddress =>
    if api ≠ 0 then callVoid ⟨"CThostFtdcMdApi", "RegisterNameServer", api, [.ptr pszNsAddress]⟩
    else ⟨.void, []⟩
  | .CThostFtdcMdApi_RegisterFensUserInfo api pFensUserInfo =>
    if api ≠ 0 then callVoid ⟨"CThostFtdcMdApi", "RegisterFensUserInfo", api, [.ptr pFensUserInfo]⟩
    else ⟨.void, []⟩
  | .CThostFtdcMdApi_RegisterSpi api pSpi =>
    if api ≠ 0 then callVoid ⟨"CThostFtdcMdApi", "RegisterSpi", api, [.ptr pSpi]⟩
    else ⟨.void, []⟩
  | .CThostFtdcMdApi_ReqUserLogin api pReqUserLoginField nRequestID =>
    if api ≠ 0 then
      let c : VendorCall := ⟨"CThostFtdcMdApi", "ReqUserLogin", api, [.ptr pReqUserLoginField, .int nRequestID]⟩
      let result := V.int c
      ⟨.int result, CTP_DEBUG lg "MD用户登录请求开始, api=%p, request_id=%d" [.ptr api, .int nRequestID] ++
        [.vendor c] ++
        CTP_DEBUG lg "MD用户登录请求完成, request_id=%d, 返回值=%d" [.int nRequestID, .int result]⟩
    else
      ⟨.int (-1), CTP_DEBUG lg "MD用户登录请求开始, api=%p, request_id=%d" [.ptr api, .int nRequestID] ++
        CTP_DEBUG lg "MD用户登录请求失败: API实例为空, request_id=%d" [.int nRequestID]⟩
  | .CThostFtdcMdApi_ReqUserLogout api pUserLogout nRequestID =>
    if api ≠ 0 then
      callInt V ⟨"CThostFtdcMdApi", "ReqUserLogout", api, [.ptr pUserLogout, .int nRequestID]⟩
    else ⟨.int (-1), []⟩
  | .CThostFtdcMdApi_SubscribeMarketData api ppInstrumentID nCount =>
    if api ≠ 0 then
      callInt V ⟨"CThostFtdcMdApi", "SubscribeMarketData", api, [.ptr ppInstrumentID, .int nCount]⟩
    else ⟨.int (-1), []⟩
  | .CThostFtdcMdApi_UnSubscribeMarketData api ppInstrumentID nCount =>
    if api ≠ 0 then
      callInt V ⟨"CThostFtdcMdApi", "UnSubscribeMarketData", api, [.ptr ppInstrumentID, .int nCount]⟩
    else ⟨.int (-1), []⟩
  | .CThostFtdcMdApi_SubscribeForQuoteRsp api ppInstrumentID nCount =>
    if api ≠ 0 then
      callInt V ⟨"CThostFtdcMdApi", "SubscribeForQuoteRsp", api, [.ptr ppInstrumentID, .int nCount]⟩
    else ⟨.int (-1), []⟩
  | .CThostFtdcMdApi_UnSubscribeForQuoteRsp api ppInstrumentID nCount =>
    if api ≠ 0 then
      callInt V ⟨"CThostFtdcMdApi", "UnSubscribeForQuoteRsp", api, [.ptr ppInstrumentID, .int nCount]⟩
    else ⟨.int (-1), []⟩
  | .CThostFtdcTraderApi_Release api =>
    if api ≠ 0 then callVoid ⟨"CThostFtdcTraderApi", "Release", api, []⟩
    else ⟨.void, []⟩
  | .CThostFtdcTraderApi_Init api =>
    ⟨.void, CTP_DEBUG lg "Trader API初始化开始, api=%p" [.ptr api] ++
      (if api ≠ 0 then
        [.vendor ⟨"CThostFtdcTraderApi", "Init", api, []⟩] ++
        CTP_DEBUG lg "Trader API初始化完成, api=%p" [.ptr api]
      else
        CTP_DEBUG lg "Trader API初始化失败: API实例为空" [] ++
        [.cout "[CTP_API] ❌ API实例为空!"])⟩
  | .CThostFtdcTraderApi_Join api =>
    if api ≠ 0 then callInt V ⟨"CThostFtdcTraderApi", "Join", api, []⟩
    else ⟨.int (-1), []⟩
  | .CThostFtdcTraderApi_GetTradingDay api =>
    if api ≠ 0 then callPtr V ⟨"CThostFtdcTraderApi", "GetTradingDay", api, []⟩
    else ⟨.ptr 0, []⟩
  | .CThostFtdcTraderApi_RegisterFront api pszFrontAddress =>
    ⟨.void, CTP_DEBUG lg "注册前置机, api=%p, front_address=%s"
        [.ptr api, if pszFrontAddress ≠ 0 then .cstr pszFrontAddress else .str "null"] ++
      (if api ≠ 0 then
        [.vendor ⟨"CThostFtdcTraderApi", "RegisterFront", api, [.ptr pszFrontAddress]⟩] ++
        CTP_DEBUG lg "注册前置机完成, api=%p" [.ptr api]
      else
        CTP_DEBUG lg "注册前置机失败: API实例为空" [] ++
        [.cout "[CTP_API] ❌ API实例为空!"])⟩
  | .CThostFtdcTraderApi_RegisterNameServer api pszNsAddress =>
    if api ≠ 0 then callVoid ⟨"CThostFtdcTraderApi", "RegisterNameServer", api, [.ptr pszNsAddress]⟩
    else ⟨.void, []⟩
  | .CThostFtdcTraderApi_GetFrontInfo api pFrontInfo =>
    if api ≠ 0 then callVoid ⟨"CThostFtdcTraderApi", "GetFrontInfo", api, [.ptr pFrontInfo]⟩
    else ⟨.void, []⟩
  | .CThostFtdcTraderApi_RegisterFensUserInfo api pFensUserInfo =>
    if api ≠ 0 then
      callVoid ⟨"CThostFtdcTraderApi", "RegisterFensUserInfo", api, [.ptr pFensUserInfo]⟩
    else ⟨.void, []⟩
  | .CThostFtdcTraderApi_RegisterSpi api pSpi =>
    if api ≠ 0 then callVoid ⟨"CThostFtdcTraderApi", "RegisterSpi", api, [.ptr pSpi]⟩
    else ⟨.void, [.cout "[CTP_API] ❌ API实例为空!"]⟩
  | .CThostFtdcTraderApi_ReqAuthenticate api pReqAuthenticateField nRequestID =>
    if api ≠ 0 then
      callInt V ⟨"CThostFtdcTraderApi", "ReqAuthenticate", api, [.ptr pReqAuthenticateField, .int nRequestID]⟩
    else ⟨.int (-1), []⟩
  | .CThostFtdcTraderApi_RegisterUserSystemInfo api pUserSystemInfo =>
    if api ≠ 0 then
      callInt V ⟨"CThostFtdcTraderApi", "RegisterUserSystemInfo", api, [.ptr pUserSystemInfo]⟩
    else ⟨.int (-1), []⟩
  | .CThostFtdcTraderApi_SubmitUserSystemInfo api pUserSystemInfo =>
    if api ≠ 0 then
      callInt V ⟨"CThostFtdcTraderApi", "SubmitUserSystemInfo", api, [.ptr pUserSystemInfo]⟩
    else ⟨.int (-1), []⟩
  | .CThostFtdcTraderApi_RegisterWechatUserSystemInfo api pUserSystemInfo =>
    if api ≠ 0 then
      callInt V ⟨"CThostFtdcTraderApi", "RegisterWechatUserSystemInfo", api, [.ptr pUserSystemInfo]⟩
    else ⟨.int (-1), []⟩
  | .CThostFtdcTraderApi_SubmitWechatUserSystemInfo api pUserSystemInfo =>
    if api ≠ 0 then
      callInt V ⟨"CThostFtdcTraderApi", "SubmitWechatUserSystemInfo", api, [.ptr pUserSystemInfo]⟩
    else ⟨.int (-1), []⟩
  | .CThostFtdcTraderApi_ReqUserLogin api pReqUserLoginField nRequestID =>
    if api ≠ 0 then
      let c : VendorCall := ⟨"CThostFtdcTraderApi", "ReqUserLogin", api, [.ptr pReqUserLoginField, .int nRequestID]⟩
      let result := V.int c
      ⟨.int result, CTP_DEBUG lg "Trader用户登录请求开始, api=%p, request_id=%d" [.ptr api, .int nRequestID] ++
        [.vendor c] ++
        CTP_DEBUG lg "Trader用户登录请求完成, request_id=%d, 返回值=%d" [.int nRequestID, .int result]⟩
    else
      ⟨.int (-1), CTP_DEBUG lg "Trader用户登录请求开始, api=%p, request_id=%d" [.ptr api, .int nRequestID] ++
        CTP_DEBUG lg "Trader用户登录请求失败: API实例为空, request_id=%d" [.int nRequestID]⟩
  | .CThostFtdcTraderApi_ReqUserLogout api pUserLogout nRequestID =>
    if api ≠ 0 then
      callInt V ⟨"CThostFtdcTraderApi", "ReqUserLogout", api, [.ptr pUserLogout, .int nRequestID]⟩
    else ⟨.int (-1), []⟩
  | .CThostFtdcTraderApi_ReqUserPasswordUpdate api pUserPasswordUpdate nRequestID =>
    if api ≠ 0 then
      callInt V ⟨"CThostFtdcTraderApi", "ReqUserPasswordUpdate", api, [.ptr pUserPasswordUpdate, .int nRequestID]⟩
    else ⟨.int (-1), []⟩
  | .CThostFtdcTraderApi_ReqTradingAccountPasswordUpdate api pTradingAccountPasswordUpdate nRequestID =>
    if api ≠ 0 then
      callInt V ⟨"CThostFtdcTraderApi", "ReqTradingAccountPasswordUpdate", api, [.ptr pTradingAccountPasswordUpdate, .int nRequestID]⟩
    else ⟨.int (-1), []⟩
  | .CThostFtdcTraderApi_ReqUserAuthMethod api pReqUserAuthMethod nRequestID =>
    if api ≠ 0 then
      callInt V ⟨"CThostFtdcTraderApi", "ReqUserAuthMethod", api, [.ptr pReqUserAuthMethod, .int nRequestID]⟩
    else ⟨.int (-1), []⟩
  | .CThostFtdcTraderApi_ReqGenUserCaptcha api pReqGenUserCaptcha nRequestID =>
    if api ≠ 0 then
      callInt V ⟨"CThostFtdcTraderApi", "ReqGenUserCaptcha", api, [.ptr pReqGenUserCaptcha, .int nRequestID]⟩
    else ⟨.int (-1), []⟩
  | .CThostFtdcTraderApi_ReqGenUserText api pReqGenUserText nRequestID =>
    if api ≠ 0 then
      callInt V ⟨"CThostFtdcTraderApi", "ReqGenUserText", api, [.ptr pReqGenUserText, .int nRequestID]⟩
    else ⟨.int (-1), []⟩
  | .CThostFtdcTraderApi_ReqUserLoginWithCaptcha api pReqUserLoginWithCaptcha nRequestID =>
    if api ≠ 0 then
      callInt V ⟨"CThostFtdcTraderApi", "ReqUserLoginWithCaptcha", api, [.ptr pReqUserLoginWithCaptcha, .int nRequestID]⟩
    else ⟨.int (-1), []⟩
  | .CThostFtdcTraderApi_ReqUserLoginWithText api pReqUserLoginWithText nRequestID =>
    if api ≠ 0 then
      callInt V ⟨"CThostFtdcTraderApi", "ReqUserLoginWithText", api, [.ptr pReqUserLoginWithText, .int nRequestID]⟩
    else ⟨.int (-1), []⟩
  | .CThostFtdcTraderApi_ReqUserLoginWithOTP api pReqUserLoginWithOTP nRequestID =>
    if api ≠ 0 then
      callInt V ⟨"CThostFtdcTraderApi", "ReqUserLoginWithOTP", api, [.ptr pReqUserLoginWithOTP, .int nRequestID]⟩
    else ⟨.int (-1), []⟩
  | .CThostFtdcTraderApi_ReqOrderInsert api pInputOrder nRequestID =>
    if api ≠ 0 then
      let c : VendorCall := ⟨"CThostFtdcTraderApi", "ReqOrderInsert", api, [.ptr pInputOrder, .int nRequestID]⟩
      let result := V.int c
      ⟨.int result, CTP_DEBUG lg "报单录入请求开始, api=%p, request_id=%d" [.ptr api, .int nRequestID] ++
        [.vendor c] ++
        CTP_DEBUG lg "报单录入请求完成, request_id=%d, 返回值=%d" [.int nRequestID, .int result]⟩
    else
      ⟨.int (-1), CTP_DEBUG lg "报单录入请求开始, api=%p, request_id=%d" [.ptr api, .int nRequestID] ++
        CTP_DEBUG lg "报单录入请求失败: API实例为空, request_id=%d" [.int nRequestID]⟩
  | .CThostFtdcTraderApi_ReqParkedOrderInsert api pParkedOrder nRequestID =>
    if api ≠ 0 then
      callInt V ⟨"CThostFtdcTraderApi", "ReqParkedOrderInsert", api, [.ptr pParkedOrder, .int nRequestID]⟩
    else ⟨.int (-1), []⟩
  | .CThostFtdcTraderApi_ReqParkedOrderAction api pParkedOrderAction nRequestID =>
    if api ≠ 0 then
      callInt V ⟨"CThostFtdcTraderApi", "ReqParkedOrderAction", api, [.ptr pParkedOrderAction, .int nRequestID]⟩
    else ⟨.int (-1), []⟩
  | .CThostFtdcTraderApi_ReqOrderAction api pInputOrderAction nRequestID =>
    if api ≠ 0 then
      callInt V ⟨"CThostFtdcTraderApi", "ReqOrderAction", api, [.ptr pInputOrderAction, .int nRequestID]⟩
    else ⟨.int (-1), []⟩
  | .CThostFtdcTraderApi_ReqQryMaxOrderVolume api pQryMaxOrderVolume nRequestID =>
    if api ≠ 0 then
      callInt V ⟨"CThostFtdcTraderApi", "ReqQryMaxOrderVolume", api, [.ptr pQryMaxOrderVolume, .int nRequestID]⟩
    else ⟨.int (-1), []⟩
  | .CThostFtdcTraderApi_ReqSettlementInfoConfirm api pSettlementInfoConfirm nRequestID =>
    if api ≠ 0 then
      callInt V ⟨"CThostFtdcTraderApi", "ReqSettlementInfoConfirm", api, [.ptr pSettlementInfoConfirm, .int nRequestID]⟩
    else ⟨.int (-1), []⟩
  | .CThostFtdcTraderApi_ReqRemoveParkedOrder api pRemoveParkedOrder nRequestID =>
    if api ≠ 0 then
      callInt V ⟨"CThostFtdcTraderApi", "ReqRemoveParkedOrder", api, [.ptr pRemoveParkedOrder, .int nRequestID]⟩
    else ⟨.int (-1), []⟩
  | .CThostFtdcTraderApi_ReqRemoveParkedOrderAction api pRemoveParkedOrderAction nRequestID =>
    if api ≠ 0 then
      callInt V ⟨"CThostFtdcTraderApi", "ReqRemoveParkedOrderAction", api, [.ptr pRemoveParkedOrderAction, .int nRequestID]⟩
    else ⟨.int (-1), []⟩
  | .CThostFtdcTraderApi_ReqExecOrderInsert api pInputExecOrder nRequestID =>
    if api ≠ 0 then
      callInt V ⟨"CThostFtdcTraderApi", "ReqExecOrderInsert", api, [.ptr pInputExecOrder, .int nRequestID]⟩
    else ⟨.int (-1), []⟩
  | .CThostFtdcTraderApi_ReqExecOrderAction api pInputExecOrderAction nRequestID =>
    if api ≠ 0 then
      callInt V ⟨"CThostFtdcTraderApi", "ReqExecOrderAction", api, [.ptr pInputExecOrderAction, .int nRequestID]⟩
    else ⟨.int (-1), []⟩
  | .CThostFtdcTraderApi_ReqForQuoteInsert api pInputForQuote nRequestID =>
    if api ≠ 0 then
      callInt V ⟨"CThostFtdcTraderApi", "ReqForQuoteInsert", api, [.ptr pInputForQuote, .int nRequestID]⟩
    else ⟨.int (-1), []⟩
  | .CThostFtdcTraderApi_ReqQuoteInsert api pInputQuote nRequestID =>
    if api ≠ 0 then
      callInt V ⟨"CThostFtdcTraderApi", "ReqQuoteInsert", api, [.ptr pInputQuote, .int nRequestID]⟩
    else ⟨.int (-1), []⟩
  | .CThostFtdcTraderApi_ReqQuoteAction api pInputQuoteAction nRequestID =>
    if api ≠ 0 then
      callInt V ⟨"CThostFtdcTraderApi", "ReqQuoteAction", api, [.ptr pInputQuoteAction, .int nRequestID]⟩
    else ⟨.int (-1), []⟩
  | .CThostFtdcTraderApi_ReqBatchOrderAction api pInputBatchOrderAction nRequestID =>
    if api ≠ 0 then
      callInt V ⟨"CThostFtdcTraderApi", "ReqBatchOrderAction", api, [.ptr pInputBatchOrderAction, .int nRequestID]⟩
    else ⟨.int (-1), []⟩
  | .CThostFtdcTraderApi_ReqOptionSelfCloseInsert api pInputOptionSelfClose nRequestID =>
    if api ≠ 0 then
      callInt V ⟨"CThostFtdcTraderApi", "ReqOptionSelfCloseInsert", api, [.ptr pInputOptionSelfClose, .int nRequestID]⟩
    else ⟨.int (-1), []⟩
  | .CThostFtdcTraderApi_ReqOptionSelfCloseAction api pInputOptionSelfCloseAction nRequestID =>
    if api ≠ 0 then
      callInt V ⟨"CThostFtdcTraderApi", "ReqOptionSelfCloseAction", api, [.ptr pInputOptionSelfCloseAction, .int nRequestID]⟩
    else ⟨.int (-1), []⟩
  | .CThostFtdcTraderApi_ReqCombActionInsert api pInputCombAction nRequestID =>
    if api ≠ 0 then
      callInt V ⟨"CThostFtdcTraderApi", "ReqCombActionInsert", api, [.ptr pInputCombAction, .int nRequestID]⟩
    else ⟨.int (-1), []⟩
  | .CThostFtdcTraderApi_ReqQryOrder api pQryOrder nRequestID =>
    if api ≠ 0 then
      callInt V ⟨"CThostFtdcTraderApi", "ReqQryOrder", api, [.ptr pQryOrder, .int nRequestID]⟩
    else ⟨.int (-1), []⟩
  | .CThostFtdcTraderApi_ReqQryTrade api pQryTrade nRequestID =>
    if api ≠ 0 then
      callInt V ⟨"CThostFtdcTraderApi", "ReqQryTrade", api, [.ptr pQryTrade, .int nRequestID]⟩
    else ⟨.int (-1), []⟩
  | .CThostFtdcTraderApi_ReqQryInvestorPosition api pQryInvestorPosition nRequestID =>
    if api ≠ 0 then
      callInt V ⟨"CThostFtdcTraderApi", "ReqQryInvestorPosition", api, [.ptr pQryInvestorPosition, .int nRequestID]⟩
    else ⟨.int (-1), []⟩
  | .CThostFtdcTraderApi_ReqQryTradingAccount api pQryTradingAccount nRequestID =>
    if api ≠ 0 then
      let c : VendorCall := ⟨"CThostFtdcTraderApi", "ReqQryTradingAccount", api, [.ptr pQryTradingAccount, .int nRequestID]⟩
      let result := V.int c
      ⟨.int result, CTP_DEBUG lg "查询资金账户请求开始, api=%p, request_id=%d" [.ptr api, .int nRequestID] ++
        [.vendor c] ++
        CTP_DEBUG lg "查询资金账户请求完成, request_id=%d, 返回值=%d" [.int nRequestID, .int result]⟩
    else
      ⟨.int (-1), CTP_DEBUG lg "查询资金账户请求开始, api=%p, request_id=%d" [.ptr api, .int nRequestID] ++
        CTP_DEBUG lg "查询资金账户请求失败: API实例为空, request_id=%d" [.int nRequestID]⟩
  | .CThostFtdcTraderApi_ReqQryInvestor api pQryInvestor nRequestID =>
    if api ≠ 0 then
      callInt V ⟨"CThostFtdcTraderApi", "ReqQryInvestor", api, [.ptr pQryInvestor, .int nRequestID]⟩
    else ⟨.int (-1), []⟩
  | .CThostFtdcTraderApi_ReqQryTradingCode api pQryTradingCode nRequestID =>
    if api ≠ 0 then
      callInt V ⟨"CThostFtdcTraderApi", "ReqQryTradingCode", api, [.ptr pQryTradingCode, .int nRequestID]⟩
    else ⟨.int (-1), []⟩
  | .CThostFtdcTraderApi_ReqQryInstrumentMarginRate api pQryInstrumentMarginRate nRequestID =>
    if api ≠ 0 then
      callInt V ⟨"CThostFtdcTraderApi", "ReqQryInstrumentMarginRate", api, [.ptr pQryInstrumentMarginRate, .int nRequestID]⟩
    else ⟨.int (-1), []⟩
  | .CThostFtdcTraderApi_ReqQryInstrumentCommissionRate api pQryInstrumentCommissionRate nRequestID =>
    if api ≠ 0 then
      callInt V ⟨"CThostFtdcTraderApi", "ReqQryInstrumentCommissionRate", api, [.ptr pQryInstrumentCommissionRate, .int nRequestID]⟩
    else ⟨.int (-1), []⟩
  | .CThostFtdcTraderApi_ReqQryExchange api pQryExchange nRequestID =>
    if api ≠ 0 then
      callInt V ⟨"CThostFtdcTraderApi", "ReqQryExchange", api, [.ptr pQryExchange, .int nRequestID]⟩
    else ⟨.int (-1), []⟩
  | .CThostFtdcTraderApi_ReqQryProduct api pQryProduct nRequestID =>
    if api ≠ 0 then
      callInt V ⟨"CThostFtdcTraderApi", "ReqQryProduct", api, [.ptr pQryProduct, .int nRequestID]⟩
    else ⟨.int (-1), []⟩
  | .CThostFtdcTraderApi_ReqQryInstrument api pQryInstrument nRequestID =>
    if api ≠ 0 then
      callInt V ⟨"CThostFtdcTraderApi", "ReqQryInstrument", api, [.ptr pQryInstrument, .int nRequestID]⟩
    else ⟨.int (-1), []⟩
  | .CThostFtdcTraderApi_ReqQryDepthMarketData api pQryDepthMarketData nRequestID =>
    if api ≠ 0 then
      callInt V ⟨"CThostFtdcTraderApi", "ReqQryDepthMarketData", api, [.ptr pQryDepthMarketData, .int nRequestID]⟩
    else ⟨.int (-1), []⟩
  | .CThostFtdcTraderApi_ReqQrySettlementInfo api pQrySettlementInfo nRequestID =>
    if api ≠ 0 then
      callInt V ⟨"CThostFtdcTraderApi", "ReqQrySettlementInfo", api, [.ptr pQrySettlementInfo, .int nRequestID]⟩
    else ⟨.int (-1), []⟩

/-! ## Reading a flat call by its declaration in `ctp_wrapper.h` -/

/-- The handle argument (the first parameter, `void *api`) of a flat call. -/
def FlatCall.handle : FlatCall → Ptr
  | .CThostFtdcMdApi_Release api => api
  | .CThostFtdcMdApi_Init api => api
  | .CThostFtdcMdApi_Join api => api
  | .CThostFtdcMdApi_GetTradingDay api => api
  | .CThostFtdcMdApi_RegisterFront api _ => api
  | .CThostFtdcMdApi_RegisterNameServer api _ => api
  | .CThostFtdcMdApi_RegisterFensUserInfo api _ => api
  | .CThostFtdcMdApi_RegisterSpi api _ => api
  | .CThostFtdcMdApi_ReqUserLogin api _ _ => api
  | .CThostFtdcMdApi_ReqUserLogout api _ _ => api
  | .CThostFtdcMdApi_SubscribeMarketData api _ _ => api
  | .CThostFtdcMdApi_UnSubscribeMarketData api _ _ => api
  | .CThostFtdcMdApi_SubscribeForQuoteRsp api _ _ => api
  | .CThostFtdcMdApi_UnSubscribeForQuoteRsp api _ _ => api
  | .CThostFtdcTraderApi_Release api => api
  | .CThostFtdcTraderApi_Init api => api
  | .CThostFtdcTraderApi_Join api => api
  | .CThostFtdcTraderApi_GetTradingDay api => api
  | .CThostFtdcTraderApi_RegisterFront api _ => api
  | .CThostFtdcTraderApi_RegisterNameServer api _ => api
  | .CThostFtdcTraderApi_GetFrontInfo api _ => api
  | .CThostFtdcTraderApi_RegisterFensUserInfo api _ => api
  | .CThostFtdcTraderApi_RegisterSpi api _ => api
  | .CThostFtdcTraderApi_ReqAuthenticate api _ _ => api
  | .CThostFtdcTraderApi_RegisterUserSystemInfo api _ => api
  | .CThostFtdcTraderApi_SubmitUserSystemInfo api _ => api
  | .CThostFtdcTraderApi_RegisterWechatUserSystemInfo api _ => api
  | .CThostFtdcTraderApi_SubmitWechatUserSystemInfo api _ => api
  | .CThostFtdcTraderApi_ReqUserLogin api _ _ => api
  | .CThostFtdcTraderApi_ReqUserLogout api _ _ => api
  | .CThostFtdcTraderApi_ReqUserPasswordUpdate api _ _ => api
  | .CThostFtdcTraderApi_ReqTradingAccountPasswordUpdate api _ _ => api
  | .CThostFtdcTraderApi_ReqUserAuthMethod api _ _ => api
  | .CThostFtdcTraderApi_ReqGenUserCaptcha api _ _ => api
  | .CThostFtdcTraderApi_ReqGenUserText api _ _ => api
  | .CThostFtdcTraderApi_ReqUserLoginWithCaptcha api _ _ => api
  | .CThostFtdcTraderApi_ReqUserLoginWithText api _ _ => api
  | .CThostFtdcTraderApi_ReqUserLoginWithOTP api _ _ => api
  | .CThostFtdcTraderApi_ReqOrderInsert api _ _ => api
  | .CThostFtdcTraderApi_ReqParkedOrderInsert api _ _ => api
  | .CThostFtdcTraderApi_ReqParkedOrderAction api _ _ => api
  | .CThostFtdcTraderApi_ReqOrderAction api _ _ => api
  | .CThostFtdcTraderApi_ReqQryMaxOrderVolume api _ _ => api
  | .CThostFtdcTraderApi_ReqSettlementInfoConfirm api _ _ => api
  | .CThostFtdcTraderApi_ReqRemoveParkedOrder api _ _ => api
  | .CThostFtdcTraderApi_ReqRemoveParkedOrderAction api _ _ => api
  | .CThostFtdcTraderApi_ReqExecOrderInsert api _ _ => api
  | .CThostFtdcTraderApi_ReqExecOrderAction api _ _ => api
  | .CThostFtdcTraderApi_ReqForQuoteInsert api _ _ => api
  | .CThostFtdcTraderApi_ReqQuoteInsert api _ _ => api
  | .CThostFtdcTraderApi_ReqQuoteAction api _ _ => api
  | .CThostFtdcTraderApi_ReqBatchOrderAction api _ _ => api
  | .CThostFtdcTraderApi_ReqOptionSelfCloseInsert api _ _ => api
  | .CThostFtdcTraderApi_ReqOptionSelfCloseAction api _ _ => api
  | .CThostFtdcTraderApi_ReqCombActionInsert api _ _ => api
  | .CThostFtdcTraderApi_ReqQryOrder api _ _ => api
  | .CThostFtdcTraderApi_ReqQryTrade api _ _ => api
  | .CThostFtdcTraderApi_ReqQryInvestorPosition api _ _ => api
  | .CThostFtdcTraderApi_ReqQryTradingAccount api _ _ => api
  | .CThostFtdcTraderApi_ReqQryInvestor api _ _ => api
  | .CThostFtdcTraderApi_ReqQryTradingCode api _ _ => api
  | .CThostFtdcTraderApi_ReqQryInstrumentMarginRate api _ _ => api
  | .CThostFtdcTraderApi_ReqQryInstrumentCommissionRate api _ _ => api
  | .CThostFtdcTraderApi_ReqQryExchange api _ _ => api
  | .CThostFtdcTraderApi_ReqQryProduct api _ _ => api
  | .CThostFtdcTraderApi_ReqQryInstrument api _ _ => api
  | .CThostFtdcTraderApi_ReqQryDepthMarketData api _ _ => api
  | .CThostFtdcTraderApi_ReqQrySettlementInfo api _ _ => api

/-- The C identifier of the called function. -/
def FlatCall.name : FlatCall → String
  | .CThostFtdcMdApi_Release _ => "CThostFtdcMdApi_Release"
  | .CThostFtdcMdApi_Init _ => "CThostFtdcMdApi_Init"
  | .CThostFtdcMdApi_Join _ => "CThostFtdcMdApi_Join"
  | .CThostFtdcMdApi_GetTradingDay _ => "CThostFtdcMdApi_GetTradingDay"
  | .CThostFtdcMdApi_RegisterFront _ _ => "CThostFtdcMdApi_RegisterFront"
  | .CThostFtdcMdApi_RegisterNameServer _ _ => "CThostFtdcMdApi_RegisterNameServer"
  | .CThostFtdcMdApi_RegisterFensUserInfo _ _ => "CThostFtdcMdApi_RegisterFensUserInfo"
  | .CThostFtdcMdApi_RegisterSpi _ _ => "CThostFtdcMdApi_RegisterSpi"
  | .CThostFtdcMdApi_ReqUserLogin _ _ _ => "CThostFtdcMdApi_ReqUserLogin"
  | .CThostFtdcMdApi_ReqUserLogout _ _ _ => "CThostFtdcMdApi_ReqUserLogout"
  | .CThostFtdcMdApi_SubscribeMarketData _ _ _ => "CThostFtdcMdApi_SubscribeMarketData"
  | .CThostFtdcMdApi_UnSubscribeMarketData _ _ _ => "CThostFtdcMdApi_UnSubscribeMarketData"
  | .CThostFtdcMdApi_SubscribeForQuoteRsp _ _ _ => "CThostFtdcMdApi_SubscribeForQuoteRsp"
  | .CThostFtdcMdApi_UnSubscribeForQuoteRsp _ _ _ => "CThostFtdcMdApi_UnSubscribeForQuoteRsp"
  | .CThostFtdcTraderApi_Release _ => "CThostFtdcTraderApi_Release"
  | .CThostFtdcTraderApi_Init _ => "CThostFtdcTraderApi_Init"
  | .CThostFtdcTraderApi_Join _ => "CThostFtdcTraderApi_Join"
  | .CThostFtdcTraderApi_GetTradingDay _ => "CThostFtdcTraderApi_GetTradingDay"
  | .CThostFtdcTraderApi_RegisterFront _ _ => "CThostFtdcTraderApi_RegisterFront"
  | .CThostFtdcTraderApi_RegisterNameServer _ _ => "CThostFtdcTraderApi_RegisterNameServer"
  | .CThostFtdcTraderApi_GetFrontInfo _ _ => "CThostFtdcTraderApi_GetFrontInfo"
  | .CThostFtdcTraderApi_RegisterFensUserInfo _ _ => "CThostFtdcTraderApi_RegisterFensUserInfo"
  | .CThostFtdcTraderApi_RegisterSpi _ _ => "CThostFtdcTraderApi_RegisterSpi"
  | .CThostFtdcTraderApi_ReqAuthenticate _ _ _ => "CThostFtdcTraderApi_ReqAuthenticate"
  | .CThostFtdcTraderApi_RegisterUserSystemInfo _ _ => "CThostFtdcTraderApi_RegisterUserSystemInfo"
  | .CThostFtdcTraderApi_SubmitUserSystemInfo _ _ => "CThostFtdcTraderApi_SubmitUserSystemInfo"
  | .CThostFtdcTraderApi_RegisterWechatUserSystemInfo _ _ =>
      "CThostFtdcTraderApi_RegisterWechatUserSystemInfo"
  | .CThostFtdcTraderApi_SubmitWechatUserSystemInfo _ _ =>
      "CThostFtdcTraderApi_SubmitWechatUserSystemInfo"
  | .CThostFtdcTraderApi_ReqUserLogin _ _ _ => "CThostFtdcTraderApi_ReqUserLogin"
  | .CThostFtdcTraderApi_ReqUserLogout _ _ _ => "CThostFtdcTraderApi_ReqUserLogout"
  | .CThostFtdcTraderApi_ReqUserPasswordUpdate _ _ _ => "CThostFtdcTraderApi_ReqUserPasswordUpdate"
  | .CThostFtdcTraderApi_ReqTradingAccountPasswordUpdate _ _ _ =>
      "CThostFtdcTraderApi_ReqTradingAccountPasswordUpdate"
  | .CThostFtdcTraderApi_ReqUserAuthMethod _ _ _ => "CThostFtdcTraderApi_ReqUserAuthMethod"
  | .CThostFtdcTraderApi_ReqGenUserCaptcha _ _ _ => "CThostFtdcTraderApi_ReqGenUserCaptcha"
  | .CThostFtdcTraderApi_ReqGenUserText _ _ _ => "CThostFtdcTraderApi_ReqGenUserText"
  | .CThostFtdcTraderApi_ReqUserLoginWithCaptcha _ _ _ =>
      "CThostFtdcTraderApi_ReqUserLoginWithCaptcha"
  | .CThostFtdcTraderApi_ReqUserLoginWithText _ _ _ => "CThostFtdcTraderApi_ReqUserLoginWithText"
  | .CThostFtdcTraderApi_ReqUserLoginWithOTP _ _ _ => "CThostFtdcTraderApi_ReqUserLoginWithOTP"
  | .CThostFtdcTraderApi_ReqOrderInsert _ _ _ => "CThostFtdcTraderApi_ReqOrderInsert"
  | .CThostFtdcTraderApi_ReqParkedOrderInsert _ _ _ => "CThostFtdcTraderApi_ReqParkedOrderInsert"
  | .CThostFtdcTraderApi_ReqParkedOrderAction _ _ _ => "CThostFtdcTraderApi_ReqParkedOrderAction"
  | .CThostFtdcTraderApi_ReqOrderAction _ _ _ => "CThostFtdcTraderApi_ReqOrderAction"
  | .CThostFtdcTraderApi_ReqQryMaxOrderVolume _ _ _ => "CThostFtdcTraderApi_ReqQryMaxOrderVolume"
  | .CThostFtdcTraderApi_ReqSettlementInfoConfirm _ _ _ =>
      "CThostFtdcTraderApi_ReqSettlementInfoConfirm"
  | .CThostFtdcTraderApi_ReqRemoveParkedOrder _ _ _ => "CThostFtdcTraderApi_ReqRemoveParkedOrder"
  | .CThostFtdcTraderApi_ReqRemoveParkedOrderAction _ _ _ =>
      "CThostFtdcTraderApi_ReqRemoveParkedOrderAction"
  | .CThostFtdcTraderApi_ReqExecOrderInsert _ _ _ => "CThostFtdcTraderApi_ReqExecOrderInsert"
  | .CThostFtdcTraderApi_ReqExecOrderAction _ _ _ => "CThostFtdcTraderApi_ReqExecOrderAction"
  | .CThostFtdcTraderApi_ReqForQuoteInsert _ _ _ => "CThostFtdcTraderApi_ReqForQuoteInsert"
  | .CThostFtdcTraderApi_ReqQuoteInsert _ _ _ => "CThostFtdcTraderApi_ReqQuoteInsert"
  | .CThostFtdcTraderApi_ReqQuoteAction _ _ _ => "CThostFtdcTraderApi_ReqQuoteAction"
  | .CThostFtdcTraderApi_ReqBatchOrderAction _ _ _ => "CThostFtdcTraderApi_ReqBatchOrderAction"
  | .CThostFtdcTraderApi_ReqOptionSelfCloseInsert _ _ _ =>
      "CThostFtdcTraderApi_ReqOptionSelfCloseInsert"
  | .CThostFtdcTraderApi_ReqOptionSelfCloseAction _ _ _ =>
      "CThostFtdcTraderApi_ReqOptionSelfCloseAction"
  | .CThostFtdcTraderApi_ReqCombActionInsert _ _ _ => "CThostFtdcTraderApi_ReqCombActionInsert"
  | .CThostFtdcTraderApi_ReqQryOrder _ _ _ => "CThostFtdcTraderApi_ReqQryOrder"
  | .CThostFtdcTraderApi_ReqQryTrade _ _ _ => "CThostFtdcTraderApi_ReqQryTrade"
  | .CThostFtdcTraderApi_ReqQryInvestorPosition _ _ _ =>
      "CThostFtdcTraderApi_ReqQryInvestorPosition"
  | .CThostFtdcTraderApi_ReqQryTradingAccount _ _ _ => "CThostFtdcTraderApi_ReqQryTradingAccount"
  | .CThostFtdcTraderApi_ReqQryInvestor _ _ _ => "CThostFtdcTraderApi_ReqQryInvestor"
  | .CThostFtdcTraderApi_ReqQryTradingCode _ _ _ => "CThostFtdcTraderApi_ReqQryTradingCode"
  | .CThostFtdcTraderApi_ReqQryInstrumentMarginRate _ _ _ =>
      "CThostFtdcTraderApi_ReqQryInstrumentMarginRate"
  | .CThostFtdcTraderApi_ReqQryInstrumentCommissionRate _ _ _ =>
      "CThostFtdcTraderApi_ReqQryInstrumentCommissionRate"
  | .CThostFtdcTraderApi_ReqQryExchange _ _ _ => "CThostFtdcTraderApi_ReqQryExchange"
  | .CThostFtdcTraderApi_ReqQryProduct _ _ _ => "CThostFtdcTraderApi_ReqQryProduct"
  | .CThostFtdcTraderApi_ReqQryInstrument _ _ _ => "CThostFtdcTraderApi_ReqQryInstrument"
  | .CThostFtdcTraderApi_ReqQryDepthMarketData _ _ _ => "CThostFtdcTraderApi_ReqQryDepthMarketData"
  | .CThostFtdcTraderApi_ReqQrySettlementInfo _ _ _ => "CThostFtdcTraderApi_ReqQrySettlementInfo"

/-- The sentinel for the declared return type: -1 for int, the null pointer for
const char pointer, nothing for void. -/
def FlatCall.sentinel : FlatCall → Ret
  | .CThostFtdcMdApi_Release _ => .void
  | .CThostFtdcMdApi_Init _ => .void
  | .CThostFtdcMdApi_Join _ => .int (-1)
  | .CThostFtdcMdApi_GetTradingDay _ => .ptr 0
  | .CThostFtdcMdApi_RegisterFront _ _ => .void
  | .CThostFtdcMdApi_RegisterNameServer _ _ => .void
  | .CThostFtdcMdApi_RegisterFensUserInfo _ _ => .void
  | .CThostFtdcMdApi_RegisterSpi _ _ => .void
  | .CThostFtdcMdApi_ReqUserLogin _ _ _ => .int (-1)
  | .CThostFtdcMdApi_ReqUserLogout _ _ _ => .int (-1)
  | .CThostFtdcMdApi_SubscribeMarketData _ _ _ => .int (-1)
  | .CThostFtdcMdApi_UnSubscribeMarketData _ _ _ => .int (-1)
  | .CThostFtdcMdApi_SubscribeForQuoteRsp _ _ _ => .int (-1)
  | .CThostFtdcMdApi_UnSubscribeForQuoteRsp _ _ _ => .int (-1)
  | .CThostFtdcTraderApi_Release _ => .void
  | .CThostFtdcTraderApi_Init _ => .void
  | .CThostFtdcTraderApi_Join _ => .int (-1)
  | .CThostFtdcTraderApi_GetTradingDay _ => .ptr 0
  | .CThostFtdcTraderApi_RegisterFront _ _ => .void
  | .CThostFtdcTraderApi_RegisterNameServer _ _ => .void
  | .CThostFtdcTraderApi_GetFrontInfo _ _ => .void
  | .CThostFtdcTraderApi_RegisterFensUserInfo _ _ => .void
  | .CThostFtdcTraderApi_RegisterSpi _ _ => .void
  | .CThostFtdcTraderApi_ReqAuthenticate _ _ _ => .int (-1)
  | .CThostFtdcTraderApi_RegisterUserSystemInfo _ _ => .int (-1)
  | .CThostFtdcTraderApi_SubmitUserSystemInfo _ _ => .int (-1)
  | .CThostFtdcTraderApi_RegisterWechatUserSystemInfo _ _ => .int (-1)
  | .CThostFtdcTraderApi_SubmitWechatUserSystemInfo _ _ => .int (-1)
  | .CThostFtdcTraderApi_ReqUserLogin _ _ _ => .int (-1)
  | .CThostFtdcTraderApi_ReqUserLogout _ _ _ => .int (-1)
  | .CThostFtdcTraderApi_ReqUserPasswordUpdate _ _ _ => .int (-1)
  | .CThostFtdcTraderApi_ReqTradingAccountPasswordUpdate _ _ _ => .int (-1)
  | .CThostFtdcTraderApi_ReqUserAuthMethod _ _ _ => .int (-1)
  | .CThostFtdcTraderApi_ReqGenUserCaptcha _ _ _ => .int (-1)
  | .CThostFtdcTraderApi_ReqGenUserText _ _ _ => .int (-1)
  | .CThostFtdcTraderApi_ReqUserLoginWithCaptcha _ _ _ => .int (-1)
  | .CThostFtdcTraderApi_ReqUserLoginWithText _ _ _ => .int (-1)
  | .CThostFtdcTraderApi_ReqUserLoginWithOTP _ _ _ => .int (-1)
  | .CThostFtdcTraderApi_ReqOrderInsert _ _ _ => .int (-1)
  | .CThostFtdcTraderApi_ReqParkedOrderInsert _ _ _ => .int (-1)
  | .CThostFtdcTraderApi_ReqParkedOrderAction _ _ _ => .int (-1)
  | .CThostFtdcTraderApi_ReqOrderAction _ _ _ => .int (-1)
  | .CThostFtdcTraderApi_ReqQryMaxOrderVolume _ _ _ => .int (-1)
  | .CThostFtdcTraderApi_ReqSettlementInfoConfirm _ _ _ => .int (-1)
  | .CThostFtdcTraderApi_ReqRemoveParkedOrder _ _ _ => .int (-1)
  | .CThostFtdcTraderApi_ReqRemoveParkedOrderAction _ _ _ => .int (-1)
  | .CThostFtdcTraderApi_ReqExecOrderInsert _ _ _ => .int (-1)
  | .CThostFtdcTraderApi_ReqExecOrderAction _ _ _ => .int (-1)
  | .CThostFtdcTraderApi_ReqForQuoteInsert _ _ _ => .int (-1)
  | .CThostFtdcTraderApi_ReqQuoteInsert _ _ _ => .int (-1)
  | .CThostFtdcTraderApi_ReqQuoteAction _ _ _ => .int (-1)
  | .CThostFtdcTraderApi_ReqBatchOrderAction _ _ _ => .int (-1)
  | .CThostFtdcTraderApi_ReqOptionSelfCloseInsert _ _ _ => .int (-1)
  | .CThostFtdcTraderApi_ReqOptionSelfCloseAction _ _ _ => .int (-1)
  | .CThostFtdcTraderApi_ReqCombActionInsert _ _ _ => .int (-1)
  | .CThostFtdcTraderApi_ReqQryOrder _ _ _ => .int (-1)
  | .CThostFtdcTraderApi_ReqQryTrade _ _ _ => .int (-1)
  | .CThostFtdcTraderApi_ReqQryInvestorPosition _ _ _ => .int (-1)
  | .CThostFtdcTraderApi_ReqQryTradingAccount _ _ _ => .int (-1)
  | .CThostFtdcTraderApi_ReqQryInvestor _ _ _ => .int (-1)
  | .CThostFtdcTraderApi_ReqQryTradingCode _ _ _ => .int (-1)
  | .CThostFtdcTraderApi_ReqQryInstrumentMarginRate _ _ _ => .int (-1)
  | .CThostFtdcTraderApi_ReqQryInstrumentCommissionRate _ _ _ => .int (-1)
  | .CThostFtdcTraderApi_ReqQryExchange _ _ _ => .int (-1)
  | .CThostFtdcTraderApi_ReqQryProduct _ _ _ => .int (-1)
  | .CThostFtdcTraderApi_ReqQryInstrument _ _ _ => .int (-1)
  | .CThostFtdcTraderApi_ReqQryDepthMarketData _ _ _ => .int (-1)
  | .CThostFtdcTraderApi_ReqQrySettlementInfo _ _ _ => .int (-1)

/-- For a request function, declared as (handle, request-payload pointer, int
request id) returning int: the payload pointer and the request id of the call. -/
def FlatCall.request? : FlatCall → Option (Ptr × Int)
  | .CThostFtdcMdApi_ReqUserLogin _ pReqUserLoginField nRequestID =>
      some (pReqUserLoginField, nRequestID)
  | .CThostFtdcMdApi_ReqUserLogout _ pUserLogout nRequestID => some (pUserLogout, nRequestID)
  | .CThostFtdcTraderApi_ReqAuthenticate _ pReqAuthenticateField nRequestID =>
      some (pReqAuthenticateField, nRequestID)
  | .CThostFtdcTraderApi_ReqUserLogin _ pReqUserLoginField nRequestID =>
      some (pReqUserLoginField, nRequestID)
  | .CThostFtdcTraderApi_ReqUserLogout _ pUserLogout nRequestID => some (pUserLogout, nRequestID)
  | .CThostFtdcTraderApi_ReqUserPasswordUpdate _ pUserPasswordUpdate nRequestID =>
      some (pUserPasswordUpdate, nRequestID)
  | .CThostFtdcTraderApi_ReqTradingAccountPasswordUpdate _ pTradingAccountPasswordUpdate nRequestID =>
      some (pTradingAccountPasswordUpdate, nRequestID)
  | .CThostFtdcTraderApi_ReqUserAuthMethod _ pReqUserAuthMethod nRequestID =>
      some (pReqUserAuthMethod, nRequestID)
  | .CThostFtdcTraderApi_ReqGenUserCaptcha _ pReqGenUserCaptcha nRequestID =>
      some (pReqGenUserCaptcha, nRequestID)
  | .CThostFtdcTraderApi_ReqGenUserText _ pReqGenUserText nRequestID =>
      some (pReqGenUserText, nRequestID)
  | .CThostFtdcTraderApi_ReqUserLoginWithCaptcha _ pReqUserLoginWithCaptcha nRequestID =>
      some (pReqUserLoginWithCaptcha, nRequestID)
  | .CThostFtdcTraderApi_ReqUserLoginWithText _ pReqUserLoginWithText nRequestID =>
      some (pReqUserLoginWithText, nRequestID)
  | .CThostFtdcTraderApi_ReqUserLoginWithOTP _ pReqUserLoginWithOTP nRequestID =>
      some (pReqUserLoginWithOTP, nRequestID)
  | .CThostFtdcTraderApi_ReqOrderInsert _ pInputOrder nRequestID => some (pInputOrder, nRequestID)
  | .CThostFtdcTraderApi_ReqParkedOrderInsert _ pParkedOrder nRequestID =>
      some (pParkedOrder, nRequestID)
  | .CThostFtdcTraderApi_ReqParkedOrderAction _ pParkedOrderAction nRequestID =>
      some (pParkedOrderAction, nRequestID)
  | .CThostFtdcTraderApi_ReqOrderAction _ pInputOrderAction nRequestID =>
      some (pInputOrderAction, nRequestID)
  | .CThostFtdcTraderApi_ReqQryMaxOrderVolume _ pQryMaxOrderVolume nRequestID =>
      some (pQryMaxOrderVolume, nRequestID)
  | .CThostFtdcTraderApi_ReqSettlementInfoConfirm _ pSettlementInfoConfirm nRequestID =>
      some (pSettlementInfoConfirm, nRequestID)
  | .CThostFtdcTraderApi_ReqRemoveParkedOrder _ pRemoveParkedOrder nRequestID =>
      some (pRemoveParkedOrder, nRequestID)
  | .CThostFtdcTraderApi_ReqRemoveParkedOrderAction _ pRemoveParkedOrderAction nRequestID =>
      some (pRemoveParkedOrderAction, nRequestID)
  | .CThostFtdcTraderApi_ReqExecOrderInsert _ pInputExecOrder nRequestID =>
      some (pInputExecOrder, nRequestID)
  | .CThostFtdcTraderApi_ReqExecOrderAction _ pInputExecOrderAction nRequestID =>
      some (pInputExecOrderAction, nRequestID)
  | .CThostFtdcTraderApi_ReqForQuoteInsert _ pInputForQuote nRequestID =>
      some (pInputForQuote, nRequestID)
  | .CThostFtdcTraderApi_ReqQuoteInsert _ pInputQuote nRequestID => some (pInputQuote, nRequestID)
  | .CThostFtdcTraderApi_ReqQuoteAction _ pInputQuoteAction nRequestID =>
      some (pInputQuoteAction, nRequestID)
  | .CThostFtdcTraderApi_ReqBatchOrderAction _ pInputBatchOrderAction nRequestID =>
      some (pInputBatchOrderAction, nRequestID)
  | .CThostFtdcTraderApi_ReqOptionSelfCloseInsert _ pInputOptionSelfClose nRequestID =>
      some (pInputOptionSelfClose, nRequestID)
  | .CThostFtdcTraderApi_ReqOptionSelfCloseAction _ pInputOptionSelfCloseAction nRequestID =>
      some (pInputOptionSelfCloseAction, nRequestID)
  | .CThostFtdcTraderApi_ReqCombActionInsert _ pInputCombAction nRequestID =>
      some (pInputCombAction, nRequestID)
  | .CThostFtdcTraderApi_ReqQryOrder _ pQryOrder nRequestID => some (pQryOrder, nRequestID)
  | .CThostFtdcTraderApi_ReqQryTrade _ pQryTrade nRequestID => some (pQryTrade, nRequestID)
  | .CThostFtdcTraderApi_ReqQryInvestorPosition _ pQryInvestorPosition nRequestID =>
      some (pQryInvestorPosition, nRequestID)
  | .CThostFtdcTraderApi_ReqQryTradingAccount _ pQryTradingAccount nRequestID =>
      some (pQryTradingAccount, nRequestID)
  | .CThostFtdcTraderApi_ReqQryInvestor _ pQryInvestor nRequestID => some (pQryInvestor, nRequestID)
  | .CThostFtdcTraderApi_ReqQryTradingCode _ pQryTradingCode nRequestID =>
      some (pQryTradingCode, nRequestID)
  | .CThostFtdcTraderApi_ReqQryInstrumentMarginRate _ pQryInstrumentMarginRate nRequestID =>
      some (pQryInstrumentMarginRate, nRequestID)
  | .CThostFtdcTraderApi_ReqQryInstrumentCommissionRate _ pQryInstrumentCommissionRate nRequestID =>
      some (pQryInstrumentCommissionRate, nRequestID)
  | .CThostFtdcTraderApi_ReqQryExchange _ pQryExchange nRequestID => some (pQryExchange, nRequestID)
  | .CThostFtdcTraderApi_ReqQryProduct _ pQryProduct nRequestID => some (pQryProduct, nRequestID)
  | .CThostFtdcTraderApi_ReqQryInstrument _ pQryInstrument nRequestID =>
      some (pQryInstrument, nRequestID)
  | .CThostFtdcTraderApi_ReqQryDepthMarketData _ pQryDepthMarketData nRequestID =>
      some (pQryDepthMarketData, nRequestID)
  | .CThostFtdcTraderApi_ReqQrySettlementInfo _ pQrySettlementInfo nRequestID =>
      some (pQrySettlementInfo, nRequestID)
  | _ => none

/-! ## Reading an event by the declarations in `spi_bridge.h` -/

/-- The table entry whose name matches the market-data event method. -/
def MdEvent.slot (cbs : MdSpiCallbacks) : MdEvent → Ptr
  | .OnFrontConnected => cbs.on_front_connected
  | .OnFrontDisconnected _ => cbs.on_front_disconnected
  | .OnHeartBeatWarning _ => cbs.on_heart_beat_warning
  | .OnRspUserLogin _ _ _ _ => cbs.on_rsp_user_login
  | .OnRspUserLogout _ _ _ _ => cbs.on_rsp_user_logout
  | .OnRspError _ _ _ => cbs.on_rsp_error
  | .OnRspSubMarketData _ _ _ _ => cbs.on_rsp_sub_market_data
  | .OnRspUnSubMarketData _ _ _ _ => cbs.on_rsp_unsub_market_data
  | .OnRtnDepthMarketData _ => cbs.on_rtn_depth_market_data
  | .OnRtnForQuoteRsp _ => cbs.on_rtn_for_quote_rsp

/-- The table entry whose name matches the trader event method. -/
def TraderEvent.slot (cbs : TraderSpiCallbacks) : TraderEvent → Ptr
  | .OnFrontConnected => cbs.on_front_connected
  | .OnFrontDisconnected _ => cbs.on_front_disconnected
  | .OnHeartBeatWarning _ => cbs.on_heart_beat_warning
  | .OnRspAuthenticate _ _ _ _ => cbs.on_rsp_authenticate
  | .OnRspUserLogin _ _ _ _ => cbs.on_rsp_user_login
  | .OnRspUserLogout _ _ _ _ => cbs.on_rsp_user_logout
  | .OnRspError _ _ _ => cbs.on_rsp_error
  | .OnRspOrderInsert _ _ _ _ => cbs.on_rsp_order_insert
  | .OnRspOrderAction _ _ _ _ => cbs.on_rsp_order_action
  | .OnRtnOrder _ => cbs.on_rtn_order
  | .OnRtnTrade _ => cbs.on_rtn_trade
  | .OnRspQryTradingAccount _ _ _ _ => cbs.on_rsp_qry_trading_account
  | .OnRspQryInvestorPosition _ _ _ _ => cbs.on_rsp_qry_investor_position
  | .OnErrRtnOrderInsert _ _ => cbs.on_err_rtn_order_insert
  | .OnErrRtnOrderAction _ _ => cbs.on_err_rtn_order_action
  | .OnRspQryOrder _ _ _ _ => cbs.on_rsp_qry_order
  | .OnRspQryTrade _ _ _ _ => cbs.on_rsp_qry_trade
  | .OnRspQryInstrument _ _ _ _ => cbs.on_rsp_qry_instrument
  | .OnRspQryInstrumentMarginRate _ _ _ _ => cbs.on_rsp_qry_instrument_margin_rate
  | .OnRspQryInstrumentCommissionRate _ _ _ _ => cbs.on_rsp_qry_instrument_commission_rate
  | .OnRspQryExchange _ _ _ _ => cbs.on_rsp_qry_exchange
  | .OnRspQryProduct _ _ _ _ => cbs.on_rsp_qry_product
  | .OnRspSettlementInfoConfirm _ _ _ _ => cbs.on_rsp_settlement_info_confirm
  | .OnRspParkedOrderInsert _ _ _ _ => cbs.on_rsp_parked_order_insert
  | .OnRspParkedOrderAction _ _ _ _ => cbs.on_rsp_parked_order_action
  | .OnRspExecOrderInsert _ _ _ _ => cbs.on_rsp_exec_order_insert
  | .OnRspExecOrderAction _ _ _ _ => cbs.on_rsp_exec_order_action
  | .OnRspForQuoteInsert _ _ _ _ => cbs.on_rsp_for_quote_insert
  | .OnRspQuoteInsert _ _ _ _ => cbs.on_rsp_quote_insert
  | .OnRspQuoteAction _ _ _ _ => cbs.on_rsp_quote_action
  | .OnRspBatchOrderAction _ _ _ _ => cbs.on_rsp_batch_order_action
  | .OnRspRemoveParkedOrder _ _ _ _ => cbs.on_rsp_remove_parked_order
  | .OnRspRemoveParkedOrderAction _ _ _ _ => cbs.on_rsp_remove_parked_order_action
  | .OnRspQryMaxOrderVolume _ _ _ _ => cbs.on_rsp_qry_max_order_volume
  | .OnRspQryDepthMarketData _ _ _ _ => cbs.on_rsp_qry_depth_market_data
  | .OnRspQrySettlementInfo _ _ _ _ => cbs.on_rsp_qry_settlement_info
  | .OnRspQryTransferBank _ _ _ _ => cbs.on_rsp_qry_transfer_bank
  | .OnRspQryInvestorPositionDetail _ _ _ _ => cbs.on_rsp_qry_investor_position_detail
  | .OnRspQryNotice _ _ _ _ => cbs.on_rsp_qry_notice

/-- The arguments of a market-data event in flat form, in the order the vendor
passes them: pointers and ints as they are, the bool as 1 or 0. -/
def MdEvent.flatArgs : MdEvent → List CVal
  | .OnFrontConnected => []
  | .OnFrontDisconnected nReason => [.int nReason]
  | .OnHeartBeatWarning nTimeLapse => [.int nTimeLapse]
  | .OnRspUserLogin pRspUserLogin pRspInfo nRequestID bIsLast =>
      [.ptr pRspUserLogin, .ptr pRspInfo, .int nRequestID, .int (if bIsLast then 1 else 0)]
  | .OnRspUserLogout pUserLogout pRspInfo nRequestID bIsLast =>
      [.ptr pUserLogout, .ptr pRspInfo, .int nRequestID, .int (if bIsLast then 1 else 0)]
  | .OnRspError pRspInfo nRequestID bIsLast =>
      [.ptr pRspInfo, .int nRequestID, .int (if bIsLast then 1 else 0)]
  | .OnRspSubMarketData pSpecificInstrument pRspInfo nRequestID bIsLast =>
      [.ptr pSpecificInstrument, .ptr pRspInfo, .int nRequestID, .int (if bIsLast then 1 else 0)]
  | .OnRspUnSubMarketData pSpecificInstrument pRspInfo nRequestID bIsLast =>
      [.ptr pSpecificInstrument, .ptr pRspInfo, .int nRequestID, .int (if bIsLast then 1 else 0)]
  | .OnRtnDepthMarketData pDepthMarketData => [.ptr pDepthMarketData]
  | .OnRtnForQuoteRsp pForQuoteRsp => [.ptr pForQuoteRsp]

/-- The arguments of a trader event in flat form, in the order the vendor passes
them: pointers and ints as they are, the bool as 1 or 0. -/
def TraderEvent.flatArgs : TraderEvent → List CVal
  | .OnFrontConnected => []
  | .OnFrontDisconnected nReason => [.int nReason]
  | .OnHeartBeatWarning nTimeLapse => [.int nTimeLapse]
  | .OnRspAuthenticate pRspAuthenticateField pRspInfo nRequestID bIsLast =>
      [.ptr pRspAuthenticateField, .ptr pRspInfo, .int nRequestID, .int (if bIsLast then 1 else 0)]
  | .OnRspUserLogin pRspUserLogin pRspInfo nRequestID bIsLast =>
      [.ptr pRspUserLogin, .ptr pRspInfo, .int nRequestID, .int (if bIsLast then 1 else 0)]
  | .OnRspUserLogout pUserLogout pRspInfo nRequestID bIsLast =>
      [.ptr pUserLogout, .ptr pRspInfo, .int nRequestID, .int (if bIsLast then 1 else 0)]
  | .OnRspError pRspInfo nRequestID bIsLast =>
      [.ptr pRspInfo, .int nRequestID, .int (if bIsLast then 1 else 0)]
  | .OnRspOrderInsert pInputOrder pRspInfo nRequestID bIsLast =>
      [.ptr pInputOrder, .ptr pRspInfo, .int nRequestID, .int (if bIsLast then 1 else 0)]
  | .OnRspOrderAction pInputOrderAction pRspInfo nRequestID bIsLast =>
      [.ptr pInputOrderAction, .ptr pRspInfo, .int nRequestID, .int (if bIsLast then 1 else 0)]
  | .OnRtnOrder pOrder => [.ptr pOrder]
  | .OnRtnTrade pTrade => [.ptr pTrade]
  | .OnRspQryTradingAccount pTradingAccount pRspInfo nRequestID bIsLast =>
      [.ptr pTradingAccount, .ptr pRspInfo, .int nRequestID, .int (if bIsLast then 1 else 0)]
  | .OnRspQryInvestorPosition pInvestorPosition pRspInfo nRequestID bIsLast =>
      [.ptr pInvestorPosition, .ptr pRspInfo, .int nRequestID, .int (if bIsLast then 1 else 0)]
  | .OnErrRtnOrderInsert pInputOrder pRspInfo => [.ptr pInputOrder, .ptr pRspInfo]
  | .OnErrRtnOrderAction pOrderAction pRspInfo => [.ptr pOrderAction, .ptr pRspInfo]
  | .OnRspQryOrder pOrder pRspInfo nRequestID bIsLast =>
      [.ptr pOrder, .ptr pRspInfo, .int nRequestID, .int (if bIsLast then 1 else 0)]
  | .OnRspQryTrade pTrade pRspInfo nRequestID bIsLast =>
      [.ptr pTrade, .ptr pRspInfo, .int nRequestID, .int (if bIsLast then 1 else 0)]
  | .OnRspQryInstrument pInstrument pRspInfo nRequestID bIsLast =>
      [.ptr pInstrument, .ptr pRspInfo, .int nRequestID, .int (if bIsLast then 1 else 0)]
  | .OnRspQryInstrumentMarginRate pInstrumentMarginRate pRspInfo nRequestID bIsLast =>
      [.ptr pInstrumentMarginRate, .ptr pRspInfo, .int nRequestID, .int (if bIsLast then 1 else 0)]
  | .OnRspQryInstrumentCommissionRate pInstrumentCommissionRate pRspInfo nRequestID bIsLast =>
      [.ptr pInstrumentCommissionRate, .ptr pRspInfo, .int nRequestID, .int (if bIsLast then 1 else 0)]
  | .OnRspQryExchange pExchange pRspInfo nRequestID bIsLast =>
      [.ptr pExchange, .ptr pRspInfo, .int nRequestID, .int (if bIsLast then 1 else 0)]
  | .OnRspQryProduct pProduct pRspInfo nRequestID bIsLast =>
      [.ptr pProduct, .ptr pRspInfo, .int nRequestID, .int (if bIsLast then 1 else 0)]
  | .OnRspSettlementInfoConfirm pSettlementInfoConfirm pRspInfo nRequestID bIsLast =>
      [.ptr pSettlementInfoConfirm, .ptr pRspInfo, .int nRequestID, .int (if bIsLast then 1 else 0)]
  | .OnRspParkedOrderInsert pParkedOrder pRspInfo nRequestID bIsLast =>
      [.ptr pParkedOrder, .ptr pRspInfo, .int nRequestID, .int (if bIsLast then 1 else 0)]
  | .OnRspParkedOrderAction pParkedOrderAction pRspInfo nRequestID bIsLast =>
      [.ptr pParkedOrderAction, .ptr pRspInfo, .int nRequestID, .int (if bIsLast then 1 else 0)]
  | .OnRspExecOrderInsert pInputExecOrder pRspInfo nRequestID bIsLast =>
      [.ptr pInputExecOrder, .ptr pRspInfo, .int nRequestID, .int (if bIsLast then 1 else 0)]
  | .OnRspExecOrderAction pInputExecOrderAction pRspInfo nRequestID bIsLast =>
      [.ptr pInputExecOrderAction, .ptr pRspInfo, .int nRequestID, .int (if bIsLast then 1 else 0)]
  | .OnRspForQuoteInsert pInputForQuote pRspInfo nRequestID bIsLast =>
      [.ptr pInputForQuote, .ptr pRspInfo, .int nRequestID, .int (if bIsLast then 1 else 0)]
  | .OnRspQuoteInsert pInputQuote pRspInfo nRequestID bIsLast =>
      [.ptr pInputQuote, .ptr pRspInfo, .int nRequestID, .int (if bIsLast then 1 else 0)]
  | .OnRspQuoteAction pInputQuoteAction pRspInfo nRequestID bIsLast =>
      [.ptr pInputQuoteAction, .ptr pRspInfo, .int nRequestID, .int (if bIsLast then 1 else 0)]
  | .OnRspBatchOrderAction pInputBatchOrderAction pRspInfo nRequestID bIsLast =>
      [.ptr pInputBatchOrderAction, .ptr pRspInfo, .int nRequestID, .int (if bIsLast then 1 else 0)]
  | .OnRspRemoveParkedOrder pRemoveParkedOrder pRspInfo nRequestID bIsLast =>
      [.ptr pRemoveParkedOrder, .ptr pRspInfo, .int nRequestID, .int (if bIsLast then 1 else 0)]
  | .OnRspRemoveParkedOrderAction pRemoveParkedOrderAction pRspInfo nRequestID bIsLast =>
      [.ptr pRemoveParkedOrderAction, .ptr pRspInfo, .int nRequestID, .int (if bIsLast then 1 else 0)]
  | .OnRspQryMaxOrderVolume pQryMaxOrderVolume pRspInfo nRequestID bIsLast =>
      [.ptr pQryMaxOrderVolume, .ptr pRspInfo, .int nRequestID, .int (if bIsLast then 1 else 0)]
  | .OnRspQryDepthMarketData pDepthMarketData pRspInfo nRequestID bIsLast =>
      [.ptr pDepthMarketData, .ptr pRspInfo, .int nRequestID, .int (if bIsLast then 1 else 0)]
  | .OnRspQrySettlementInfo pSettlementInfo pRspInfo nRequestID bIsLast =>
      [.ptr pSettlementInfo, .ptr pRspInfo, .int nRequestID, .int (if bIsLast then 1 else 0)]
  | .OnRspQryTransferBank pTransferBank pRspInfo nRequestID bIsLast =>
      [.ptr pTransferBank, .ptr pRspInfo, .int nRequestID, .int (if bIsLast then 1 else 0)]
  | .OnRspQryInvestorPositionDetail pInvestorPositionDetail pRspInfo nRequestID bIsLast =>
      [.ptr pInvestorPositionDetail, .ptr pRspInfo, .int nRequestID, .int (if bIsLast then 1 else 0)]
  | .OnRspQryNotice pNotice pRspInfo nRequestID bIsLast =>
      [.ptr pNotice, .ptr pRspInfo, .int nRequestID, .int (if bIsLast then 1 else 0)]

/-- Request id and final flag of a response event (an event whose method has the
parameters nRequestID and bIsLast); none for the other events. -/
def MdEvent.frame? : MdEvent → Option (Int × Bool)
  | .OnRspUserLogin _ _ nRequestID bIsLast => some (nRequestID, bIsLast)
  | .OnRspUserLogout _ _ nRequestID bIsLast => some (nRequestID, bIsLast)
  | .OnRspError _ nRequestID bIsLast => some (nRequestID, bIsLast)
  | .OnRspSubMarketData _ _ nRequestID bIsLast => some (nRequestID, bIsLast)
  | .OnRspUnSubMarketData _ _ nRequestID bIsLast => some (nRequestID, bIsLast)
  | _ => none

/-- The event methods of MdSpiBridge that use CTP_DEBUG or std::cout. -/
def MdEvent.logs : MdEvent → Bool
  | .OnFrontConnected => true
  | .OnRspUserLogin _ _ _ _ => true
  | .OnRtnDepthMarketData _ => true
  | _ => false

/-- Request id and final flag of a response event (an event whose method has the
parameters nRequestID and bIsLast); none for the other events. -/
def TraderEvent.frame? : TraderEvent → Option (Int × Bool)
  | .OnRspAuthenticate _ _ nRequestID bIsLast => some (nRequestID, bIsLast)
  | .OnRspUserLogin _ _ nRequestID bIsLast => some (nRequestID, bIsLast)
  | .OnRspUserLogout _ _ nRequestID bIsLast => some (nRequestID, bIsLast)
  | .OnRspError _ nRequestID bIsLast => some (nRequestID, bIsLast)
  | .OnRspOrderInsert _ _ nRequestID bIsLast => some (nRequestID, bIsLast)
  | .OnRspOrderAction _ _ nRequestID bIsLast => some (nRequestID, bIsLast)
  | .OnRspQryTradingAccount _ _ nRequestID bIsLast => some (nRequestID, bIsLast)
  | .OnRspQryInvestorPosition _ _ nRequestID bIsLast => some (nRequestID, bIsLast)
  | .OnRspQryOrder _ _ nRequestID bIsLast => some (nRequestID, bIsLast)
  | .OnRspQryTrade _ _ nRequestID bIsLast => some (nRequestID, bIsLast)
  | .OnRspQryInstrument _ _ nRequestID bIsLast => some (nRequestID, bIsLast)
  | .OnRspQryInstrumentMarginRate _ _ nRequestID bIsLast => some (nRequestID, bIsLast)
  | .OnRspQryInstrumentCommissionRate _ _ nRequestID bIsLast => some (nRequestID, bIsLast)
  | .OnRspQryExchange _ _ nRequestID bIsLast => some (nRequestID, bIsLast)
  | .OnRspQryProduct _ _ nRequestID bIsLast => some (nRequestID, bIsLast)
  | .OnRspSettlementInfoConfirm _ _ nRequestID bIsLast => some (nRequestID, bIsLast)
  | .OnRspParkedOrderInsert _ _ nRequestID bIsLast => some (nRequestID, bIsLast)
  | .OnRspParkedOrderAction _ _ nRequestID bIsLast => some (nRequestID, bIsLast)
  | .OnRspExecOrderInsert _ _ nRequestID bIsLast => some (nRequestID, bIsLast)
  | .OnRspExecOrderAction _ _ nRequestID bIsLast => some (nRequestID, bIsLast)
  | .OnRspForQuoteInsert _ _ nRequestID bIsLast => some (nRequestID, bIsLast)
  | .OnRspQuoteInsert _ _ nRequestID bIsLast => some (nRequestID, bIsLast)
  | .OnRspQuoteAction _ _ nRequestID bIsLast => some (nRequestID, bIsLast)
  | .OnRspBatchOrderAction _ _ nRequestID bIsLast => some (nRequestID, bIsLast)
  | .OnRspRemoveParkedOrder _ _ nRequestID bIsLast => some (nRequestID, bIsLast)
  | .OnRspRemoveParkedOrderAction _ _ nRequestID bIsLast => some (nRequestID, bIsLast)
  | .OnRspQryMaxOrderVolume _ _ nRequestID bIsLast => some (nRequestID, bIsLast)
  | .OnRspQryDepthMarketData _ _ nRequestID bIsLast => some (nRequestID, bIsLast)
  | .OnRspQrySettlementInfo _ _ nRequestID bIsLast => some (nRequestID, bIsLast)
  | .OnRspQryTransferBank _ _ nRequestID bIsLast => some (nRequestID, bIsLast)
  | .OnRspQryInvestorPositionDetail _ _ nRequestID bIsLast => some (nRequestID, bIsLast)
  | .OnRspQryNotice _ _ nRequestID bIsLast => some (nRequestID, bIsLast)
  | _ => none

/-- The event methods of TraderSpiBridge that use CTP_DEBUG or std::cout. -/
def TraderEvent.logs : TraderEvent → Bool
  | .OnFrontConnected => true
  | .OnRspUserLogin _ _ _ _ => true
  | .OnRtnOrder _ => true
  | .OnRtnTrade _ => true
  | _ => false

/-- The MdSpiCallbacks table with the given context pointer and every function pointer null. -/
def MdSpiCallbacks.null (user_data : Ptr) : MdSpiCallbacks where
  user_data := user_data
  on_front_connected := 0
  on_front_disconnected := 0
  on_heart_beat_warning := 0
  on_rsp_user_login := 0
  on_rsp_user_logout := 0
  on_rsp_error := 0
  on_rsp_sub_market_data := 0
  on_rsp_unsub_market_data := 0
  on_rtn_depth_market_data := 0
  on_rtn_for_quote_rsp := 0

/-- The TraderSpiCallbacks table with the given context pointer and every function pointer null. -/
def TraderSpiCallbacks.null (user_data : Ptr) : TraderSpiCallbacks where
  user_data := user_data
  on_front_connected := 0
  on_front_disconnected := 0
  on_heart_beat_warning := 0
  on_rsp_authenticate := 0
  on_rsp_user_login := 0
  on_rsp_user_logout := 0
  on_rsp_error := 0
  on_rsp_order_insert := 0
  on_rsp_order_action := 0
  on_rtn_order := 0
  on_rtn_trade := 0
  on_rsp_qry_trading_account := 0
  on_rsp_qry_investor_position := 0
  on_err_rtn_order_insert := 0
  on_err_rtn_order_action := 0
  on_rsp_qry_order := 0
  on_rsp_qry_trade := 0
  on_rsp_qry_instrument := 0
  on_rsp_qry_instrument_margin_rate := 0
  on_rsp_qry_instrument_commission_rate := 0
  on_rsp_qry_exchange := 0
  on_rsp_qry_product := 0
  on_rsp_settlement_info_confirm := 0
  on_rsp_parked_order_insert := 0
  on_rsp_parked_order_action := 0
  on_rsp_exec_order_insert := 0
  on_rsp_exec_order_action := 0
  on_rsp_for_quote_insert := 0
  on_rsp_quote_insert := 0
  on_rsp_quote_action := 0
  on_rsp_batch_order_action := 0
  on_rsp_remove_parked_order := 0
  on_rsp_remove_parked_order_action := 0
  on_rsp_qry_max_order_volume := 0
  on_rsp_qry_depth_market_data := 0
  on_rsp_qry_settlement_info := 0
  on_rsp_qry_transfer_bank := 0
  on_rsp_qry_investor_position_detail := 0
  on_rsp_qry_notice := 0

/-! ## Construction and event sequences -/

/-- The function CreateMdSpiBridge. The argument is the pointer to the table:
none is the null pointer. With a table the constructor copies it by value; with
the null pointer the code prints a line and then constructs the adapter from
the null pointer, which reads through it: no adapter is defined (none). -/
def CreateMdSpiBridge (callbacks : Option MdSpiCallbacks) : List Effect × Option MdSpiBridge :=
  match callbacks with
  | some cbs => ([], some ⟨cbs⟩)
  | none => ([.cout "[Bridge] ❌ MD回调结构体为空!"], none)

/-- The function CreateTraderSpiBridge, as CreateMdSpiBridge. -/
def CreateTraderSpiBridge (callbacks : Option TraderSpiCallbacks) :
    List Effect × Option TraderSpiBridge :=
  match callbacks with
  | some cbs => ([], some ⟨cbs⟩)
  | none => ([.cout "[Bridge] ❌ Trader回调结构体为空!"], none)

/-- Delivery of a finite sequence of market-data events, one after another; each
event comes with the logger state at the time it is delivered. -/
def MdSpiBridge.deliverAll (self : MdSpiBridge) : List (DebugLogger × MdEvent) → List Effect
  | [] => []
  | (lg, e) :: rest => self.deliver lg e ++ self.deliverAll rest

/-- Delivery of a finite sequence of trader events, one after another; each event
comes with the logger state at the time it is delivered. -/
def TraderSpiBridge.deliverAll (self : TraderSpiBridge) :
    List (DebugLogger × TraderEvent) → List Effect
  | [] => []
  | (lg, e) :: rest => self.deliver lg e ++ self.deliverAll rest

/-! ## Observations on traces -/

/-- The calls made through caller-supplied function pointers, in order: the
function pointer called and the arguments passed. -/
def invocations (t : List Effect) : List (Ptr × List CVal) :=
  t.filterMap fun
    | .invoke fn args => some (fn, args)
    | _ => none

/-- The vendor SDK calls of a trace, in order. -/
def vendorCalls (t : List Effect) : List VendorCall :=
  t.filterMap fun
    | .vendor c => some c
    | _ => none

/-- Lines written by the debug logger, to the console or to the log file. -/
def Effect.isLog : Effect → Bool
  | .logConsole _ => true
  | .logFile _ _ => true
  | _ => false

/-- Anything written to the console or to a file. -/
def Effect.isOutput : Effect → Bool
  | .logConsole _ => true
  | .logFile _ _ => true
  | .cout _ => true
  | _ => false

/-- Request id and final flag as a response callback receives them: by the
callback typedefs of spi_bridge.h they are the last two arguments, both int.
No other callback typedef ends in two ints. -/
def frameOf (args : List CVal) : Option (Int × Int) :=
  match args.reverse with
  | .int is_last :: .int request_id :: _ => some (request_id, is_last)
  | _ => none

/-- The invocation the spec expects for a market-data event whose slot is
populated: the slot of the matching name, the context pointer first, then the
event arguments in flat form. -/
def MdEvent.invocation (cbs : MdSpiCallbacks) (e : MdEvent) : Ptr × List CVal :=
  (e.slot cbs, .ptr cbs.user_data :: e.flatArgs)

/-- The invocation the spec expects for a trader event whose slot is populated. -/
def TraderEvent.invocation (cbs : TraderSpiCallbacks) (e : TraderEvent) : Ptr × List CVal :=
  (e.slot cbs, .ptr cbs.user_data :: e.flatArgs)

/-- The final flags of the vendor responses carrying request id N, in delivery order. -/
def finalsFor (N : Int) (frames : List (Option (Int × Bool))) : List Bool :=
  frames.filterMap fun
    | some (n, fl) => if n = N then some fl else none
    | none => none

/-- The final flags the caller receives for request id N, in order: a non-zero
is_last is a final response. -/
def deliveredFinals (N : Int) (invs : List (Ptr × List CVal)) : List Bool :=
  finalsFor N (invs.map fun inv => (frameOf inv.2).map fun p => (p.1, decide (p.2 ≠ 0)))

/-- Framing of the responses of one request: any final response is the last
one, so there is at most one. -/
def WellFramed (l : List Bool) : Prop :=
  ∀ pre post, l = pre ++ true :: post → post = []

/-- The Linux-wrapper functions that print a console line on a null handle. -/
def FlatCall.linuxNullNotice : FlatCall → Bool
  | .CThostFtdcTraderApi_Init _ => true
  | .CThostFtdcTraderApi_RegisterFront _ _ => true
  | .CThostFtdcTraderApi_RegisterSpi _ _ => true
  | _ => false

/-- A vendor oracle that accepts every call with status 0 and returns the null
pointer from pointer-returning methods (used for concrete evaluations). -/
def Vendor.zero : Vendor := ⟨fun _ => 0, fun _ => 0⟩

/-- A logger state with logging disabled (the initial state of DebugLogger). -/
def DebugLogger.off : DebugLogger := ⟨false, false, none⟩

/-- A logger state with logging enabled and console output only. -/
def DebugLogger.console : DebugLogger := ⟨true, false, none⟩

/-! ## The logger life cycle (`logger.cpp`) -/

/-- The member DebugLogger::init. The argument log_file is the C string passed
(none is the null pointer); canOpen tells whether opening a path for appending
succeeds. The result is the new state and the lines written to std::cerr. -/
def DebugLogger.init (canOpen : String → Bool) (lg : DebugLogger) (enable_debug : Bool)
    (log_file : Option String) : DebugLogger × List String :=
  -- enabled_ = enable_debug; if (!enabled_) return;
  let lg1 : DebugLogger := { lg with enabled_ := enable_debug }
  if !lg1.enabled_ then (lg1, [])
  else
    -- if (file_stream_.is_open()) file_stream_.close();
    let lg2 : DebugLogger :=
      if lg1.file_stream_.isSome then { lg1 with file_stream_ := none } else lg1
    -- use_file_ = (log_file != nullptr && strlen(log_file) > 0);
    let lg3 : DebugLogger :=
      { lg2 with use_file_ := match log_file with
                              | some p => decide (p ≠ "")
                              | none => false }
    match lg3.use_file_, log_file with
    | true, some p =>
      -- file_stream_.open(log_file, out | app); if (!file_stream_.is_open()) ...
      let lg4 : DebugLogger := { lg3 with file_stream_ := if canOpen p then some p else none }
      if lg4.file_stream_.isNone then
        ({ lg4 with use_file_ := false },
          ["[CTP_DEBUG] 无法打开日志文件: " ++ p ++ ", 将使用控制台输出"])
      else (lg4, [])
    | _, _ => (lg3, [])

/-- The member DebugLogger::cleanup: close the stream when open, then clear both flags. -/
def DebugLogger.cleanup (lg : DebugLogger) : DebugLogger :=
  let lg1 : DebugLogger :=
    if lg.file_stream_.isSome then { lg with file_stream_ := none } else lg
  { lg1 with enabled_ := false, use_file_ := false }

/-- A call of a member of DebugLogger. -/
inductive LoggerCall where
  | init (canOpen : String → Bool) (enable_debug : Bool) (log_file : Option String)
  | cleanup
  | debug (m : LogMsg)

/-- A member call in state-passing form: the state after the call, the lines
written to std::cerr and the lines written by debug. The member debug assigns
to no field, so it returns the state it was called in. -/
def DebugLogger.call (lg : DebugLogger) : LoggerCall → DebugLogger × List String × List Effect
  | .init canOpen enable_debug log_file =>
    ((lg.init canOpen enable_debug log_file).1, (lg.init canOpen enable_debug log_file).2, [])
  | .cleanup => (lg.cleanup, [], [])
  | .debug m => (lg, [], lg.debug m)

/-! ## Pointers read for log lines -/

/-- The pointer a format argument reads through, when it does. -/
def FmtArg.deref : FmtArg → Option Ptr
  | .load p _ => some p
  | .cstr p => some p
  | _ => none

/-- The messages the logger wrote, one per debug call that wrote: every such
call writes its line to the console exactly once. -/
def consoleLog (t : List Effect) : List LogMsg :=
  t.filterMap fun
    | .logConsole m => some m
    | _ => none

/-- The pointers read through while a trace was produced, in order. -/
def derefs (t : List Effect) : List Ptr :=
  (consoleLog t).flatMap fun m => m.args.filterMap FmtArg.deref

/-- A warning line: its format starts with the word the sources use for warnings. -/
def LogMsg.isWarning (m : LogMsg) : Bool :=
  "警告".data.isPrefixOf m.format.data

/-! ## The adapter and the table of the caller as one state -/

/-- The caller-owned table passed to CreateMdSpiBridge and the adapter built from it. -/
structure MdWorld where
  callerTable : MdSpiCallbacks
  bridge : MdSpiBridge
  deriving DecidableEq, Repr

/-- The caller-owned table passed to CreateTraderSpiBridge and the adapter built from it. -/
structure TraderWorld where
  callerTable : TraderSpiCallbacks
  bridge : TraderSpiBridge
  deriving DecidableEq, Repr

/-- What can happen after construction: the vendor delivers an event, or the
caller overwrites its own table. -/
inductive MdAction where
  | event (lg : DebugLogger) (e : MdEvent)
  | callerStore (t : MdSpiCallbacks)

/-- What can happen after construction, for the trader adapter. -/
inductive TraderAction where
  | event (lg : DebugLogger) (e : TraderEvent)
  | callerStore (t : TraderSpiCallbacks)

/-- The assignments a trace makes to fields of the member callbacks, in order:
the field assigned and the value stored. -/
def stores (t : List Effect) : List (String × Ptr) :=
  t.filterMap fun
    | .store field value => some (field, value)
    | _ => none

/-- The market-data table after the assignment callbacks.field = value, by the field names of
spi_bridge.h; a name that is no field of the struct changes nothing. -/
def MdSpiCallbacks.store (t : MdSpiCallbacks) (field : String) (value : Ptr) : MdSpiCallbacks :=
  if field = "user_data" then { t with user_data := value }
  else if field = "on_front_connected" then { t with on_front_connected := value }
  else if field = "on_front_disconnected" then { t with on_front_disconnected := value }
  else if field = "on_heart_beat_warning" then { t with on_heart_beat_warning := value }
  else if field = "on_rsp_user_login" then { t with on_rsp_user_login := value }
  else if field = "on_rsp_user_logout" then { t with on_rsp_user_logout := value }
  else if field = "on_rsp_error" then { t with on_rsp_error := value }
  else if field = "on_rsp_sub_market_data" then { t with on_rsp_sub_market_data := value }
  else if field = "on_rsp_unsub_market_data" then { t with on_rsp_unsub_market_data := value }
  else if field = "on_rtn_depth_market_data" then { t with on_rtn_depth_market_data := value }
  else if field = "on_rtn_for_quote_rsp" then { t with on_rtn_for_quote_rsp := value }
  else t

/-- The trader table after the assignment callbacks.field = value, by the field names of
spi_bridge.h; a name that is no field of the struct changes nothing. -/
def TraderSpiCallbacks.store (t : TraderSpiCallbacks) (field : String) (value : Ptr) : TraderSpiCallbacks :=
  if field = "user_data" then { t with user_data := value }
  else if field = "on_front_connected" then { t with on_front_connected := value }
  else if field = "on_front_disconnected" then { t with on_front_disconnected := value }
  else if field = "on_heart_beat_warning" then { t with on_heart_beat_warning := value }
  else if field = "on_rsp_authenticate" then { t with on_rsp_authenticate := value }
  else if field = "on_rsp_user_login" then { t with on_rsp_user_login := value }
  else if field = "on_rsp_user_logout" then { t with on_rsp_user_logout := value }
  else if field = "on_rsp_error" then { t with on_rsp_error := value }
  else if field = "on_rsp_order_insert" then { t with on_rsp_order_insert := value }
  else if field = "on_rsp_order_action" then { t with on_rsp_order_action := value }
  else if field = "on_rtn_order" then { t with on_rtn_order := value }
  else if field = "on_rtn_trade" then { t with on_rtn_trade := value }
  else if field = "on_rsp_qry_trading_account" then { t with on_rsp_qry_trading_account := value }
  else if field = "on_rsp_qry_investor_position" then { t with on_rsp_qry_investor_position := value }
  else if field = "on_err_rtn_order_insert" then { t with on_err_rtn_order_insert := value }
  else if field = "on_err_rtn_order_action" then { t with on_err_rtn_order_action := value }
  else if field = "on_rsp_qry_order" then { t with on_rsp_qry_order := value }
  else if field = "on_rsp_qry_trade" then { t with on_rsp_qry_trade := value }
  else if field = "on_rsp_qry_instrument" then { t with on_rsp_qry_instrument := value }
  else if field = "on_rsp_qry_instrument_margin_rate" then { t with on_rsp_qry_instrument_margin_rate := value }
  else if field = "on_rsp_qry_instrument_commission_rate" then { t with on_rsp_qry_instrument_commission_rate := value }
  else if field = "on_rsp_qry_exchange" then { t with on_rsp_qry_exchange := value }
  else if field = "on_rsp_qry_product" then { t with on_rsp_qry_product := value }
  else if field = "on_rsp_settlement_info_confirm" then { t with on_rsp_settlement_info_confirm := value }
  else if field = "on_rsp_parked_order_insert" then { t with on_rsp_parked_order_insert := value }
  else if field = "on_rsp_parked_order_action" then { t with on_rsp_parked_order_action := value }
  else if field = "on_rsp_exec_order_insert" then { t with on_rsp_exec_order_insert := value }
  else if field = "on_rsp_exec_order_action" then { t with on_rsp_exec_order_action := value }
  else if field = "on_rsp_for_quote_insert" then { t with on_rsp_for_quote_insert := value }
  else if field = "on_rsp_quote_insert" then { t with on_rsp_quote_insert := value }
  else if field = "on_rsp_quote_action" then { t with on_rsp_quote_action := value }
  else if field = "on_rsp_batch_order_action" then { t with on_rsp_batch_order_action := value }
  else if field = "on_rsp_remove_parked_order" then { t with on_rsp_remove_parked_order := value }
  else if field = "on_rsp_remove_parked_order_action" then { t with on_rsp_remove_parked_order_action := value }
  else if field = "on_rsp_qry_max_order_volume" then { t with on_rsp_qry_max_order_volume := value }
  else if field = "on_rsp_qry_depth_market_data" then { t with on_rsp_qry_depth_market_data := value }
  else if field = "on_rsp_qry_settlement_info" then { t with on_rsp_qry_settlement_info := value }
  else if field = "on_rsp_qry_transfer_bank" then { t with on_rsp_qry_transfer_bank := value }
  else if field = "on_rsp_qry_investor_position_detail" then { t with on_rsp_qry_investor_position_detail := value }
  else if field = "on_rsp_qry_notice" then { t with on_rsp_qry_notice := value }
  else t

/-- An event method in state-passing form: the effects of the body of the
method, and the adapter after the call, which is the adapter before it with the
assignments the body makes to the member callbacks applied in order. -/
def MdSpiBridge.step (self : MdSpiBridge) (lg : DebugLogger) (e : MdEvent) :
    MdSpiBridge × List Effect :=
  (⟨(stores (self.deliver lg e)).foldl (fun t a => t.store a.1 a.2) self.callbacks⟩,
    self.deliver lg e)

/-- An event method in state-passing form, for TraderSpiBridge. -/
def TraderSpiBridge.step (self : TraderSpiBridge) (lg : DebugLogger) (e : TraderEvent) :
    TraderSpiBridge × List Effect :=
  (⟨(stores (self.deliver lg e)).foldl (fun t a => t.store a.1 a.2) self.callbacks⟩,
    self.deliver lg e)

/-- Construction from the table of the caller: the constructor copies the table
(callbacks = *cbs), the caller keeps its own. -/
def MdWorld.create (t : MdSpiCallbacks) : Option MdWorld :=
  (CreateMdSpiBridge (some t)).2.map fun b => ⟨t, b⟩

/-- Construction from the table of the caller, for the trader adapter. -/
def TraderWorld.create (t : TraderSpiCallbacks) : Option TraderWorld :=
  (CreateTraderSpiBridge (some t)).2.map fun b => ⟨t, b⟩

/-- One action: an event runs the method of the adapter; a store by the caller
changes the table of the caller, and the member callbacks of the adapter is a
struct held by value (MdSpiCallbacks callbacks), not a pointer to that table. -/
def MdWorld.act (w : MdWorld) : MdAction → MdWorld × List Effect
  | .event lg e => ({ w with bridge := (w.bridge.step lg e).1 }, (w.bridge.step lg e).2)
  | .callerStore t => ({ w with callerTable := t }, [])

/-- One action, for the trader adapter. -/
def TraderWorld.act (w : TraderWorld) : TraderAction → TraderWorld × List Effect
  | .event lg e => ({ w with bridge := (w.bridge.step lg e).1 }, (w.bridge.step lg e).2)
  | .callerStore t => ({ w with callerTable := t }, [])

/-- A finite sequence of actions: the final state and the effects in order. -/
def MdWorld.run (w : MdWorld) : List MdAction → MdWorld × List Effect
  | [] => (w, [])
  | a :: rest => ((w.act a).1.run rest |>.1, (w.act a).2 ++ ((w.act a).1.run rest).2)

/-- A finite sequence of actions, for the trader adapter. -/
def TraderWorld.run (w : TraderWorld) : List TraderAction → TraderWorld × List Effect
  | [] => (w, [])
  | a :: rest => ((w.act a).1.run rest |>.1, (w.act a).2 ++ ((w.act a).1.run rest).2)

/-- The events among the actions, with their logger states, in order. -/
def MdAction.events : List MdAction → List (DebugLogger × MdEvent)
  | [] => []
  | .event lg e :: rest => (lg, e) :: MdAction.events rest
  | .callerStore _ :: rest => MdAction.events rest

/-- The events among the actions, for the trader adapter. -/
def TraderAction.events : List TraderAction → List (DebugLogger × TraderEvent)
  | [] => []
  | .event lg e :: rest => (lg, e) :: TraderAction.events rest
  | .callerStore _ :: rest => TraderAction.events rest

/-! ## The market-data factory of the common wrapper -/

/-- The file-scope state of the common wrapper: the global CTP_DETECTED_VERSION
and the function-local static detected of detect_version. -/
structure Globals where
  CTP_DETECTED_VERSION : Ptr
  detected : Bool
  deriving DecidableEq, Repr

/-- The state at program start: version pointer null, nothing detected. -/
def Globals.initial : Globals := ⟨0, false⟩

/-- The static function detect_version. A static vendor method has no object:
its call carries the null pointer in the place of the object. -/
def Common.detect_version (lg : DebugLogger) (V : Vendor) (g : Globals) :
    Globals × List Effect :=
  if !g.detected then
    let c : VendorCall := ⟨"CThostFtdcMdApi", "GetApiVersion", 0, []⟩
    let version := V.ptr c
    if version ≠ 0 then
      ({ CTP_DETECTED_VERSION := version, detected := true },
        [.vendor c] ++ CTP_DEBUG lg "检测到CTP版本: %s" [.cstr version])
    else ({ g with detected := true }, [.vendor c])
  else (g, [])

/-- The C++ conversion flag != 0 passed as a bool argument: 1 for true, 0 for false. -/
def boolArg (flag : Int) : CVal := .int (if flag ≠ 0 then 1 else 0)

/-- The function CThostFtdcMdApi_CreateFtdcMdApi of the common wrapper. -/
def Common.CThostFtdcMdApi_CreateFtdcMdApi (bld : Build) (lg : DebugLogger) (V : Vendor)
    (g : Globals) (pszFlowPath : Ptr) (bIsUsingUdp bIsMulticast bIsProductionMode : Int) :
    Globals × Outcome :=
  let d := Common.detect_version lg V g
  let pre := d.2 ++
    CTP_DEBUG lg "创建MD API, flow_path=%s, udp=%d, multicast=%d, production=%d"
      [if pszFlowPath ≠ 0 then .cstr pszFlowPath else .str "null",
        .int bIsUsingUdp, .int bIsMulticast, .int bIsProductionMode]
  if bld.CTP_PLATFORM_LINUX then
    let c : VendorCall := ⟨"CThostFtdcMdApi", "CreateFtdcMdApi", 0,
      [.ptr pszFlowPath, boolArg bIsUsingUdp, boolArg bIsMulticast, boolArg bIsProductionMode]⟩
    let api := V.ptr c
    (d.1, ⟨.ptr api, pre ++ [.vendor c] ++
      CTP_DEBUG lg "使用Linux版本4参数API创建MD API" [] ++
      CTP_DEBUG lg "MD API创建完成, api指针=%p" [.ptr api]⟩)
  else
    let c : VendorCall := ⟨"CThostFtdcMdApi", "CreateFtdcMdApi", 0,
      [.ptr pszFlowPath, boolArg bIsUsingUdp, boolArg bIsMulticast]⟩
    let api := V.ptr c
    (d.1, ⟨.ptr api, pre ++ [.vendor c] ++
      (if bIsProductionMode ≠ 0 then
        CTP_DEBUG lg "警告: macOS版本不支持生产模式参数，已忽略" []
      else []) ++
      CTP_DEBUG lg "使用macOS版本3参数API创建MD API" [] ++
      CTP_DEBUG lg "MD API创建完成, api指针=%p" [.ptr api]⟩)

/-- A finite sequence of member calls: the final state, the lines written to
std::cerr and the lines written by debug, in order. -/
def DebugLogger.run (lg : DebugLogger) : List LoggerCall → DebugLogger × List String × List Effect
  | [] => (lg, [], [])
  | c :: rest =>
    (((lg.call c).1.run rest).1,
      (lg.call c).2.1 ++ ((lg.call c).1.run rest).2.1,
      (lg.call c).2.2 ++ ((lg.call c).1.run rest).2.2)

/-- The test of the loop in extractFileName: the character is '/' or '\\'. -/
def isPathSeparator (c : Char) : Bool := c == '/' || c == '\\'

/-- The loop of extractFileName over the characters of the path from index p on:
last_slash ends as the index of the last separator, none when there is none. -/
def lastSlash : List Char → Nat → Option Nat → Option Nat
  | [], _, last_slash => last_slash
  | c :: rest, p, last_slash =>
    lastSlash rest (p + 1) (if isPathSeparator c then some p else last_slash)

/-- The member DebugLogger::extractFileName. The argument is the C string passed
(none is the null pointer), as its characters; the result starts one past the
last separator, or at the start of the path when there is none. -/
def DebugLogger.extractFileName (full_path : Option String) : String :=
  match full_path with
  | none => "unknown"
  | some path =>
    match lastSlash path.data 0 none with
    | some last_slash => ⟨path.data.drop (last_slash + 1)⟩
    | none => path

/-- The characters from filename on, where filename is last_slash + 1 when a
separator was found and the start of the path when not. -/
def fromFileName (path : List Char) : Option Nat → List Char
  | some last_slash => path.drop (last_slash + 1)
  | none => path

/-- In the words of the spec: the part of a path after its last '/' or '\\'
character, the whole path when it contains neither. -/
def afterLastSeparator (path : List Char) : List Char :=
  (path.reverse.takeWhile fun c => !isPathSeparator c).reverse

/-- The stream output of an integer under setfill('0') and setw(3): its decimal
text, with fill characters in front up to width 3. -/
def setw3fill0 (v : Int) : String :=
  ⟨List.replicate (3 - (toString v).length) '0'⟩ ++ toString v

/-- The member DebugLogger::getCurrentTimestamp. The clock reading is given as
the milliseconds since the epoch (time_since_epoch cast to milliseconds);
to_time_t is the same reading cast to seconds; put_time is the library
rendering of the local time of a time_t with "%Y-%m-%d %H:%M:%S". The duration
operators truncate toward zero. -/
def DebugLogger.getCurrentTimestamp (put_time : Int → String) (now_ms : Int) : String :=
  let time_t := Int.tdiv now_ms 1000
  let ms := Int.tmod now_ms 1000
  put_time time_t ++ "." ++ setw3fill0 ms

/-- The number a string of decimal digits stands for. -/
def decimalValue (s : String) : Nat :=
  s.data.foldl (fun acc c => 10 * acc + (c.toNat - '0'.toNat)) 0

/-- Where a line is written: std::cout or the log file open on a path. -/
inductive Sink where
  | console
  | file (path : String)
  deriving DecidableEq, Repr

/-- The member DebugLogger::debug with the text of the line: vsnprintf gives the
expansion of the format with its arguments (none when it reports a negative
length, in which case nothing is written); a write is the line without the
line end. The argument func is received and not used. -/
def DebugLogger.debugLines (lg : DebugLogger) (vsnprintf : String → List FmtArg → Option String)
    (put_time : Int → String) (now_ms : Int) (file : Option String) (line : Int)
    (func : Option String) (format : String) (args : List FmtArg) : List (Sink × String) :=
  if !lg.enabled_ then []
  else
    match vsnprintf format args with
    | none => []
    | some message =>
      let log_message :=
        "[" ++ DebugLogger.getCurrentTimestamp put_time now_ms ++ "] " ++ "[DEBUG] " ++
        "[" ++ DebugLogger.extractFileName file ++ ":" ++ toString line ++ "] " ++ message
      match lg.use_file_, lg.file_stream_ with
      | true, some path => [(.file path, log_message), (.console, log_message)]
      | _, _ => [(.console, log_message)]

/-- The sink of an effect written by the logger. -/
def Effect.sink? : Effect → Option Sink
  | .logConsole _ => some .console
  | .logFile path _ => some (.file path)
  | _ => none

/-! ## The C interface of the logger -/

/-- The struct CtpLogConfig; log_file_path none is the null pointer. -/
structure CtpLogConfig where
  enable_debug : Int
  log_file_path : Option String
  max_file_size_mb : Int
  max_backup_files : Int
  deriving DecidableEq, Repr

/-- The function CTP_InitializeDebugLogging; config none is the null pointer. The
result is the logger state after the call and the lines written to std::cerr. -/
def CTP_InitializeDebugLogging (canOpen : String → Bool) (lg : DebugLogger)
    (config : Option CtpLogConfig) : DebugLogger × List String :=
  match config with
  | none => (lg, [])
  | some cfg => lg.init canOpen (decide (cfg.enable_debug ≠ 0)) cfg.log_file_path

/-- The function CTP_CleanupDebugLogging. -/
def CTP_CleanupDebugLogging (lg : DebugLogger) : DebugLogger := lg.cleanup

/-! ## Collection parameters and the Wechat functions -/

/-- The array pointer and the count of a subscription function, by its
declaration in ctp_wrapper.h (char *ppInstrumentID[], int nCount). -/
def FlatCall.subscription? : FlatCall → Option (Ptr × Int)
  | .CThostFtdcMdApi_SubscribeMarketData _ ppInstrumentID nCount => some (ppInstrumentID, nCount)
  | .CThostFtdcMdApi_UnSubscribeMarketData _ ppInstrumentID nCount => some (ppInstrumentID, nCount)
  | .CThostFtdcMdApi_SubscribeForQuoteRsp _ ppInstrumentID nCount => some (ppInstrumentID, nCount)
  | .CThostFtdcMdApi_UnSubscribeForQuoteRsp _ ppInstrumentID nCount => some (ppInstrumentID, nCount)
  | _ => none

/-- The function DestroyMdSpiBridge: the adapters it deletes, none for the null
pointer. The destructor of MdSpiBridge is empty. -/
def DestroyMdSpiBridge (spi_bridge : Ptr) : List Ptr :=
  if spi_bridge ≠ 0 then [spi_bridge] else []

/-- The function DestroyTraderSpiBridge, as DestroyMdSpiBridge. -/
def DestroyTraderSpiBridge (spi_bridge : Ptr) : List Ptr :=
  if spi_bridge ≠ 0 then [spi_bridge] else []

/-! ## The functions of the flat API that take no handle -/

/-- The function CThostFtdcMdApi_CreateFtdcMdApi of the Linux wrapper. -/
def Linux.CThostFtdcMdApi_CreateFtdcMdApi (lg : DebugLogger) (V : Vendor)
    (pszFlowPath : Ptr) (bIsUsingUdp bIsMulticast bIsProductionMode : Int) : Outcome :=
  let c : VendorCall := ⟨"CThostFtdcMdApi", "CreateFtdcMdApi", 0,
    [.ptr pszFlowPath, boolArg bIsUsingUdp, boolArg bIsMulticast, boolArg bIsProductionMode]⟩
  let api := V.ptr c
  ⟨.ptr api,
    CTP_DEBUG lg "创建MD API, flow_path=%s, udp=%d, multicast=%d, production=%d"
      [if pszFlowPath ≠ 0 then .cstr pszFlowPath else .str "null",
        .int bIsUsingUdp, .int bIsMulticast, .int bIsProductionMode] ++
    [.vendor c] ++
    CTP_DEBUG lg "MD API创建完成, api指针=%p" [.ptr api]⟩

theorem invocations_append (s t : List Effect) :
    invocations (s ++ t) = invocations s ++ invocations t := by
  simp [invocations, List.filterMap_append]

theorem invocations_nil : invocations [] = [] := rfl

theorem invocations_invoke (fn : Ptr) (args : List CVal) (t : List Effect) :
    invocations (.invoke fn args :: t) = (fn, args) :: invocations t := rfl

theorem invocations_cout (s : String) (t : List Effect) :
    invocations (.cout s :: t) = invocations t := rfl

theorem invocations_ite (c : Prop) [Decidable c] (s t : List Effect) :
    invocations (if c then s else t) = if c then invocations s else invocations t := by
  split <;> rfl

theorem CTP_DEBUG_disabled (lg : DebugLogger) (h : lg.enabled_ = false) (f : String)
    (a : List FmtArg) : CTP_DEBUG lg f a = [] := by
  simp [CTP_DEBUG, DebugLogger.isEnabled, h]

theorem CTP_DEBUG_isLog (lg : DebugLogger) (f : String) (a : List FmtArg) :
    ∀ e ∈ CTP_DEBUG lg f a, e.isLog = true := by
  intro e he
  unfold CTP_DEBUG DebugLogger.debug at he
  split at he
  · split at he
    · simp at he
    · split at he <;> simp at he <;> rcases he with rfl | rfl <;> rfl
  · simp at he

theorem invocations_CTP_DEBUG (lg : DebugLogger) (f : String) (a : List FmtArg) :
    invocations (CTP_DEBUG lg f a) = [] := by
  unfold CTP_DEBUG DebugLogger.debug invocations
  split
  · split
    · rfl
    · split <;> rfl
  · rfl

/-! ## The adapters: what one event delivery invokes -/

theorem md_invocations_deliver (lg : DebugLogger) (b : MdSpiBridge) (e : MdEvent) :
    invocations (b.deliver lg e) =
      if e.slot b.callbacks ≠ 0 then [e.invocation b.callbacks] else [] := by
  cases e <;>
  simp [MdSpiBridge.deliver, MdEvent.slot, MdEvent.flatArgs, MdEvent.invocation,
    invocations_append, invocations_CTP_DEBUG, invocations_ite, invocations_nil,
    invocations_invoke, invocations_cout,
    MdSpiBridge.OnFrontConnected, MdSpiBridge.OnFrontDisconnected,
    MdSpiBridge.OnHeartBeatWarning, MdSpiBridge.OnRspUserLogin, MdSpiBridge.OnRspUserLogout,
    MdSpiBridge.OnRspError, MdSpiBridge.OnRspSubMarketData, MdSpiBridge.OnRspUnSubMarketData,
    MdSpiBridge.OnRtnDepthMarketData, MdSpiBridge.OnRtnForQuoteRsp]

theorem trader_invocations_deliver (lg : DebugLogger) (b : TraderSpiBridge)
    (e : TraderEvent) :
    invocations (b.deliver lg e) =
      if e.slot b.callbacks ≠ 0 then [e.invocation b.callbacks] else [] := by
  cases e <;>
  simp [TraderSpiBridge.deliver, TraderEvent.slot, TraderEvent.flatArgs, TraderEvent.invocation,
    invocations_append, invocations_CTP_DEBUG, invocations_ite, invocations_nil,
    invocations_invoke, invocations_cout,
    TraderSpiBridge.OnFrontConnected, TraderSpiBridge.OnFrontDisconnected,
    TraderSpiBridge.OnHeartBeatWarning, TraderSpiBridge.OnRspAuthenticate,
    TraderSpiBridge.OnRspUserLogin, TraderSpiBridge.OnRspUserLogout, TraderSpiBridge.OnRspError,
    TraderSpiBridge.OnRspOrderInsert, TraderSpiBridge.OnRspOrderAction,
    TraderSpiBridge.OnRtnOrder, TraderSpiBridge.OnRtnTrade,
    TraderSpiBridge.OnRspQryTradingAccount, TraderSpiBridge.OnRspQryInvestorPosition,
    TraderSpiBridge.OnErrRtnOrderInsert, TraderSpiBridge.OnErrRtnOrderAction,
    TraderSpiBridge.OnRspQryOrder, TraderSpiBridge.OnRspQryTrade,
    TraderSpiBridge.OnRspQryInstrument, TraderSpiBridge.OnRspQryInstrumentMarginRate,
    TraderSpiBridge.OnRspQryInstrumentCommissionRate, TraderSpiBridge.OnRspQryExchange,
    TraderSpiBridge.OnRspQryProduct, TraderSpiBridge.OnRspSettlementInfoConfirm,
    TraderSpiBridge.OnRspParkedOrderInsert, TraderSpiBridge.OnRspParkedOrderAction,
    TraderSpiBridge.OnRspExecOrderInsert, TraderSpiBridge.OnRspExecOrderAction,
    TraderSpiBridge.OnRspForQuoteInsert, TraderSpiBridge.OnRspQuoteInsert,
    TraderSpiBridge.OnRspQuoteAction, TraderSpiBridge.OnRspBatchOrderAction,
    TraderSpiBridge.OnRspRemoveParkedOrder, TraderSpiBridge.OnRspRemoveParkedOrderAction,
    TraderSpiBridge.OnRspQryMaxOrderVolume, TraderSpiBridge.OnRspQryDepthMarketData,
    TraderSpiBridge.OnRspQrySettlementInfo, TraderSpiBridge.OnRspQryTransferBank,
    TraderSpiBridge.OnRspQryInvestorPositionDetail, TraderSpiBridge.OnRspQryNotice]

theorem md_invocations_deliverAll (b : MdSpiBridge)
    (steps : List (DebugLogger × MdEvent)) :
    invocations (b.deliverAll steps) =
      ((steps.map Prod.snd).filter fun e => e.slot b.callbacks ≠ 0).map
        (MdEvent.invocation b.callbacks) := by
  induction steps with
  | nil => rfl
  | cons st rest ih =>
    obtain ⟨lg, e⟩ := st
    simp only [MdSpiBridge.deliverAll, invocations_append, md_invocations_deliver, ih,
      List.map_cons, List.filter_cons]
    by_cases h : e.slot b.callbacks = 0 <;> simp [h]

theorem trader_invocations_deliverAll (b : TraderSpiBridge)
    (steps : List (DebugLogger × TraderEvent)) :
    invocations (b.deliverAll steps) =
      ((steps.map Prod.snd).filter fun e => e.slot b.callbacks ≠ 0).map
        (TraderEvent.invocation b.callbacks) := by
  induction steps with
  | nil => rfl
  | cons st rest ih =>
    obtain ⟨lg, e⟩ := st
    simp only [TraderSpiBridge.deliverAll, invocations_append,
      trader_invocations_deliver, ih, List.map_cons, List.filter_cons]
    by_cases h : e.slot b.callbacks = 0 <;> simp [h]

theorem md_frameOf_invocation (cbs : MdSpiCallbacks) (e : MdEvent) :
    frameOf (e.invocation cbs).2 = e.frame?.map fun p => (p.1, if p.2 then 1 else 0) := by
  cases e <;> simp [MdEvent.invocation, MdEvent.flatArgs, MdEvent.frame?, frameOf]

theorem trader_frameOf_invocation (cbs : TraderSpiCallbacks) (e : TraderEvent) :
    frameOf (e.invocation cbs).2 = e.frame?.map fun p => (p.1, if p.2 then 1 else 0) := by
  cases e <;> simp [TraderEvent.invocation, TraderEvent.flatArgs, TraderEvent.frame?, frameOf]

theorem md_slot_null (ud : Ptr) (e : MdEvent) :
    e.slot (MdSpiCallbacks.null ud) = 0 := by
  cases e <;> rfl

theorem trader_slot_null (ud : Ptr) (e : TraderEvent) :
    e.slot (TraderSpiCallbacks.null ud) = 0 := by
  cases e <;> rfl

/-! ## Framing of responses -/

theorem WellFramed_sublist {l l' : List Bool} (hs : List.Sublist l' l) (hw : WellFramed l) :
    WellFramed l' := by
  intro pre post h
  subst h
  obtain ⟨r₁, r₂, hl, -, h2⟩ := List.append_sublist_iff.1 hs
  obtain ⟨q₁, q₂, hr, hmem, hpost⟩ := List.cons_sublist_iff.1 h2
  obtain ⟨s, t, hq⟩ := List.append_of_mem hmem
  have hnil : t ++ q₂ = [] := by
    apply hw (r₁ ++ s) (t ++ q₂)
    rw [hl, hr, hq]
    simp
  have hq2 : q₂ = [] := (List.append_eq_nil.1 hnil).2
  rw [hq2] at hpost
  exact List.sublist_nil.1 hpost

theorem decide_flag_ne_zero (b : Bool) : decide ((if b then (1 : Int) else 0) ≠ 0) = b := by
  cases b <;> rfl

theorem md_deliveredFinals_deliverAll (N : Int) (b : MdSpiBridge)
    (steps : List (DebugLogger × MdEvent)) :
    deliveredFinals N (invocations (b.deliverAll steps)) =
      finalsFor N (((steps.map Prod.snd).filter fun e => e.slot b.callbacks ≠ 0).map
        MdEvent.frame?) := by
  rw [md_invocations_deliverAll, deliveredFinals, List.map_map]
  congr 1
  apply List.map_congr_left
  intro e _
  simp only [Function.comp, md_frameOf_invocation]
  cases e.frame? with
  | none => rfl
  | some p => simp [decide_flag_ne_zero]

theorem trader_deliveredFinals_deliverAll (N : Int) (b : TraderSpiBridge)
    (steps : List (DebugLogger × TraderEvent)) :
    deliveredFinals N (invocations (b.deliverAll steps)) =
      finalsFor N (((steps.map Prod.snd).filter fun e => e.slot b.callbacks ≠ 0).map
        TraderEvent.frame?) := by
  rw [trader_invocations_deliverAll, deliveredFinals, List.map_map]
  congr 1
  apply List.map_congr_left
  intro e _
  simp only [Function.comp, trader_frameOf_invocation]
  cases e.frame? with
  | none => rfl
  | some p => simp [decide_flag_ne_zero]

theorem finalsFor_filter_sublist {α : Type} (N : Int) (f : α → Option (Int × Bool))
    (p : α → Bool) (l : List α) :
    List.Sublist (finalsFor N ((l.filter p).map f)) (finalsFor N (l.map f)) :=
  List.Sublist.filterMap _ (List.Sublist.map f (List.filter_sublist l))

theorem WellFramed_false_true : WellFramed [false, true] := by
  intro pre post h
  match pre, h with
  | [], h => simp at h
  | [_], h =>
    simp at h
    rw [← h.2]
  | _ :: _ :: _, h => simp at h

/-! ## Lemmas on the flat API -/

theorem vendorCalls_append (s t : List Effect) :
    vendorCalls (s ++ t) = vendorCalls s ++ vendorCalls t := by
  simp [vendorCalls, List.filterMap_append]

theorem vendorCalls_nil : vendorCalls [] = [] := rfl

theorem vendorCalls_vendor (c : VendorCall) (t : List Effect) :
    vendorCalls (.vendor c :: t) = c :: vendorCalls t := rfl

theorem vendorCalls_cout (s : String) (t : List Effect) :
    vendorCalls (.cout s :: t) = vendorCalls t := rfl

theorem vendorCalls_CTP_DEBUG (lg : DebugLogger) (f : String) (a : List FmtArg) :
    vendorCalls (CTP_DEBUG lg f a) = [] := by
  unfold CTP_DEBUG DebugLogger.debug vendorCalls
  split
  · split
    · rfl
    · split <;> rfl
  · rfl

theorem filter_notLog_CTP_DEBUG (lg : DebugLogger) (f : String) (a : List FmtArg) :
    ((CTP_DEBUG lg f a).filter fun x => !x.isLog) = [] := by
  rw [List.filter_eq_nil_iff]
  intro x hx
  simp [CTP_DEBUG_isLog lg f a x hx]

theorem isLog_cout (s : String) : (Effect.cout s).isLog = false := rfl

set_option maxHeartbeats 1000000 in
theorem common_exec_request (bld : Build) (lg : DebugLogger) (V : Vendor) (c : FlatCall)
    (p : Ptr) (N : Int) (hreq : c.request? = some (p, N)) (hh : c.handle ≠ 0) :
    ∃ vc, vendorCalls (Common.exec bld lg V c).trace = [vc] ∧
      vc.cls ++ "_" ++ vc.method = c.name ∧ vc.self = c.handle ∧
      vc.args.take 2 = [.ptr p, .int N] ∧ vc.args[1]? = some (.int N) ∧
      (Common.exec bld lg V c).ret = .int (V.int vc) := by
  obtain ⟨lnx, mac⟩ := bld
  cases c <;>
    simp only [FlatCall.request?, Option.some.injEq, Prod.mk.injEq, reduceCtorEq] at hreq <;>
    obtain ⟨rfl, rfl⟩ := hreq <;>
    simp only [FlatCall.handle] at hh <;>
    cases mac <;>
    simp only [Common.exec, if_pos hh, callInt, vendorCalls_nil, vendorCalls_vendor,
      FlatCall.name, FlatCall.handle, Bool.false_eq_true, if_false, if_true] <;>
    exact ⟨_, rfl, rfl, rfl, rfl, rfl, rfl⟩

set_option maxHeartbeats 1000000 in
theorem linux_exec_request (lg : DebugLogger) (V : Vendor) (c : FlatCall)
    (p : Ptr) (N : Int) (hreq : c.request? = some (p, N)) (hh : c.handle ≠ 0) :
    ∃ vc, vendorCalls (Linux.exec lg V c).trace = [vc] ∧
      vc.cls ++ "_" ++ vc.method = c.name ∧ vc.self = c.handle ∧
      vc.args.take 2 = [.ptr p, .int N] ∧ vc.args[1]? = some (.int N) ∧
      (Linux.exec lg V c).ret = .int (V.int vc) := by
  cases c <;>
    simp only [FlatCall.request?, Option.some.injEq, Prod.mk.injEq, reduceCtorEq] at hreq <;>
    obtain ⟨rfl, rfl⟩ := hreq <;>
    simp only [FlatCall.handle] at hh <;>
    simp only [Linux.exec, if_pos hh, callInt, vendorCalls_append, vendorCalls_nil,
      vendorCalls_vendor, vendorCalls_CTP_DEBUG, FlatCall.name, FlatCall.handle,
      List.nil_append, List.append_nil] <;>
    exact ⟨_, rfl, rfl, rfl, rfl, rfl, rfl⟩

theorem md_requestIds_deliverAll (b : MdSpiBridge)
    (steps : List (DebugLogger × MdEvent)) :
    (invocations (b.deliverAll steps)).filterMap (fun inv => (frameOf inv.2).map Prod.fst)
      = ((steps.map Prod.snd).filter fun e => e.slot b.callbacks ≠ 0).filterMap
          (fun e => e.frame?.map Prod.fst) := by
  rw [md_invocations_deliverAll, List.filterMap_map]
  congr 1
  funext e
  simp only [Function.comp, md_frameOf_invocation, Option.map_map]
  cases e.frame? <;> rfl

theorem trader_requestIds_deliverAll (b : TraderSpiBridge)
    (steps : List (DebugLogger × TraderEvent)) :
    (invocations (b.deliverAll steps)).filterMap (fun inv => (frameOf inv.2).map Prod.fst)
      = ((steps.map Prod.snd).filter fun e => e.slot b.callbacks ≠ 0).filterMap
          (fun e => e.frame?.map Prod.fst) := by
  rw [trader_invocations_deliverAll, List.filterMap_map]
  congr 1
  funext e
  simp only [Function.comp, trader_frameOf_invocation, Option.map_map]
  cases e.frame? <;> rfl

/-! ## The flat API -/

/-- C1: with a null handle no flat-API function reaches the vendor object, in the
common wrapper (any build) and in the Linux wrapper: the trace has no vendor
call, and the result is the sentinel of the declared return type (-1 for int,
the null pointer for GetTradingDay, nothing for void), for every value of the
other arguments, every logger state and every vendor. -/
theorem null_handle_sentinel (bld : Build) (lg : DebugLogger) (V : Vendor) (c : FlatCall)
    (h : c.handle = 0) :
    vendorCalls (Common.exec bld lg V c).trace = [] ∧
    (Common.exec bld lg V c).ret = c.sentinel ∧
    vendorCalls (Linux.exec lg V c).trace = [] ∧
    (Linux.exec lg V c).ret = c.sentinel := by
  cases c <;> simp only [FlatCall.handle] at h <;> subst h <;>
    simp [Common.exec, Linux.exec, FlatCall.sentinel, vendorCalls_append, vendorCalls_nil,
      vendorCalls_cout, vendorCalls_CTP_DEBUG]

/-- Concrete instance, evaluated on explicit inputs. -/
theorem null_handle_sentinel_witness :
    (Common.exec ⟨true, false⟩ DebugLogger.console Vendor.zero
        (.CThostFtdcTraderApi_ReqOrderInsert 0 5 42)).ret = .int (-1) ∧
    (Linux.exec DebugLogger.console Vendor.zero
        (.CThostFtdcMdApi_GetTradingDay 0)).ret = .ptr 0 :=
  ⟨(null_handle_sentinel ⟨true, false⟩ DebugLogger.console Vendor.zero
      (.CThostFtdcTraderApi_ReqOrderInsert 0 5 42) rfl).2.1,
   (null_handle_sentinel ⟨true, false⟩ DebugLogger.console Vendor.zero
      (.CThostFtdcMdApi_GetTradingDay 0) rfl).2.2.2⟩

/-- C2 (counterexample): in the Linux wrapper, CThostFtdcTraderApi_Init called
with a null handle while logging is disabled writes a line to the console. -/
theorem linux_null_handle_console :
    FlatCall.handle (.CThostFtdcTraderApi_Init 0) = 0 ∧
    (Linux.exec DebugLogger.off Vendor.zero (.CThostFtdcTraderApi_Init 0)).trace
      = [.cout "[CTP_API] ❌ API实例为空!"] ∧
    ¬ (∀ (lg : DebugLogger) (V : Vendor) (c : FlatCall), c.handle = 0 → lg.enabled_ = false →
        ∀ x ∈ (Linux.exec lg V c).trace, x.isOutput = false) := by
  refine ⟨rfl, rfl, ?_⟩
  intro h
  have h1 := h DebugLogger.off Vendor.zero (.CThostFtdcTraderApi_Init 0) rfl rfl
    (.cout "[CTP_API] ❌ API实例为空!") (List.Mem.head _)
  simp [Effect.isOutput] at h1

/-- C2 (amended): for a call with a null handle, in the common wrapper every
effect is a debug-log line and there is none when logging is disabled; in the
Linux wrapper the same holds except that CThostFtdcTraderApi_Init,
CThostFtdcTraderApi_RegisterFront and CThostFtdcTraderApi_RegisterSpi also
write one line to the console, whether or not logging is enabled. -/
theorem null_handle_effects (bld : Build) (lg : DebugLogger) (V : Vendor) (c : FlatCall)
    (h : c.handle = 0) :
    ((Common.exec bld lg V c).trace.filter fun x => !x.isLog) = [] ∧
    (lg.enabled_ = false → (Common.exec bld lg V c).trace = []) ∧
    ((Linux.exec lg V c).trace.filter fun x => !x.isLog)
      = (if c.linuxNullNotice then [.cout "[CTP_API] ❌ API实例为空!"] else []) ∧
    (lg.enabled_ = false →
      (Linux.exec lg V c).trace
        = if c.linuxNullNotice then [.cout "[CTP_API] ❌ API实例为空!"] else []) := by
  refine ⟨?_, ?_, ?_, ?_⟩
  · cases c <;> simp only [FlatCall.handle] at h <;> subst h <;>
      simp [Common.exec, filter_notLog_CTP_DEBUG]
  · intro hd
    cases c <;> simp only [FlatCall.handle] at h <;> subst h <;>
      simp [Common.exec, CTP_DEBUG_disabled lg hd]
  · cases c <;> simp only [FlatCall.handle] at h <;> subst h <;>
      simp [Linux.exec, FlatCall.linuxNullNotice, filter_notLog_CTP_DEBUG, isLog_cout]
  · intro hd
    cases c <;> simp only [FlatCall.handle] at h <;> subst h <;>
      simp [Linux.exec, FlatCall.linuxNullNotice, CTP_DEBUG_disabled lg hd]

/-- Concrete instance, evaluated on explicit inputs. -/
theorem null_handle_effects_witness :
    ((Linux.exec DebugLogger.console Vendor.zero
        (.CThostFtdcTraderApi_RegisterSpi 0 8)).trace.filter fun x => !x.isLog)
      = [.cout "[CTP_API] ❌ API实例为空!"] ∧
    (Common.exec ⟨true, false⟩ DebugLogger.off Vendor.zero
        (.CThostFtdcTraderApi_Init 0)).trace = [] :=
  ⟨(null_handle_effects ⟨true, false⟩ DebugLogger.console Vendor.zero
      (.CThostFtdcTraderApi_RegisterSpi 0 8) rfl).2.2.1,
   (null_handle_effects ⟨true, false⟩ DebugLogger.off Vendor.zero
      (.CThostFtdcTraderApi_Init 0) rfl).2.1 rfl⟩

/-- C3: for every request function and every non-null handle, in the common
wrapper (any build) and in the Linux wrapper, exactly one vendor call is made:
the method whose class and name make up the name of the flat function, on the
handle, with the payload pointer and the request id of the caller as its first
two arguments; the function returns the int that call returned, so its result
is non-negative iff the vendor status is. -/
theorem request_forwarding (bld : Build) (lg : DebugLogger) (V : Vendor) (c : FlatCall)
    (p : Ptr) (N : Int) (hreq : c.request? = some (p, N)) (hh : c.handle ≠ 0) :
    (∃ vc, vendorCalls (Common.exec bld lg V c).trace = [vc] ∧
      vc.cls ++ "_" ++ vc.method = c.name ∧ vc.self = c.handle ∧
      vc.args.take 2 = [.ptr p, .int N] ∧
      (Common.exec bld lg V c).ret = .int (V.int vc) ∧
      ∀ r, (Common.exec bld lg V c).ret = .int r → (0 ≤ r ↔ 0 ≤ V.int vc)) ∧
    (∃ vc, vendorCalls (Linux.exec lg V c).trace = [vc] ∧
      vc.cls ++ "_" ++ vc.method = c.name ∧ vc.self = c.handle ∧
      vc.args.take 2 = [.ptr p, .int N] ∧
      (Linux.exec lg V c).ret = .int (V.int vc) ∧
      ∀ r, (Linux.exec lg V c).ret = .int r → (0 ≤ r ↔ 0 ≤ V.int vc)) := by
  constructor
  · obtain ⟨vc, h1, h2, h3, h4, -, h5⟩ := common_exec_request bld lg V c p N hreq hh
    refine ⟨vc, h1, h2, h3, h4, h5, ?_⟩
    intro r hr
    rw [h5] at hr
    injection hr with hr
    rw [hr]
  · obtain ⟨vc, h1, h2, h3, h4, -, h5⟩ := linux_exec_request lg V c p N hreq hh
    refine ⟨vc, h1, h2, h3, h4, h5, ?_⟩
    intro r hr
    rw [h5] at hr
    injection hr with hr
    rw [hr]

/-- Concrete instance, evaluated on explicit inputs. -/
theorem request_forwarding_witness :
    ∃ vc, vendorCalls (Linux.exec DebugLogger.console Vendor.zero
        (.CThostFtdcTraderApi_ReqOrderInsert 1 5 42)).trace = [vc] ∧
      vc.cls ++ "_" ++ vc.method = "CThostFtdcTraderApi_ReqOrderInsert" ∧ vc.self = 1 ∧
      vc.args.take 2 = [.ptr 5, .int 42] ∧
      (Linux.exec DebugLogger.console Vendor.zero
        (.CThostFtdcTraderApi_ReqOrderInsert 1 5 42)).ret = .int (Vendor.zero.int vc) ∧
      ∀ r, (Linux.exec DebugLogger.console Vendor.zero
        (.CThostFtdcTraderApi_ReqOrderInsert 1 5 42)).ret = .int r →
          (0 ≤ r ↔ 0 ≤ Vendor.zero.int vc) :=
  (request_forwarding ⟨true, false⟩ DebugLogger.console Vendor.zero
    (.CThostFtdcTraderApi_ReqOrderInsert 1 5 42) 5 42 rfl (by decide)).2

/-- C4: request-id round trip. A request function called with request id N on a
non-null handle hands N to the vendor as the request-id argument (both
wrappers); a response event carrying nRequestID = N whose slot is populated
invokes the callback exactly once with request_id = N (both adapters); and over
any sequence of events the request ids the callbacks receive are the request
ids of the populated response events, in the same order. -/
theorem request_id_round_trip (N : Int) (bld : Build) (lg : DebugLogger) (V : Vendor)
    (c : FlatCall) (p : Ptr) (bIsLast : Bool)
    (mb : MdSpiBridge) (me : MdEvent) (msteps : List (DebugLogger × MdEvent))
    (tb : TraderSpiBridge) (te : TraderEvent) (tsteps : List (DebugLogger × TraderEvent)) :
    (c.request? = some (p, N) → c.handle ≠ 0 →
      (∃ vc, vendorCalls (Common.exec bld lg V c).trace = [vc] ∧
        vc.args[1]? = some (.int N)) ∧
      (∃ vc, vendorCalls (Linux.exec lg V c).trace = [vc] ∧
        vc.args[1]? = some (.int N))) ∧
    (me.frame? = some (N, bIsLast) → me.slot mb.callbacks ≠ 0 →
      ∃ fn args is_last, invocations (mb.deliver lg me) = [(fn, args)] ∧
        frameOf args = some (N, is_last)) ∧
    (te.frame? = some (N, bIsLast) → te.slot tb.callbacks ≠ 0 →
      ∃ fn args is_last, invocations (tb.deliver lg te) = [(fn, args)] ∧
        frameOf args = some (N, is_last)) ∧
    (invocations (mb.deliverAll msteps)).filterMap (fun inv => (frameOf inv.2).map Prod.fst)
      = ((msteps.map Prod.snd).filter fun e => e.slot mb.callbacks ≠ 0).filterMap
          (fun e => e.frame?.map Prod.fst) ∧
    (invocations (tb.deliverAll tsteps)).filterMap (fun inv => (frameOf inv.2).map Prod.fst)
      = ((tsteps.map Prod.snd).filter fun e => e.slot tb.callbacks ≠ 0).filterMap
          (fun e => e.frame?.map Prod.fst) := by
  refine ⟨?_, ?_, ?_, md_requestIds_deliverAll mb msteps,
    trader_requestIds_deliverAll tb tsteps⟩
  · intro hreq hh
    obtain ⟨vc, h1, -, -, -, h2, -⟩ := common_exec_request bld lg V c p N hreq hh
    obtain ⟨vc', h1', -, -, -, h2', -⟩ := linux_exec_request lg V c p N hreq hh
    exact ⟨⟨vc, h1, h2⟩, ⟨vc', h1', h2'⟩⟩
  · intro hf hs
    refine ⟨me.slot mb.callbacks, .ptr mb.callbacks.user_data :: me.flatArgs,
      if bIsLast then 1 else 0, ?_, ?_⟩
    · rw [md_invocations_deliver, if_pos hs]
      rfl
    · have hfr := md_frameOf_invocation mb.callbacks me
      rw [hf] at hfr
      exact hfr
  · intro hf hs
    refine ⟨te.slot tb.callbacks, .ptr tb.callbacks.user_data :: te.flatArgs,
      if bIsLast then 1 else 0, ?_, ?_⟩
    · rw [trader_invocations_deliver, if_pos hs]
      rfl
    · have hfr := trader_frameOf_invocation tb.callbacks te
      rw [hf] at hfr
      exact hfr

/-- Concrete instance, evaluated on explicit inputs. -/
theorem request_id_round_trip_witness :
    (∃ vc, vendorCalls (Common.exec ⟨false, true⟩ DebugLogger.console Vendor.zero
        (.CThostFtdcTraderApi_ReqQryOrder 1 5 42)).trace = [vc] ∧
      vc.args[1]? = some (.int 42)) ∧
    (∃ fn args is_last,
      invocations ((⟨{ TraderSpiCallbacks.null 7 with on_rsp_qry_order := 500 }⟩ :
          TraderSpiBridge).deliver DebugLogger.console (.OnRspQryOrder 11 0 42 true))
        = [(fn, args)] ∧
      frameOf args = some (42, is_last)) :=
  ⟨((request_id_round_trip 42 ⟨false, true⟩ DebugLogger.console Vendor.zero
      (.CThostFtdcTraderApi_ReqQryOrder 1 5 42) 5 true
      ⟨MdSpiCallbacks.null 7⟩ (.OnRspError 0 42 true) []
      ⟨{ TraderSpiCallbacks.null 7 with on_rsp_qry_order := 500 }⟩
      (.OnRspQryOrder 11 0 42 true) []).1 rfl (by decide)).1,
   (request_id_round_trip 42 ⟨false, true⟩ DebugLogger.console Vendor.zero
      (.CThostFtdcTraderApi_ReqQryOrder 1 5 42) 5 true
      ⟨MdSpiCallbacks.null 7⟩ (.OnRspError 0 42 true) []
      ⟨{ TraderSpiCallbacks.null 7 with on_rsp_qry_order := 500 }⟩
      (.OnRspQryOrder 11 0 42 true) []).2.2.1 rfl (by decide)⟩

/-! ## The callback bridge -/

/-- C5: an adapter built from a table whose function pointers are all null (any
context pointer) never invokes a caller-supplied function, for any finite
sequence of events and any logger states. -/
theorem all_null_table_invokes_nothing (ud : Ptr) (msteps : List (DebugLogger × MdEvent))
    (tsteps : List (DebugLogger × TraderEvent)) :
    (CreateMdSpiBridge (some (MdSpiCallbacks.null ud))).2 = some ⟨MdSpiCallbacks.null ud⟩ ∧
    invocations ((⟨MdSpiCallbacks.null ud⟩ : MdSpiBridge).deliverAll msteps) = [] ∧
    (CreateTraderSpiBridge (some (TraderSpiCallbacks.null ud))).2
      = some ⟨TraderSpiCallbacks.null ud⟩ ∧
    invocations ((⟨TraderSpiCallbacks.null ud⟩ : TraderSpiBridge).deliverAll tsteps) = [] := by
  refine ⟨rfl, ?_, rfl, ?_⟩
  · rw [md_invocations_deliverAll]
    simp [md_slot_null]
  · rw [trader_invocations_deliverAll]
    simp [trader_slot_null]

/-- C6: with only on_front_connected and on_rsp_user_login populated, delivering
OnFrontConnected and then OnRspUserLogin(p, null, 42, true) makes exactly two
callback invocations, in this order: on_front_connected(user_data), then
on_rsp_user_login(user_data, p, null, 42, 1). This holds for the trader adapter
and for the market-data adapter, in any logger states. -/
theorem login_scenario (lg1 lg2 : DebugLogger) (ud f1 f2 p : Ptr) (h1 : f1 ≠ 0) (h2 : f2 ≠ 0) :
    invocations
      ((⟨{ TraderSpiCallbacks.null ud with
            on_front_connected := f1, on_rsp_user_login := f2 }⟩ : TraderSpiBridge).deliverAll
        [(lg1, .OnFrontConnected), (lg2, .OnRspUserLogin p 0 42 true)])
      = [(f1, [.ptr ud]), (f2, [.ptr ud, .ptr p, .ptr 0, .int 42, .int 1])] ∧
    invocations
      ((⟨{ MdSpiCallbacks.null ud with
            on_front_connected := f1, on_rsp_user_login := f2 }⟩ : MdSpiBridge).deliverAll
        [(lg1, .OnFrontConnected), (lg2, .OnRspUserLogin p 0 42 true)])
      = [(f1, [.ptr ud]), (f2, [.ptr ud, .ptr p, .ptr 0, .int 42, .int 1])] := by
  constructor
  · rw [trader_invocations_deliverAll]
    simp [TraderEvent.slot, TraderEvent.invocation, TraderEvent.flatArgs,
      TraderSpiCallbacks.null, h1, h2]
  · rw [md_invocations_deliverAll]
    simp [MdEvent.slot, MdEvent.invocation, MdEvent.flatArgs, MdSpiCallbacks.null, h1, h2]

/-- Concrete instance, evaluated on explicit inputs. -/
theorem login_scenario_witness :
    invocations
      ((⟨{ TraderSpiCallbacks.null 7 with
            on_front_connected := 100, on_rsp_user_login := 200 }⟩ : TraderSpiBridge).deliverAll
        [(DebugLogger.off, .OnFrontConnected), (DebugLogger.console, .OnRspUserLogin 9 0 42 true)])
      = [(100, [.ptr 7]), (200, [.ptr 7, .ptr 9, .ptr 0, .int 42, .int 1])] :=
  (login_scenario DebugLogger.off DebugLogger.console 7 100 200 9 (by decide) (by decide)).1

/-- C7: when the slot of an event is populated, delivering the event invokes
that slot (the table entry of the matching name) exactly once and nothing else,
with user_data first and every argument of the event passed as received (the
final flag as 1 or 0); both adapters, every event, every logger state. -/
theorem populated_slot_forwarding (lg : DebugLogger) (mb : MdSpiBridge) (me : MdEvent)
    (tb : TraderSpiBridge) (te : TraderEvent) :
    (me.slot mb.callbacks ≠ 0 →
      invocations (mb.deliver lg me)
        = [(me.slot mb.callbacks, .ptr mb.callbacks.user_data :: me.flatArgs)]) ∧
    (te.slot tb.callbacks ≠ 0 →
      invocations (tb.deliver lg te)
        = [(te.slot tb.callbacks, .ptr tb.callbacks.user_data :: te.flatArgs)]) := by
  constructor
  · intro h
    rw [md_invocations_deliver, if_pos h]
    rfl
  · intro h
    rw [trader_invocations_deliver, if_pos h]
    rfl

/-- Concrete instance, evaluated on explicit inputs. -/
theorem populated_slot_forwarding_witness :
    invocations ((⟨{ MdSpiCallbacks.null 7 with on_rsp_error := 300 }⟩ : MdSpiBridge).deliver
        DebugLogger.console (.OnRspError 0 5 false))
      = [(300, [.ptr 7, .ptr 0, .int 5, .int 0])] ∧
    invocations
      ((⟨{ TraderSpiCallbacks.null 7 with on_rsp_qry_trade := 400 }⟩ : TraderSpiBridge).deliver
        DebugLogger.console (.OnRspQryTrade 11 12 5 true))
      = [(400, [.ptr 7, .ptr 11, .ptr 12, .int 5, .int 1])] :=
  ⟨(populated_slot_forwarding DebugLogger.console
      ⟨{ MdSpiCallbacks.null 7 with on_rsp_error := 300 }⟩ (.OnRspError 0 5 false)
      ⟨{ TraderSpiCallbacks.null 7 with on_rsp_qry_trade := 400 }⟩
      (.OnRspQryTrade 11 12 5 true)).1 (by decide),
   (populated_slot_forwarding DebugLogger.console
      ⟨{ MdSpiCallbacks.null 7 with on_rsp_error := 300 }⟩ (.OnRspError 0 5 false)
      ⟨{ TraderSpiCallbacks.null 7 with on_rsp_qry_trade := 400 }⟩
      (.OnRspQryTrade 11 12 5 true)).2 (by decide)⟩

/-- C8: for a response event (request id N, vendor flag bIsLast) every callback
invocation made by the delivery receives is_last = 1 when bIsLast is true and
0 when it is false, so never another value; with the slot populated there is
exactly one such invocation. Both adapters, every logger state. -/
theorem is_last_is_one_or_zero (lg : DebugLogger) (mb : MdSpiBridge) (me : MdEvent)
    (tb : TraderSpiBridge) (te : TraderEvent) (N : Int) (bIsLast : Bool) :
    (me.frame? = some (N, bIsLast) →
      (∀ inv ∈ invocations (mb.deliver lg me),
        (frameOf inv.2).map Prod.snd = some (if bIsLast then 1 else 0) ∧
        inv.2.getLast? = some (.int (if bIsLast then 1 else 0))) ∧
      (me.slot mb.callbacks ≠ 0 → (invocations (mb.deliver lg me)).length = 1)) ∧
    (te.frame? = some (N, bIsLast) →
      (∀ inv ∈ invocations (tb.deliver lg te),
        (frameOf inv.2).map Prod.snd = some (if bIsLast then 1 else 0) ∧
        inv.2.getLast? = some (.int (if bIsLast then 1 else 0))) ∧
      (te.slot tb.callbacks ≠ 0 → (invocations (tb.deliver lg te)).length = 1)) := by
  constructor
  · intro hf
    rw [md_invocations_deliver]
    refine ⟨?_, fun h => by simp [h]⟩
    intro inv hinv
    split at hinv
    · simp only [List.mem_singleton] at hinv
      subst hinv
      refine ⟨by simp [md_frameOf_invocation, hf], ?_⟩
      cases me <;> simp [MdEvent.frame?] at hf <;>
        simp [MdEvent.invocation, MdEvent.flatArgs, hf]
    · simp at hinv
  · intro hf
    rw [trader_invocations_deliver]
    refine ⟨?_, fun h => by simp [h]⟩
    intro inv hinv
    split at hinv
    · simp only [List.mem_singleton] at hinv
      subst hinv
      refine ⟨by simp [trader_frameOf_invocation, hf], ?_⟩
      cases te <;> simp [TraderEvent.frame?] at hf <;>
        simp [TraderEvent.invocation, TraderEvent.flatArgs, hf]
    · simp at hinv

/-- Concrete instance, evaluated on explicit inputs. -/
theorem is_last_is_one_or_zero_witness :
    TraderEvent.frame? (.OnRspUserLogin 9 0 42 false) = some (42, false) ∧
    ((frameOf [.ptr 7, .ptr 9, .ptr 0, .int 42, .int 0]).map Prod.snd = some 0 ∧
      [CVal.ptr 7, .ptr 9, .ptr 0, .int 42, .int 0].getLast? = some (.int 0)) ∧
    (invocations
      ((⟨{ TraderSpiCallbacks.null 7 with on_rsp_user_login := 200 }⟩ : TraderSpiBridge).deliver
        DebugLogger.console (.OnRspUserLogin 9 0 42 false))).length = 1 :=
  ⟨rfl,
   ((is_last_is_one_or_zero DebugLogger.console ⟨MdSpiCallbacks.null 7⟩ (.OnRspError 0 42 false)
      ⟨{ TraderSpiCallbacks.null 7 with on_rsp_user_login := 200 }⟩
      (.OnRspUserLogin 9 0 42 false) 42 false).2 rfl).1
      (200, [.ptr 7, .ptr 9, .ptr 0, .int 42, .int 0]) (List.Mem.head _),
   ((is_last_is_one_or_zero DebugLogger.console ⟨MdSpiCallbacks.null 7⟩ (.OnRspError 0 42 false)
      ⟨{ TraderSpiCallbacks.null 7 with on_rsp_user_login := 200 }⟩
      (.OnRspUserLogin 9 0 42 false) 42 false).2 rfl).2 (by decide)⟩

/-- C9: for any finite sequence of events delivered one after another (in any
logger states) the callback invocations are exactly the events whose slot is
populated, in the same order, one invocation per event, each with the arguments
of its event (so with the same request id and final flag); hence, for every
request id N, if among the vendor responses for N any final response is the
last one, the same holds for the responses the caller receives for N. -/
theorem order_and_final_flag_preserved (N : Int)
    (mb : MdSpiBridge) (msteps : List (DebugLogger × MdEvent))
    (tb : TraderSpiBridge) (tsteps : List (DebugLogger × TraderEvent)) :
    invocations (mb.deliverAll msteps)
      = ((msteps.map Prod.snd).filter fun e => e.slot mb.callbacks ≠ 0).map
          (fun e => (e.slot mb.callbacks, .ptr mb.callbacks.user_data :: e.flatArgs)) ∧
    (WellFramed (finalsFor N ((msteps.map Prod.snd).map MdEvent.frame?)) →
      WellFramed (deliveredFinals N (invocations (mb.deliverAll msteps)))) ∧
    invocations (tb.deliverAll tsteps)
      = ((tsteps.map Prod.snd).filter fun e => e.slot tb.callbacks ≠ 0).map
          (fun e => (e.slot tb.callbacks, .ptr tb.callbacks.user_data :: e.flatArgs)) ∧
    (WellFramed (finalsFor N ((tsteps.map Prod.snd).map TraderEvent.frame?)) →
      WellFramed (deliveredFinals N (invocations (tb.deliverAll tsteps)))) := by
  refine ⟨md_invocations_deliverAll mb msteps, ?_,
    trader_invocations_deliverAll tb tsteps, ?_⟩
  · intro hw
    rw [md_deliveredFinals_deliverAll]
    exact WellFramed_sublist (finalsFor_filter_sublist N _ _ _) hw
  · intro hw
    rw [trader_deliveredFinals_deliverAll]
    exact WellFramed_sublist (finalsFor_filter_sublist N _ _ _) hw

/-- Concrete instance, evaluated on explicit inputs. -/
theorem order_and_final_flag_preserved_witness :
    WellFramed (finalsFor 42
      (([(DebugLogger.off, TraderEvent.OnRspQryTrade 11 0 42 false),
         (DebugLogger.console, TraderEvent.OnRspQryTrade 12 0 42 true)].map Prod.snd).map
        TraderEvent.frame?)) ∧
    WellFramed (deliveredFinals 42 (invocations
      ((⟨{ TraderSpiCallbacks.null 7 with on_rsp_qry_trade := 400 }⟩ : TraderSpiBridge).deliverAll
        [(DebugLogger.off, .OnRspQryTrade 11 0 42 false),
         (DebugLogger.console, .OnRspQryTrade 12 0 42 true)]))) :=
  ⟨WellFramed_false_true,
   (order_and_final_flag_preserved 42 ⟨MdSpiCallbacks.null 7⟩ []
      ⟨{ TraderSpiCallbacks.null 7 with on_rsp_qry_trade := 400 }⟩
      [(DebugLogger.off, .OnRspQryTrade 11 0 42 false),
       (DebugLogger.console, .OnRspQryTrade 12 0 42 true)]).2.2.2 WellFramed_false_true⟩

/-- C10 (counterexample): with logging disabled and a table whose entries are all
null, OnFrontConnected writes a line to the console; so a null entry is not
always a silent no-op. -/
theorem null_slot_not_silent :
    MdEvent.slot (MdSpiCallbacks.null 0) .OnFrontConnected = 0 ∧
    (⟨MdSpiCallbacks.null 0⟩ : MdSpiBridge).deliver DebugLogger.off .OnFrontConnected
      = [.cout "[MdSpiBridge] ❌ on_front_connected回调为空!"] ∧
    ¬ (∀ (lg : DebugLogger) (b : MdSpiBridge) (e : MdEvent), e.slot b.callbacks = 0 →
        ∀ x ∈ b.deliver lg e, x.isOutput = false) := by
  refine ⟨rfl, rfl, ?_⟩
  intro h
  have h1 := h DebugLogger.off ⟨MdSpiCallbacks.null 0⟩ .OnFrontConnected rfl
    (.cout "[MdSpiBridge] ❌ on_front_connected回调为空!") (List.Mem.head _)
  simp [Effect.isOutput] at h1

/-- C10 (amended): when the table entry of an event is null, no callback is
invoked; the methods without a logging statement (all but OnFrontConnected,
OnRspUserLogin, OnRtnDepthMarketData, OnRtnOrder, OnRtnTrade) write nothing in
any logger state; every method other than OnFrontConnected writes nothing when
logging is disabled; OnFrontConnected writes its console line in every logger
state. -/
theorem null_slot_behaviour (lg : DebugLogger) (mb : MdSpiBridge) (me : MdEvent)
    (tb : TraderSpiBridge) (te : TraderEvent) :
    (me.slot mb.callbacks = 0 →
      invocations (mb.deliver lg me) = [] ∧
      (me.logs = false → mb.deliver lg me = []) ∧
      (lg.enabled_ = false → me ≠ .OnFrontConnected → mb.deliver lg me = []) ∧
      (me = .OnFrontConnected →
        .cout "[MdSpiBridge] ❌ on_front_connected回调为空!" ∈ mb.deliver lg me)) ∧
    (te.slot tb.callbacks = 0 →
      invocations (tb.deliver lg te) = [] ∧
      (te.logs = false → tb.deliver lg te = []) ∧
      (lg.enabled_ = false → te ≠ .OnFrontConnected → tb.deliver lg te = []) ∧
      (te = .OnFrontConnected →
        .cout "[TraderSpiBridge] ❌ on_front_connected回调为空!" ∈ tb.deliver lg te)) := by
  constructor
  · intro h
    refine ⟨by rw [md_invocations_deliver]; simp [h], ?_, ?_, ?_⟩
    · intro hl
      cases me <;> simp [MdEvent.logs] at hl <;> simp only [MdEvent.slot] at h <;>
        simp [MdSpiBridge.deliver, h,
    MdSpiBridge.OnFrontConnected, MdSpiBridge.OnFrontDisconnected,
    MdSpiBridge.OnHeartBeatWarning, MdSpiBridge.OnRspUserLogin, MdSpiBridge.OnRspUserLogout,
    MdSpiBridge.OnRspError, MdSpiBridge.OnRspSubMarketData, MdSpiBridge.OnRspUnSubMarketData,
    MdSpiBridge.OnRtnDepthMarketData, MdSpiBridge.OnRtnForQuoteRsp]
    · intro hd hne
      cases me <;> simp only [MdEvent.slot] at h <;>
        simp [MdSpiBridge.deliver, h, CTP_DEBUG_disabled lg hd,
    MdSpiBridge.OnFrontConnected, MdSpiBridge.OnFrontDisconnected,
    MdSpiBridge.OnHeartBeatWarning, MdSpiBridge.OnRspUserLogin, MdSpiBridge.OnRspUserLogout,
    MdSpiBridge.OnRspError, MdSpiBridge.OnRspSubMarketData, MdSpiBridge.OnRspUnSubMarketData,
    MdSpiBridge.OnRtnDepthMarketData, MdSpiBridge.OnRtnForQuoteRsp] at hne ⊢
    · intro he
      subst he
      simp only [MdEvent.slot] at h
      simp [MdSpiBridge.deliver, MdSpiBridge.OnFrontConnected, h]
  · intro h
    refine ⟨by rw [trader_invocations_deliver]; simp [h], ?_, ?_, ?_⟩
    · intro hl
      cases te <;> simp [TraderEvent.logs] at hl <;> simp only [TraderEvent.slot] at h <;>
        simp [TraderSpiBridge.deliver, h,
    TraderSpiBridge.OnFrontConnected, TraderSpiBridge.OnFrontDisconnected,
    TraderSpiBridge.OnHeartBeatWarning, TraderSpiBridge.OnRspAuthenticate,
    TraderSpiBridge.OnRspUserLogin, TraderSpiBridge.OnRspUserLogout, TraderSpiBridge.OnRspError,
    TraderSpiBridge.OnRspOrderInsert, TraderSpiBridge.OnRspOrderAction,
    TraderSpiBridge.OnRtnOrder, TraderSpiBridge.OnRtnTrade,
    TraderSpiBridge.OnRspQryTradingAccount, TraderSpiBridge.OnRspQryInvestorPosition,
    TraderSpiBridge.OnErrRtnOrderInsert, TraderSpiBridge.OnErrRtnOrderAction,
    TraderSpiBridge.OnRspQryOrder, TraderSpiBridge.OnRspQryTrade,
    TraderSpiBridge.OnRspQryInstrument, TraderSpiBridge.OnRspQryInstrumentMarginRate,
    TraderSpiBridge.OnRspQryInstrumentCommissionRate, TraderSpiBridge.OnRspQryExchange,
    TraderSpiBridge.OnRspQryProduct, TraderSpiBridge.OnRspSettlementInfoConfirm,
    TraderSpiBridge.OnRspParkedOrderInsert, TraderSpiBridge.OnRspParkedOrderAction,
    TraderSpiBridge.OnRspExecOrderInsert, TraderSpiBridge.OnRspExecOrderAction,
    TraderSpiBridge.OnRspForQuoteInsert, TraderSpiBridge.OnRspQuoteInsert,
    TraderSpiBridge.OnRspQuoteAction, TraderSpiBridge.OnRspBatchOrderAction,
    TraderSpiBridge.OnRspRemoveParkedOrder, TraderSpiBridge.OnRspRemoveParkedOrderAction,
    TraderSpiBridge.OnRspQryMaxOrderVolume, TraderSpiBridge.OnRspQryDepthMarketData,
    TraderSpiBridge.OnRspQrySettlementInfo, TraderSpiBridge.OnRspQryTransferBank,
    TraderSpiBridge.OnRspQryInvestorPositionDetail, TraderSpiBridge.OnRspQryNotice]
    · intro hd hne
      cases te <;> simp only [TraderEvent.slot] at h <;>
        simp [TraderSpiBridge.deliver, h, CTP_DEBUG_disabled lg hd,
    TraderSpiBridge.OnFrontConnected, TraderSpiBridge.OnFrontDisconnected,
    TraderSpiBridge.OnHeartBeatWarning, TraderSpiBridge.OnRspAuthenticate,
    TraderSpiBridge.OnRspUserLogin, TraderSpiBridge.OnRspUserLogout, TraderSpiBridge.OnRspError,
    TraderSpiBridge.OnRspOrderInsert, TraderSpiBridge.OnRspOrderAction,
    TraderSpiBridge.OnRtnOrder, TraderSpiBridge.OnRtnTrade,
    TraderSpiBridge.OnRspQryTradingAccount, TraderSpiBridge.OnRspQryInvestorPosition,
    TraderSpiBridge.OnErrRtnOrderInsert, TraderSpiBridge.OnErrRtnOrderAction,
    TraderSpiBridge.OnRspQryOrder, TraderSpiBridge.OnRspQryTrade,
    TraderSpiBridge.OnRspQryInstrument, TraderSpiBridge.OnRspQryInstrumentMarginRate,
    TraderSpiBridge.OnRspQryInstrumentCommissionRate, TraderSpiBridge.OnRspQryExchange,
    TraderSpiBridge.OnRspQryProduct, TraderSpiBridge.OnRspSettlementInfoConfirm,
    TraderSpiBridge.OnRspParkedOrderInsert, TraderSpiBridge.OnRspParkedOrderAction,
    TraderSpiBridge.OnRspExecOrderInsert, TraderSpiBridge.OnRspExecOrderAction,
    TraderSpiBridge.OnRspForQuoteInsert, TraderSpiBridge.OnRspQuoteInsert,
    TraderSpiBridge.OnRspQuoteAction, TraderSpiBridge.OnRspBatchOrderAction,
    TraderSpiBridge.OnRspRemoveParkedOrder, TraderSpiBridge.OnRspRemoveParkedOrderAction,
    TraderSpiBridge.OnRspQryMaxOrderVolume, TraderSpiBridge.OnRspQryDepthMarketData,
    TraderSpiBridge.OnRspQrySettlementInfo, TraderSpiBridge.OnRspQryTransferBank,
    TraderSpiBridge.OnRspQryInvestorPositionDetail, TraderSpiBridge.OnRspQryNotice] at hne ⊢
    · intro he
      subst he
      simp only [TraderEvent.slot] at h
      simp [TraderSpiBridge.deliver, TraderSpiBridge.OnFrontConnected, h]

/-- Concrete instance, evaluated on explicit inputs. -/
theorem null_slot_behaviour_witness :
    (⟨MdSpiCallbacks.null 7⟩ : MdSpiBridge).deliver DebugLogger.console (.OnFrontDisconnected 3)
      = [] ∧
    (⟨TraderSpiCallbacks.null 7⟩ : TraderSpiBridge).deliver DebugLogger.off (.OnRtnOrder 11)
      = [] :=
  ⟨((null_slot_behaviour DebugLogger.console ⟨MdSpiCallbacks.null 7⟩ (.OnFrontDisconnected 3)
      ⟨TraderSpiCallbacks.null 7⟩ (.OnRtnOrder 11)).1 rfl).2.1 rfl,
   ((null_slot_behaviour DebugLogger.off ⟨MdSpiCallbacks.null 7⟩ (.OnFrontDisconnected 3)
      ⟨TraderSpiCallbacks.null 7⟩ (.OnRtnOrder 11)).2 rfl).2.2.1 rfl (by simp)⟩

/-! ## Reads through the pointers of an event -/

theorem consoleLog_append (s t : List Effect) :
    consoleLog (s ++ t) = consoleLog s ++ consoleLog t := by
  simp [consoleLog, List.filterMap_append]

theorem consoleLog_nil : consoleLog [] = [] := rfl

theorem consoleLog_vendor (c : VendorCall) (t : List Effect) :
    consoleLog (.vendor c :: t) = consoleLog t := rfl

theorem consoleLog_CTP_DEBUG (lg : DebugLogger) (f : String) (a : List FmtArg) :
    consoleLog (CTP_DEBUG lg f a) = if lg.enabled_ then [⟨f, a⟩] else [] := by
  unfold CTP_DEBUG DebugLogger.debug DebugLogger.isEnabled consoleLog
  cases lg.enabled_
  · rfl
  · simp only [if_true, Bool.not_true, Bool.false_eq_true, if_false]
    split <;> rfl

theorem derefs_append (s t : List Effect) : derefs (s ++ t) = derefs s ++ derefs t := by
  simp [derefs, consoleLog_append]

theorem stores_append (s t : List Effect) : stores (s ++ t) = stores s ++ stores t := by
  simp [stores, List.filterMap_append]

theorem stores_nil : stores [] = [] := rfl

theorem stores_invoke (fn : Ptr) (args : List CVal) (t : List Effect) :
    stores (.invoke fn args :: t) = stores t := rfl

theorem stores_cout (s : String) (t : List Effect) : stores (.cout s :: t) = stores t := rfl

theorem stores_ite (c : Prop) [Decidable c] (s t : List Effect) :
    stores (if c then s else t) = if c then stores s else stores t := by
  split <;> rfl

theorem stores_CTP_DEBUG (lg : DebugLogger) (f : String) (a : List FmtArg) :
    stores (CTP_DEBUG lg f a) = [] := by
  unfold CTP_DEBUG DebugLogger.debug stores
  split
  · split
    · rfl
    · split <;> rfl
  · rfl

theorem md_stores_deliver (lg : DebugLogger) (b : MdSpiBridge) (e : MdEvent) :
    stores (b.deliver lg e) = [] := by
  cases e <;>
  simp [MdSpiBridge.deliver, stores_append, stores_CTP_DEBUG, stores_ite, stores_nil,
    stores_invoke, stores_cout,
    MdSpiBridge.OnFrontConnected, MdSpiBridge.OnFrontDisconnected,
    MdSpiBridge.OnHeartBeatWarning, MdSpiBridge.OnRspUserLogin, MdSpiBridge.OnRspUserLogout,
    MdSpiBridge.OnRspError, MdSpiBridge.OnRspSubMarketData, MdSpiBridge.OnRspUnSubMarketData,
    MdSpiBridge.OnRtnDepthMarketData, MdSpiBridge.OnRtnForQuoteRsp]

theorem trader_stores_deliver (lg : DebugLogger) (b : TraderSpiBridge) (e : TraderEvent) :
    stores (b.deliver lg e) = [] := by
  cases e <;>
  simp [TraderSpiBridge.deliver, stores_append, stores_CTP_DEBUG, stores_ite, stores_nil,
    stores_invoke, stores_cout,
    TraderSpiBridge.OnFrontConnected, TraderSpiBridge.OnFrontDisconnected,
    TraderSpiBridge.OnHeartBeatWarning, TraderSpiBridge.OnRspAuthenticate,
    TraderSpiBridge.OnRspUserLogin, TraderSpiBridge.OnRspUserLogout, TraderSpiBridge.OnRspError,
    TraderSpiBridge.OnRspOrderInsert, TraderSpiBridge.OnRspOrderAction,
    TraderSpiBridge.OnRtnOrder, TraderSpiBridge.OnRtnTrade,
    TraderSpiBridge.OnRspQryTradingAccount, TraderSpiBridge.OnRspQryInvestorPosition,
    TraderSpiBridge.OnErrRtnOrderInsert, TraderSpiBridge.OnErrRtnOrderAction,
    TraderSpiBridge.OnRspQryOrder, TraderSpiBridge.OnRspQryTrade,
    TraderSpiBridge.OnRspQryInstrument, TraderSpiBridge.OnRspQryInstrumentMarginRate,
    TraderSpiBridge.OnRspQryInstrumentCommissionRate, TraderSpiBridge.OnRspQryExchange,
    TraderSpiBridge.OnRspQryProduct, TraderSpiBridge.OnRspSettlementInfoConfirm,
    TraderSpiBridge.OnRspParkedOrderInsert, TraderSpiBridge.OnRspParkedOrderAction,
    TraderSpiBridge.OnRspExecOrderInsert, TraderSpiBridge.OnRspExecOrderAction,
    TraderSpiBridge.OnRspForQuoteInsert, TraderSpiBridge.OnRspQuoteInsert,
    TraderSpiBridge.OnRspQuoteAction, TraderSpiBridge.OnRspBatchOrderAction,
    TraderSpiBridge.OnRspRemoveParkedOrder, TraderSpiBridge.OnRspRemoveParkedOrderAction,
    TraderSpiBridge.OnRspQryMaxOrderVolume, TraderSpiBridge.OnRspQryDepthMarketData,
    TraderSpiBridge.OnRspQrySettlementInfo, TraderSpiBridge.OnRspQryTransferBank,
    TraderSpiBridge.OnRspQryInvestorPositionDetail, TraderSpiBridge.OnRspQryNotice]

theorem md_step_fixed (lg : DebugLogger) (b : MdSpiBridge) (e : MdEvent) :
    b.step lg e = (b, b.deliver lg e) := by
  simp only [MdSpiBridge.step, md_stores_deliver, List.foldl_nil]

theorem trader_step_fixed (lg : DebugLogger) (b : TraderSpiBridge) (e : TraderEvent) :
    b.step lg e = (b, b.deliver lg e) := by
  simp only [TraderSpiBridge.step, trader_stores_deliver, List.foldl_nil]

theorem store_is_applied :
    (stores [.cout "x", .store "on_rsp_error" 0]).foldl (fun t a => t.store a.1 a.2)
        { MdSpiCallbacks.null 7 with on_rsp_error := 300 } = MdSpiCallbacks.null 7 ∧
    (stores [.store "on_rtn_order" 300]).foldl (fun t a => t.store a.1 a.2)
        (TraderSpiCallbacks.null 7) = { TraderSpiCallbacks.null 7 with on_rtn_order := 300 } := by
  constructor <;> rfl

theorem md_run_bridge (w : MdWorld) (acts : List MdAction) :
    (w.run acts).1.bridge = w.bridge ∧
    (w.run acts).2 = w.bridge.deliverAll (MdAction.events acts) := by
  induction acts generalizing w with
  | nil => exact ⟨rfl, rfl⟩
  | cons a rest ih =>
    cases a with
    | event lg e =>
      have h := ih ({ w with bridge := w.bridge })
      simp only [MdWorld.run, MdWorld.act, MdAction.events, MdSpiBridge.deliverAll,
        md_step_fixed]
      exact ⟨h.1, by rw [h.2]⟩
    | callerStore t =>
      have h := ih ({ w with callerTable := t })
      simp only [MdWorld.run, MdWorld.act, MdAction.events, List.nil_append]
      exact h

theorem trader_run_bridge (w : TraderWorld) (acts : List TraderAction) :
    (w.run acts).1.bridge = w.bridge ∧
    (w.run acts).2 = w.bridge.deliverAll (TraderAction.events acts) := by
  induction acts generalizing w with
  | nil => exact ⟨rfl, rfl⟩
  | cons a rest ih =>
    cases a with
    | event lg e =>
      have h := ih ({ w with bridge := w.bridge })
      simp only [TraderWorld.run, TraderWorld.act, TraderAction.events,
        TraderSpiBridge.deliverAll, trader_step_fixed]
      exact ⟨h.1, by rw [h.2]⟩
    | callerStore t =>
      have h := ih ({ w with callerTable := t })
      simp only [TraderWorld.run, TraderWorld.act, TraderAction.events, List.nil_append]
      exact h

/-- C12: the adapter holds the table of the caller as it was at construction.
The body of no event method of either adapter assigns to a field of the member
callbacks, for any event, arguments, table and logger state, so the adapter
after a method is the adapter before it. After any finite sequence of event
deliveries and of stores by the caller into its own table, the table of the
adapter is still the table given at construction, the effects are those of an
adapter on that table, and an entry that was null at construction is null. -/
theorem table_captured_by_value (t0 : MdSpiCallbacks) (acts : List MdAction)
    (u0 : TraderSpiCallbacks) (uacts : List TraderAction) :
    (∀ (b : MdSpiBridge) (lg : DebugLogger) (e : MdEvent),
      stores (b.deliver lg e) = [] ∧ (b.step lg e).1 = b) ∧
    (∀ (b : TraderSpiBridge) (lg : DebugLogger) (e : TraderEvent),
      stores (b.deliver lg e) = [] ∧ (b.step lg e).1 = b) ∧
    (∃ w0, MdWorld.create t0 = some w0 ∧ w0.bridge.callbacks = t0 ∧
      (w0.run acts).1.bridge.callbacks = t0 ∧
      (w0.run acts).2 = (⟨t0⟩ : MdSpiBridge).deliverAll (MdAction.events acts) ∧
      ∀ e : MdEvent, e.slot t0 = 0 → e.slot (w0.run acts).1.bridge.callbacks = 0) ∧
    (∃ w0, TraderWorld.create u0 = some w0 ∧ w0.bridge.callbacks = u0 ∧
      (w0.run uacts).1.bridge.callbacks = u0 ∧
      (w0.run uacts).2 = (⟨u0⟩ : TraderSpiBridge).deliverAll (TraderAction.events uacts) ∧
      ∀ e : TraderEvent, e.slot u0 = 0 → e.slot (w0.run uacts).1.bridge.callbacks = 0) := by
  refine ⟨fun b lg e => ⟨md_stores_deliver lg b e, by rw [md_step_fixed]⟩,
    fun b lg e => ⟨trader_stores_deliver lg b e, by rw [trader_step_fixed]⟩, ?_, ?_⟩
  · refine ⟨⟨t0, ⟨t0⟩⟩, rfl, rfl, ?_, ?_, ?_⟩
    · rw [(md_run_bridge _ acts).1]
    · rw [(md_run_bridge _ acts).2]
    · intro e he
      rw [(md_run_bridge _ acts).1]
      exact he
  · refine ⟨⟨u0, ⟨u0⟩⟩, rfl, rfl, ?_, ?_, ?_⟩
    · rw [(trader_run_bridge _ uacts).1]
    · rw [(trader_run_bridge _ uacts).2]
    · intro e he
      rw [(trader_run_bridge _ uacts).1]
      exact he

/-- Concrete instance, evaluated on explicit inputs. -/
theorem table_captured_by_value_witness :
    ∃ w0, MdWorld.create (MdSpiCallbacks.null 7) = some w0 ∧
      w0.bridge.callbacks = MdSpiCallbacks.null 7 ∧
      (w0.run [.callerStore { MdSpiCallbacks.null 7 with on_rsp_error := 300 },
          .event DebugLogger.off (.OnRspError 0 5 true)]).1.bridge.callbacks
        = MdSpiCallbacks.null 7 ∧
      (w0.run [.callerStore { MdSpiCallbacks.null 7 with on_rsp_error := 300 },
          .event DebugLogger.off (.OnRspError 0 5 true)]).2
        = (⟨MdSpiCallbacks.null 7⟩ : MdSpiBridge).deliverAll
            (MdAction.events [.callerStore { MdSpiCallbacks.null 7 with on_rsp_error := 300 },
              .event DebugLogger.off (.OnRspError 0 5 true)]) ∧
      ∀ e : MdEvent, e.slot (MdSpiCallbacks.null 7) = 0 →
        e.slot (w0.run [.callerStore { MdSpiCallbacks.null 7 with on_rsp_error := 300 },
          .event DebugLogger.off (.OnRspError 0 5 true)]).1.bridge.callbacks = 0 :=
  (table_captured_by_value (MdSpiCallbacks.null 7)
    [.callerStore { MdSpiCallbacks.null 7 with on_rsp_error := 300 },
      .event DebugLogger.off (.OnRspError 0 5 true)]
    (TraderSpiCallbacks.null 7) []).2.2.1

/-! ## The logger life cycle -/

/-- C13: cleanup leaves the logger disabled, with use_file false and no open
file, from every state; a second cleanup changes nothing; the call is total and
writes nothing. -/
theorem cleanup_idempotent (s : DebugLogger) :
    s.cleanup.enabled_ = false ∧ s.cleanup.use_file_ = false ∧
    s.cleanup.file_stream_ = none ∧
    s.cleanup.cleanup = s.cleanup ∧
    s.call .cleanup = (s.cleanup, [], []) ∧
    s.run [.cleanup, .cleanup] = (s.cleanup, [], []) := by
  obtain ⟨e, u, f⟩ := s
  cases f <;> simp [DebugLogger.cleanup, DebugLogger.call, DebugLogger.run]

/-- C15 (failing input): after init(true, "a.log") has opened the file,
init(false, null) only clears enabled: the file stays open and use_file stays
true. With enable_debug true the earlier file is closed. -/
theorem init_disabled_keeps_file_open :
    ((DebugLogger.off.init (fun _ => true) true (some "a.log")).1.init
        (fun _ => true) false none).1 = ⟨false, true, some "a.log"⟩ ∧
    ((DebugLogger.off.init (fun _ => true) true (some "a.log")).1.init
        (fun _ => true) true none).1 = ⟨true, false, none⟩ := by
  constructor <;> rfl

/-- C17: a disabled logger writes nothing. The initial state, every state after
cleanup and every state after init with enable_debug false are disabled; in a
disabled state a debug call and a CTP_DEBUG use write nothing and leave the
logger state as it was. -/
theorem disabled_logger_writes_nothing (s : DebugLogger) (canOpen : String → Bool)
    (log_file : Option String) (m : LogMsg) (format : String) (args : List FmtArg) :
    DebugLogger.off.enabled_ = false ∧
    s.cleanup.enabled_ = false ∧
    (s.init canOpen false log_file).1.enabled_ = false ∧
    (s.enabled_ = false →
      s.call (.debug m) = (s, [], []) ∧ s.debug m = [] ∧ CTP_DEBUG s format args = []) := by
  refine ⟨rfl, ?_, ?_, ?_⟩
  · obtain ⟨e, u, f⟩ := s
    cases f <;> simp [DebugLogger.cleanup]
  · simp [DebugLogger.init]
  · intro h
    simp [DebugLogger.call, DebugLogger.debug, CTP_DEBUG, DebugLogger.isEnabled, h]

/-- Concrete instance, evaluated on explicit inputs. -/
theorem disabled_logger_writes_nothing_witness :
    DebugLogger.call ⟨false, true, some "a.log"⟩ (.debug ⟨"x=%d", [.int 1]⟩)
      = (⟨false, true, some "a.log"⟩, [], []) :=
  ((disabled_logger_writes_nothing ⟨false, true, some "a.log"⟩ (fun _ => true) none
    ⟨"x=%d", [.int 1]⟩ "x=%d" [.int 1]).2.2.2 rfl).1

/-! ## The platform shim -/

theorem consoleLog_filter_CTP_DEBUG (lg : DebugLogger) (f : String) (a : List FmtArg) :
    (consoleLog (CTP_DEBUG lg f a)).filter LogMsg.isWarning
      = if lg.enabled_ ∧ LogMsg.isWarning ⟨f, a⟩ then [⟨f, a⟩] else [] := by
  rw [consoleLog_CTP_DEBUG]
  cases lg.enabled_ <;> cases h : LogMsg.isWarning ⟨f, a⟩ <;> simp [h]

theorem warnings_detect_version (lg : DebugLogger) (V : Vendor) (g : Globals) :
    (consoleLog (Common.detect_version lg V g).2).filter LogMsg.isWarning = [] ∧
    vendorCalls (Common.detect_version lg V g).2
      = if g.detected then [] else [⟨"CThostFtdcMdApi", "GetApiVersion", 0, []⟩] := by
  unfold Common.detect_version
  cases g.detected
  · simp only [Bool.not_false, if_true]
    split
    · refine ⟨?_, ?_⟩
      · rw [consoleLog_append, List.filter_append, consoleLog_filter_CTP_DEBUG]
        simp [consoleLog_vendor, consoleLog_nil, LogMsg.isWarning]
      · simp [vendorCalls_append, vendorCalls_vendor, vendorCalls_nil, vendorCalls_CTP_DEBUG]
    · exact ⟨rfl, rfl⟩
  · exact ⟨rfl, rfl⟩

/-- C18: the market-data factory of the common wrapper. The vendor factory is
always called, with the flow path unchanged and the UDP and multicast flags as
(flag != 0), that is 1 for every non-zero flag and 0 for the flag 0; a Linux
build also passes the production-mode flag as (flag != 0), any other build
drops it; the result of the factory is returned; and exactly one warning line
is logged when the build is not Linux, the flag is non-zero and logging is
enabled, none otherwise. -/
theorem md_factory_shim (bld : Build) (lg : DebugLogger) (V : Vendor) (g : Globals)
    (pszFlowPath : Ptr) (bIsUsingUdp bIsMulticast bIsProductionMode : Int) :
    ∃ c : VendorCall,
      c.cls = "CThostFtdcMdApi" ∧ c.method = "CreateFtdcMdApi" ∧
      c.self = 0 ∧
      c.args = (if bld.CTP_PLATFORM_LINUX then
          [.ptr pszFlowPath, .int (if bIsUsingUdp ≠ 0 then 1 else 0),
            .int (if bIsMulticast ≠ 0 then 1 else 0),
            .int (if bIsProductionMode ≠ 0 then 1 else 0)]
        else [.ptr pszFlowPath, .int (if bIsUsingUdp ≠ 0 then 1 else 0),
          .int (if bIsMulticast ≠ 0 then 1 else 0)]) ∧
      vendorCalls (Common.CThostFtdcMdApi_CreateFtdcMdApi bld lg V g pszFlowPath
          bIsUsingUdp bIsMulticast bIsProductionMode).2.trace
        = (if g.detected then [] else [⟨"CThostFtdcMdApi", "GetApiVersion", 0, []⟩]) ++ [c] ∧
      (Common.CThostFtdcMdApi_CreateFtdcMdApi bld lg V g pszFlowPath
          bIsUsingUdp bIsMulticast bIsProductionMode).2.ret = .ptr (V.ptr c) ∧
      (consoleLog (Common.CThostFtdcMdApi_CreateFtdcMdApi bld lg V g pszFlowPath
          bIsUsingUdp bIsMulticast bIsProductionMode).2.trace).filter LogMsg.isWarning
        = (if bld.CTP_PLATFORM_LINUX = false ∧ bIsProductionMode ≠ 0 ∧ lg.enabled_ = true then
            [⟨"警告: macOS版本不支持生产模式参数，已忽略", []⟩]
          else []) := by
  have hw : ∀ a, LogMsg.isWarning ⟨"警告: macOS版本不支持生产模式参数，已忽略", a⟩ = true :=
    fun _ => rfl
  have h1 : ∀ a, LogMsg.isWarning
      ⟨"创建MD API, flow_path=%s, udp=%d, multicast=%d, production=%d", a⟩ = false :=
    fun _ => rfl
  have h2 : ∀ a, LogMsg.isWarning ⟨"使用Linux版本4参数API创建MD API", a⟩ = false := fun _ => rfl
  have h3 : ∀ a, LogMsg.isWarning ⟨"使用macOS版本3参数API创建MD API", a⟩ = false := fun _ => rfl
  have h4 : ∀ a, LogMsg.isWarning ⟨"MD API创建完成, api指针=%p", a⟩ = false := fun _ => rfl
  have hd := warnings_detect_version lg V g
  obtain ⟨lnx, mac⟩ := bld
  cases lnx
  · have ht : (Common.CThostFtdcMdApi_CreateFtdcMdApi ⟨false, mac⟩ lg V g pszFlowPath
          bIsUsingUdp bIsMulticast bIsProductionMode).2.trace
        = (Common.detect_version lg V g).2 ++
          CTP_DEBUG lg "创建MD API, flow_path=%s, udp=%d, multicast=%d, production=%d"
            [if pszFlowPath ≠ 0 then .cstr pszFlowPath else .str "null",
              .int bIsUsingUdp, .int bIsMulticast, .int bIsProductionMode] ++
          [.vendor ⟨"CThostFtdcMdApi", "CreateFtdcMdApi", 0,
            [.ptr pszFlowPath, boolArg bIsUsingUdp, boolArg bIsMulticast]⟩] ++
          (if bIsProductionMode ≠ 0 then
            CTP_DEBUG lg "警告: macOS版本不支持生产模式参数，已忽略" []
          else []) ++
          CTP_DEBUG lg "使用macOS版本3参数API创建MD API" [] ++
          CTP_DEBUG lg "MD API创建完成, api指针=%p"
            [.ptr (V.ptr ⟨"CThostFtdcMdApi", "CreateFtdcMdApi", 0,
              [.ptr pszFlowPath, boolArg bIsUsingUdp, boolArg bIsMulticast]⟩)] := rfl
    refine ⟨⟨"CThostFtdcMdApi", "CreateFtdcMdApi", 0,
      [.ptr pszFlowPath, boolArg bIsUsingUdp, boolArg bIsMulticast]⟩, rfl, rfl, rfl, rfl, ?_, rfl, ?_⟩
    · rw [ht]
      by_cases hp : bIsProductionMode = 0 <;>
        simp [hp, vendorCalls_append, vendorCalls_vendor, vendorCalls_nil,
          vendorCalls_CTP_DEBUG, hd.2]
    · rw [ht]
      simp only [consoleLog_append, List.filter_append, consoleLog_filter_CTP_DEBUG, hd.1,
        h1, h3, h4, consoleLog_vendor, consoleLog_nil]
      by_cases hp : bIsProductionMode = 0 <;> cases he : lg.enabled_ <;>
        simp [hp, he, hw, consoleLog_filter_CTP_DEBUG, consoleLog_nil]
  · have ht : (Common.CThostFtdcMdApi_CreateFtdcMdApi ⟨true, mac⟩ lg V g pszFlowPath
          bIsUsingUdp bIsMulticast bIsProductionMode).2.trace
        = (Common.detect_version lg V g).2 ++
          CTP_DEBUG lg "创建MD API, flow_path=%s, udp=%d, multicast=%d, production=%d"
            [if pszFlowPath ≠ 0 then .cstr pszFlowPath else .str "null",
              .int bIsUsingUdp, .int bIsMulticast, .int bIsProductionMode] ++
          [.vendor ⟨"CThostFtdcMdApi", "CreateFtdcMdApi", 0,
            [.ptr pszFlowPath, boolArg bIsUsingUdp, boolArg bIsMulticast,
              boolArg bIsProductionMode]⟩] ++
          CTP_DEBUG lg "使用Linux版本4参数API创建MD API" [] ++
          CTP_DEBUG lg "MD API创建完成, api指针=%p"
            [.ptr (V.ptr ⟨"CThostFtdcMdApi", "CreateFtdcMdApi", 0,
              [.ptr pszFlowPath, boolArg bIsUsingUdp, boolArg bIsMulticast,
                boolArg bIsProductionMode]⟩)] := rfl
    refine ⟨⟨"CThostFtdcMdApi", "CreateFtdcMdApi", 0,
      [.ptr pszFlowPath, boolArg bIsUsingUdp, boolArg bIsMulticast,
        boolArg bIsProductionMode]⟩, rfl, rfl, rfl, rfl, ?_, rfl, ?_⟩
    · rw [ht]
      simp [vendorCalls_append, vendorCalls_vendor, vendorCalls_nil, vendorCalls_CTP_DEBUG,
        hd.2]
    · rw [ht]
      simp only [consoleLog_append, List.filter_append, consoleLog_filter_CTP_DEBUG, hd.1,
        h1, h2, h4, consoleLog_vendor, consoleLog_nil]
      simp

/-- Concrete instance, evaluated on explicit inputs. -/
theorem md_factory_shim_witness :
    (consoleLog (Common.CThostFtdcMdApi_CreateFtdcMdApi ⟨false, true⟩ DebugLogger.console
        Vendor.zero Globals.initial 0 0 0 1).2.trace).filter LogMsg.isWarning
      = [⟨"警告: macOS版本不支持生产模式参数，已忽略", []⟩] ∧
    (consoleLog (Common.CThostFtdcMdApi_CreateFtdcMdApi ⟨true, false⟩ DebugLogger.console
        Vendor.zero Globals.initial 0 0 0 1).2.trace).filter LogMsg.isWarning = [] ∧
    vendorCalls (Common.CThostFtdcMdApi_CreateFtdcMdApi ⟨true, false⟩ DebugLogger.off
        Vendor.zero ⟨0, true⟩ 9 5 0 (-2)).2.trace
      = [⟨"CThostFtdcMdApi", "CreateFtdcMdApi", 0, [.ptr 9, .int 1, .int 0, .int 1]⟩] ∧
    vendorCalls (Common.CThostFtdcMdApi_CreateFtdcMdApi ⟨false, true⟩ DebugLogger.off
        Vendor.zero ⟨0, true⟩ 9 5 0 (-2)).2.trace
      = [⟨"CThostFtdcMdApi", "CreateFtdcMdApi", 0, [.ptr 9, .int 1, .int 0]⟩] := by
  refine ⟨?_, ?_, ?_, ?_⟩
  · obtain ⟨c, -, -, -, -, -, -, h⟩ := md_factory_shim ⟨false, true⟩ DebugLogger.console
      Vendor.zero Globals.initial 0 0 0 1
    exact h
  · obtain ⟨c, -, -, -, -, -, -, h⟩ := md_factory_shim ⟨true, false⟩ DebugLogger.console
      Vendor.zero Globals.initial 0 0 0 1
    exact h
  · obtain ⟨c, h1, h2, h3, h4, h5, -, -⟩ := md_factory_shim ⟨true, false⟩ DebugLogger.off
      Vendor.zero ⟨0, true⟩ 9 5 0 (-2)
    obtain ⟨cls, method, self, args⟩ := c
    simp only at h1 h2 h3 h4
    subst h1 h2 h3 h4
    rw [h5]
    decide
  · obtain ⟨c, h1, h2, h3, h4, h5, -, -⟩ := md_factory_shim ⟨false, true⟩ DebugLogger.off
      Vendor.zero ⟨0, true⟩ 9 5 0 (-2)
    obtain ⟨cls, method, self, args⟩ := c
    simp only at h1 h2 h3 h4
    subst h1 h2 h3 h4
    rw [h5]
    decide

/-- C19 (counterexample): on a Linux build of the common wrapper, with logging
enabled and the vendor accepting the call, CThostFtdcTraderApi_ReqUserLogin
logs nothing at all, so there is no warning line; no build logs exactly one. -/
theorem login_logs_no_warning :
    (Common.exec ⟨true, false⟩ DebugLogger.console Vendor.zero
        (.CThostFtdcTraderApi_ReqUserLogin 1 5 42)).trace
      = [.vendor ⟨"CThostFtdcTraderApi", "ReqUserLogin", 1, [.ptr 5, .int 42]⟩] ∧
    (Common.exec ⟨true, false⟩ DebugLogger.console Vendor.zero
        (.CThostFtdcTraderApi_ReqUserLogin 1 5 42)).ret = .int 0 ∧
    ¬ (∃ bld : Build,
        ((consoleLog (Common.exec bld DebugLogger.console Vendor.zero
          (.CThostFtdcTraderApi_ReqUserLogin 1 5 42)).trace).filter
            LogMsg.isWarning).length = 1) := by
  refine ⟨rfl, rfl, ?_⟩
  rintro ⟨⟨lnx, mac⟩, h⟩
  cases lnx <;> cases mac <;> revert h <;> decide

/-- C19 (amended): CThostFtdcTraderApi_ReqUserLogin on a non-null handle returns
the status of the vendor call, so a non-negative status when the vendor accepts
it, and logs no warning line on any build: the common wrapper logs nothing for
it, and the Linux wrapper logs, when logging is enabled, the two lines for the
start and the completion of the request, neither of them a warning. -/
theorem login_status_and_log_lines (bld : Build) (lg : DebugLogger) (V : Vendor)
    (api pReqUserLoginField : Ptr) (nRequestID : Int) (h : api ≠ 0) :
    (∃ c, vendorCalls (Common.exec bld lg V
          (.CThostFtdcTraderApi_ReqUserLogin api pReqUserLoginField nRequestID)).trace = [c] ∧
      (Common.exec bld lg V
          (.CThostFtdcTraderApi_ReqUserLogin api pReqUserLoginField nRequestID)).ret
        = .int (V.int c) ∧
      consoleLog (Common.exec bld lg V
          (.CThostFtdcTraderApi_ReqUserLogin api pReqUserLoginField nRequestID)).trace = []) ∧
    (∃ c, vendorCalls (Linux.exec lg V
          (.CThostFtdcTraderApi_ReqUserLogin api pReqUserLoginField nRequestID)).trace = [c] ∧
      (Linux.exec lg V
          (.CThostFtdcTraderApi_ReqUserLogin api pReqUserLoginField nRequestID)).ret
        = .int (V.int c) ∧
      consoleLog (Linux.exec lg V
          (.CThostFtdcTraderApi_ReqUserLogin api pReqUserLoginField nRequestID)).trace
        = (if lg.enabled_ then
            [⟨"Trader用户登录请求开始, api=%p, request_id=%d", [.ptr api, .int nRequestID]⟩,
             ⟨"Trader用户登录请求完成, request_id=%d, 返回值=%d",
               [.int nRequestID, .int (V.int c)]⟩]
          else []) ∧
      (consoleLog (Linux.exec lg V
          (.CThostFtdcTraderApi_ReqUserLogin api pReqUserLoginField nRequestID)).trace).filter
        LogMsg.isWarning = []) := by
  have hs : ∀ a, LogMsg.isWarning ⟨"Trader用户登录请求开始, api=%p, request_id=%d", a⟩ = false :=
    fun _ => rfl
  have hf : ∀ a, LogMsg.isWarning ⟨"Trader用户登录请求完成, request_id=%d, 返回值=%d", a⟩ = false :=
    fun _ => rfl
  obtain ⟨lnx, mac⟩ := bld
  constructor
  · cases mac <;>
      simp only [Common.exec, if_pos h, callInt, vendorCalls_vendor, vendorCalls_nil,
        Bool.false_eq_true, if_false, if_true] <;>
      exact ⟨_, rfl, rfl, rfl⟩
  · simp only [Linux.exec, if_pos h, vendorCalls_append, vendorCalls_vendor, vendorCalls_nil,
      vendorCalls_CTP_DEBUG, List.nil_append, List.append_nil, consoleLog_append,
      consoleLog_vendor, consoleLog_nil, consoleLog_CTP_DEBUG, List.filter_append]
    refine ⟨_, rfl, rfl, ?_, ?_⟩
    · cases lg.enabled_ <;> rfl
    · cases lg.enabled_ <;> simp [hs, hf]

/-- Concrete instance, evaluated on explicit inputs. -/
theorem login_status_and_log_lines_witness :
    ∃ c, vendorCalls (Common.exec ⟨false, true⟩ DebugLogger.console Vendor.zero
          (.CThostFtdcTraderApi_ReqUserLogin 1 5 42)).trace = [c] ∧
      (Common.exec ⟨false, true⟩ DebugLogger.console Vendor.zero
          (.CThostFtdcTraderApi_ReqUserLogin 1 5 42)).ret = .int (Vendor.zero.int c) ∧
      consoleLog (Common.exec ⟨false, true⟩ DebugLogger.console Vendor.zero
          (.CThostFtdcTraderApi_ReqUserLogin 1 5 42)).trace = [] :=
  (login_status_and_log_lines ⟨false, true⟩ DebugLogger.console Vendor.zero 1 5 42
    (by decide)).1

/-- C20: on a macOS build CThostFtdcTraderApi_ReqUserLogin on a non-null handle
calls the four-argument vendor login with the login field and request id of
the caller, system-info length 0 and an empty system-info string; on any other
build, and in the Linux wrapper, it calls the two-argument login with the same
field and request id; in each case that is the only vendor call and its result
is returned. The flat call has the same arguments on every build. -/
theorem trader_login_shim (bld : Build) (lg : DebugLogger) (V : Vendor)
    (api pReqUserLoginField : Ptr) (nRequestID : Int) (h : api ≠ 0) :
    (bld.CTP_PLATFORM_MACOS = true →
      Common.exec bld lg V (.CThostFtdcTraderApi_ReqUserLogin api pReqUserLoginField nRequestID)
        = ⟨.int (V.int ⟨"CThostFtdcTraderApi", "ReqUserLogin", api,
              [.ptr pReqUserLoginField, .int nRequestID, .int 0, .lit ""]⟩),
            [.vendor ⟨"CThostFtdcTraderApi", "ReqUserLogin", api,
              [.ptr pReqUserLoginField, .int nRequestID, .int 0, .lit ""]⟩]⟩) ∧
    (bld.CTP_PLATFORM_MACOS = false →
      Common.exec bld lg V (.CThostFtdcTraderApi_ReqUserLogin api pReqUserLoginField nRequestID)
        = ⟨.int (V.int ⟨"CThostFtdcTraderApi", "ReqUserLogin", api,
              [.ptr pReqUserLoginField, .int nRequestID]⟩),
            [.vendor ⟨"CThostFtdcTraderApi", "ReqUserLogin", api,
              [.ptr pReqUserLoginField, .int nRequestID]⟩]⟩) ∧
    vendorCalls (Linux.exec lg V
        (.CThostFtdcTraderApi_ReqUserLogin api pReqUserLoginField nRequestID)).trace
      = [⟨"CThostFtdcTraderApi", "ReqUserLogin", api,
          [.ptr pReqUserLoginField, .int nRequestID]⟩] ∧
    (Linux.exec lg V (.CThostFtdcTraderApi_ReqUserLogin api pReqUserLoginField nRequestID)).ret
      = .int (V.int ⟨"CThostFtdcTraderApi", "ReqUserLogin", api,
          [.ptr pReqUserLoginField, .int nRequestID]⟩) := by
  refine ⟨?_, ?_, ?_, ?_⟩
  · intro hm
    simp only [Common.exec, if_pos h, hm, if_true, callInt]
  · intro hm
    simp only [Common.exec, if_pos h, hm, Bool.false_eq_true, if_false, callInt]
  · simp only [Linux.exec, if_pos h, vendorCalls_append, vendorCalls_vendor, vendorCalls_nil,
      vendorCalls_CTP_DEBUG, List.nil_append, List.append_nil]
  · simp only [Linux.exec, if_pos h]

/-- Concrete instance, evaluated on explicit inputs. -/
theorem trader_login_shim_witness :
    Common.exec ⟨false, true⟩ DebugLogger.console Vendor.zero
        (.CThostFtdcTraderApi_ReqUserLogin 1 5 42)
      = ⟨.int 0, [.vendor ⟨"CThostFtdcTraderApi", "ReqUserLogin", 1,
          [.ptr 5, .int 42, .int 0, .lit ""]⟩]⟩ ∧
    Common.exec ⟨true, false⟩ DebugLogger.console Vendor.zero
        (.CThostFtdcTraderApi_ReqUserLogin 1 5 42)
      = ⟨.int 0, [.vendor ⟨"CThostFtdcTraderApi", "ReqUserLogin", 1,
          [.ptr 5, .int 42]⟩]⟩ :=
  ⟨(trader_login_shim ⟨false, true⟩ DebugLogger.console Vendor.zero 1 5 42 (by decide)).1 rfl,
   (trader_login_shim ⟨true, false⟩ DebugLogger.console Vendor.zero 1 5 42 (by decide)).2.1 rfl⟩

/-! ## Collection parameters -/

/-- C21: for the four subscription functions and every non-null handle, both
wrappers perform exactly one effect, the vendor method of the same name on the
handle with the array pointer and the count of the caller as its arguments,
unchanged; they read through no pointer themselves and return the result of
the vendor. -/
theorem subscription_forwarding (bld : Build) (lg : DebugLogger) (V : Vendor) (c : FlatCall)
    (pp : Ptr) (n : Int) (hs : c.subscription? = some (pp, n)) (hh : c.handle ≠ 0) :
    ∃ vc, (Common.exec bld lg V c).trace = [.vendor vc] ∧
      (Linux.exec lg V c).trace = [.vendor vc] ∧
      vc.cls ++ "_" ++ vc.method = c.name ∧ vc.self = c.handle ∧
      vc.args = [.ptr pp, .int n] ∧
      (Common.exec bld lg V c).ret = .int (V.int vc) ∧
      (Linux.exec lg V c).ret = .int (V.int vc) ∧
      derefs (Common.exec bld lg V c).trace = [] ∧
      derefs (Linux.exec lg V c).trace = [] := by
  cases c <;>
    simp only [FlatCall.subscription?, Option.some.injEq, Prod.mk.injEq, reduceCtorEq] at hs <;>
    obtain ⟨rfl, rfl⟩ := hs <;>
    simp only [FlatCall.handle] at hh <;>
    simp only [Common.exec, Linux.exec, if_pos hh, callInt, FlatCall.name, FlatCall.handle] <;>
    exact ⟨_, rfl, rfl, rfl, rfl, rfl, rfl, rfl, rfl, rfl⟩

/-- Concrete instance, evaluated on explicit inputs. -/
theorem subscription_forwarding_witness :
    ∃ vc, (Common.exec ⟨false, true⟩ DebugLogger.console Vendor.zero
        (.CThostFtdcMdApi_SubscribeMarketData 9 40 3)).trace = [.vendor vc] ∧
      (Linux.exec DebugLogger.console Vendor.zero
        (.CThostFtdcMdApi_SubscribeMarketData 9 40 3)).trace = [.vendor vc] ∧
      vc.cls ++ "_" ++ vc.method
        = FlatCall.name (.CThostFtdcMdApi_SubscribeMarketData 9 40 3) ∧
      vc.self = FlatCall.handle (.CThostFtdcMdApi_SubscribeMarketData 9 40 3) ∧
      vc.args = [.ptr 40, .int 3] ∧
      (Common.exec ⟨false, true⟩ DebugLogger.console Vendor.zero
        (.CThostFtdcMdApi_SubscribeMarketData 9 40 3)).ret = .int (Vendor.zero.int vc) ∧
      (Linux.exec DebugLogger.console Vendor.zero
        (.CThostFtdcMdApi_SubscribeMarketData 9 40 3)).ret = .int (Vendor.zero.int vc) ∧
      derefs (Common.exec ⟨false, true⟩ DebugLogger.console Vendor.zero
        (.CThostFtdcMdApi_SubscribeMarketData 9 40 3)).trace = [] ∧
      derefs (Linux.exec DebugLogger.console Vendor.zero
        (.CThostFtdcMdApi_SubscribeMarketData 9 40 3)).trace = [] :=
  subscription_forwarding ⟨false, true⟩ DebugLogger.console Vendor.zero
    (.CThostFtdcMdApi_SubscribeMarketData 9 40 3) 40 3 rfl (by decide)

/-! ## The line written by debug -/

theorem debugLines_enabled (lg : DebugLogger) (vsnprintf : String → List FmtArg → Option String)
    (put_time : Int → String) (now_ms : Int) (file : Option String) (line : Int)
    (func : Option String) (format : String) (args : List FmtArg) (message : String)
    (he : lg.enabled_ = true) (hv : vsnprintf format args = some message) :
    lg.debugLines vsnprintf put_time now_ms file line func format args
      = (if lg.use_file_ = true ∧ lg.file_stream_.isSome = true then
          [(.file (lg.file_stream_.getD ""),
            "[" ++ DebugLogger.getCurrentTimestamp put_time now_ms ++ "] [DEBUG] [" ++
              DebugLogger.extractFileName file ++ ":" ++ toString line ++ "] " ++ message)]
        else []) ++
        [(.console,
          "[" ++ DebugLogger.getCurrentTimestamp put_time now_ms ++ "] [DEBUG] [" ++
            DebugLogger.extractFileName file ++ ":" ++ toString line ++ "] " ++ message)] := by
  have hs : ∀ a b c d : String,
      "[" ++ a ++ "] " ++ "[DEBUG] " ++ "[" ++ b ++ ":" ++ c ++ "] " ++ d
        = "[" ++ a ++ "] [DEBUG] [" ++ b ++ ":" ++ c ++ "] " ++ d := by
    intro a b c d
    have e1 : "] " ++ ("[DEBUG] " ++ "[") = "] [DEBUG] [" := by decide
    simp only [String.append_assoc]
    rw [← String.append_assoc "] " "[DEBUG] ", ← String.append_assoc ("] " ++ "[DEBUG] ") "["]
    rw [String.append_assoc "] " "[DEBUG] " "[", e1]
  obtain ⟨e, u, f⟩ := lg
  simp only at he
  subst he
  unfold DebugLogger.debugLines
  simp only [Bool.not_true, Bool.false_eq_true, if_false, hv, hs]
  cases u <;> cases f <;> simp

theorem debugLines_text (lg : DebugLogger) (vsnprintf : String → List FmtArg → Option String)
    (put_time : Int → String) (now_ms : Int) (file : Option String) (line : Int)
    (func : Option String) (format : String) (args : List FmtArg) (message : String)
    (he : lg.enabled_ = true) (hv : vsnprintf format args = some message) :
    ∀ w ∈ lg.debugLines vsnprintf put_time now_ms file line func format args,
      w.2 = "[" ++ DebugLogger.getCurrentTimestamp put_time now_ms ++ "] [DEBUG] [" ++
        DebugLogger.extractFileName file ++ ":" ++ toString line ++ "] " ++ message := by
  rw [debugLines_enabled lg vsnprintf put_time now_ms file line func format args message he hv]
  intro w hw
  split at hw <;> simp at hw <;> rcases hw with rfl | rfl <;> rfl

theorem debugLines_console_once (lg : DebugLogger)
    (vsnprintf : String → List FmtArg → Option String)
    (put_time : Int → String) (now_ms : Int) (file : Option String) (line : Int)
    (func : Option String) (format : String) (args : List FmtArg) (message : String)
    (he : lg.enabled_ = true) (hv : vsnprintf format args = some message) :
    ((lg.debugLines vsnprintf put_time now_ms file line func format args).filter
        fun w => w.1 = Sink.console).length = 1 := by
  rw [debugLines_enabled lg vsnprintf put_time now_ms file line func format args message he hv]
  split <;> simp

/-- C22: in the enabled state a debug call whose format vsnprintf accepts writes
one line, of the form "[" timestamp "] [DEBUG] [" basename ":" line "] "
message, where message is the expansion vsnprintf gives, basename is
extractFileName of the source path and line is the source line in decimal;
every copy written is that line, the console receives it exactly once, and
the function name has no influence. -/
theorem debug_line_format (lg : DebugLogger) (vsnprintf : String → List FmtArg → Option String)
    (put_time : Int → String) (now_ms : Int) (file : Option String) (line : Int)
    (func func2 : Option String) (format : String) (args : List FmtArg) (message : String)
    (he : lg.enabled_ = true) (hv : vsnprintf format args = some message) :
    (∀ w ∈ lg.debugLines vsnprintf put_time now_ms file line func format args,
      w.2 = "[" ++ DebugLogger.getCurrentTimestamp put_time now_ms ++ "] [DEBUG] [" ++
        DebugLogger.extractFileName file ++ ":" ++ toString line ++ "] " ++ message) ∧
    ((lg.debugLines vsnprintf put_time now_ms file line func format args).filter
        fun w => w.1 = Sink.console).length = 1 ∧
    lg.debugLines vsnprintf put_time now_ms file line func format args
      = lg.debugLines vsnprintf put_time now_ms file line func2 format args := by
  refine ⟨debugLines_text lg vsnprintf put_time now_ms file line func format args message he hv,
    debugLines_console_once lg vsnprintf put_time now_ms file line func format args message he hv,
    ?_⟩
  rw [debugLines_enabled lg vsnprintf put_time now_ms file line func format args message he hv,
    debugLines_enabled lg vsnprintf put_time now_ms file line func2 format args message he hv]

/-- Concrete instance, evaluated on explicit inputs. -/
theorem debug_line_format_witness :
    DebugLogger.debugLines ⟨true, true, some "a.log"⟩ (fun _ _ => some "request_id=42")
        (fun _ => "2026-10-30 18:00:05") 1793383205007 (some "wrapper/spi_bridge.cpp") 49
        (some "OnRspUserLogin") "request_id=%d" [.int 42]
      = DebugLogger.debugLines ⟨true, true, some "a.log"⟩ (fun _ _ => some "request_id=42")
        (fun _ => "2026-10-30 18:00:05") 1793383205007 (some "wrapper/spi_bridge.cpp") 49
        none "request_id=%d" [.int 42] ∧
    DebugLogger.debugLines ⟨true, true, some "a.log"⟩ (fun _ _ => some "request_id=42")
        (fun _ => "2026-10-30 18:00:05") 1793383205007 (some "wrapper/spi_bridge.cpp") 49
        (some "OnRspUserLogin") "request_id=%d" [.int 42]
      = [(.file "a.log", "[2026-10-30 18:00:05.007] [DEBUG] [spi_bridge.cpp:49] request_id=42"),
         (.console, "[2026-10-30 18:00:05.007] [DEBUG] [spi_bridge.cpp:49] request_id=42")] :=
  ⟨(debug_line_format ⟨true, true, some "a.log"⟩ (fun _ _ => some "request_id=42")
      (fun _ => "2026-10-30 18:00:05") 1793383205007 (some "wrapper/spi_bridge.cpp") 49
      (some "OnRspUserLogin") none "request_id=%d" [.int 42] "request_id=42" rfl rfl).2.2,
   by decide⟩

/-- C23 (counterexample): an enabled logger whose debug call is given a format
for which vsnprintf reports a negative length writes nothing: the console does
not receive a line, so not every debug call in the enabled state writes its
line exactly once to the console. -/
theorem rejected_format_writes_nothing :
    DebugLogger.console.enabled_ = true ∧
    DebugLogger.debugLines DebugLogger.console (fun _ _ => none)
        (fun _ => "2026-10-30 18:00:05") 1793383205007 (some "wrapper/spi_bridge.cpp") 49
        (some "OnRspUserLogin") "%lc" [.int (-1)] = [] ∧
    ((DebugLogger.debugLines DebugLogger.console (fun _ _ => none)
        (fun _ => "2026-10-30 18:00:05") 1793383205007 (some "wrapper/spi_bridge.cpp") 49
        (some "OnRspUserLogin") "%lc" [.int (-1)]).filter fun w => w.1 = Sink.console).length
      ≠ 1 := by
  decide

/-- C23 (amended): in the enabled state a debug call whose format vsnprintf
expands (it reports a non-negative length) writes its line exactly once to the
console, and exactly once to the log file when use_file is set and the stream
is open, to no file otherwise; all copies are the same text; without a file
sink the console is the only sink; the sinks are those of the member debug as
used by the wrappers. A call for which vsnprintf reports a negative length
writes nothing to any sink. -/
theorem debug_sinks (lg : DebugLogger) (vsnprintf : String → List FmtArg → Option String)
    (put_time : Int → String) (now_ms : Int) (file : Option String) (line : Int)
    (func : Option String) (format : String) (args : List FmtArg)
    (he : lg.enabled_ = true) :
    (vsnprintf format args = none →
      lg.debugLines vsnprintf put_time now_ms file line func format args = []) ∧
    (∀ message, vsnprintf format args = some message →
      ((lg.debugLines vsnprintf put_time now_ms file line func format args).filter
          fun w => w.1 = Sink.console).length = 1 ∧
      (∀ path, ((lg.debugLines vsnprintf put_time now_ms file line func format args).filter
          fun w => w.1 = Sink.file path).length
        = if lg.use_file_ = true ∧ lg.file_stream_ = some path then 1 else 0) ∧
      (∀ w1 ∈ lg.debugLines vsnprintf put_time now_ms file line func format args,
        ∀ w2 ∈ lg.debugLines vsnprintf put_time now_ms file line func format args,
          w1.2 = w2.2) ∧
      ((lg.use_file_ = false ∨ lg.file_stream_ = none) →
        (lg.debugLines vsnprintf put_time now_ms file line func format args).map Prod.fst
          = [.console]) ∧
      (lg.debugLines vsnprintf put_time now_ms file line func format args).map Prod.fst
        = (lg.debug ⟨format, args⟩).filterMap Effect.sink?) := by
  constructor
  · intro hn
    simp [DebugLogger.debugLines, he, hn]
  intro message hv
  have hf := debugLines_text lg vsnprintf put_time now_ms file line func format args
    message he hv
  refine ⟨debugLines_console_once lg vsnprintf put_time now_ms file line func format args
    message he hv, ?_, ?_, ?_, ?_⟩
  · intro path
    rw [debugLines_enabled lg vsnprintf put_time now_ms file line func format args message he hv]
    obtain ⟨e, u, f⟩ := lg
    cases u <;> cases f <;> simp
    next p =>
      by_cases hp : p = path <;> simp [hp]
  · intro w1 h1 w2 h2
    rw [hf w1 h1, hf w2 h2]
  · intro hn
    rw [debugLines_enabled lg vsnprintf put_time now_ms file line func format args message he hv]
    rcases hn with hn | hn <;> simp [hn]
  · rw [debugLines_enabled lg vsnprintf put_time now_ms file line func format args message he hv]
    obtain ⟨e, u, f⟩ := lg
    simp only at he
    subst he
    cases u <;> cases f <;> simp [DebugLogger.debug, Effect.sink?]

/-- Concrete instance, evaluated on explicit inputs. -/
theorem debug_sinks_witness :
    ((DebugLogger.debugLines ⟨true, false, none⟩ (fun _ _ => some "x=1")
        (fun _ => "2026-10-30 18:00:05") 1793383205007 none 7 none "x=%d" [.int 1]).filter
        fun w => w.1 = Sink.console).length = 1 ∧
    DebugLogger.debugLines ⟨true, true, some "a.log"⟩ (fun _ _ => none)
        (fun _ => "2026-10-30 18:00:05") 1793383205007 none 7 none "%lc" [.int (-1)] = [] :=
  ⟨((debug_sinks ⟨true, false, none⟩ (fun _ _ => some "x=1") (fun _ => "2026-10-30 18:00:05")
      1793383205007 none 7 none "x=%d" [.int 1] rfl).2 "x=1" rfl).1,
   (debug_sinks ⟨true, true, some "a.log"⟩ (fun _ _ => none) (fun _ => "2026-10-30 18:00:05")
      1793383205007 none 7 none "%lc" [.int (-1)] rfl).1 rfl⟩

/-! ## Platform differences of the two wrappers -/

/-- C24 (failing input): on every build, the Linux build included, the two
Wechat functions of the common wrapper called on a non-null handle call the
generic vendor methods RegisterUserSystemInfo and SubmitUserSystemInfo with
the pointer of the caller and return their result, and with logging enabled
they log the line about the macOS version; the Linux wrapper calls the
Wechat-specific vendor methods. -/
theorem wechat_substitution_on_every_build (bld : Build) (V : Vendor) (api p : Ptr) :
    (Common.exec bld DebugLogger.console V
        (.CThostFtdcTraderApi_RegisterWechatUserSystemInfo (api + 1) p))
      = ⟨.int (V.int ⟨"CThostFtdcTraderApi", "RegisterUserSystemInfo", api + 1, [.ptr p]⟩),
          [.logConsole ⟨"警告: macOS版本不支持微信用户系统信息注册，使用普通注册代替", []⟩,
           .vendor ⟨"CThostFtdcTraderApi", "RegisterUserSystemInfo", api + 1, [.ptr p]⟩]⟩ ∧
    (Common.exec bld DebugLogger.console V
        (.CThostFtdcTraderApi_SubmitWechatUserSystemInfo (api + 1) p))
      = ⟨.int (V.int ⟨"CThostFtdcTraderApi", "SubmitUserSystemInfo", api + 1, [.ptr p]⟩),
          [.logConsole ⟨"警告: macOS版本不支持微信用户系统信息提交，使用普通提交代替", []⟩,
           .vendor ⟨"CThostFtdcTraderApi", "SubmitUserSystemInfo", api + 1, [.ptr p]⟩]⟩ ∧
    (Linux.exec DebugLogger.console V
        (.CThostFtdcTraderApi_RegisterWechatUserSystemInfo (api + 1) p))
      = ⟨.int (V.int ⟨"CThostFtdcTraderApi", "RegisterWechatUserSystemInfo", api + 1, [.ptr p]⟩),
          [.vendor ⟨"CThostFtdcTraderApi", "RegisterWechatUserSystemInfo", api + 1, [.ptr p]⟩]⟩ ∧
    (Linux.exec DebugLogger.console V
        (.CThostFtdcTraderApi_SubmitWechatUserSystemInfo (api + 1) p))
      = ⟨.int (V.int ⟨"CThostFtdcTraderApi", "SubmitWechatUserSystemInfo", api + 1, [.ptr p]⟩),
          [.vendor ⟨"CThostFtdcTraderApi", "SubmitWechatUserSystemInfo", api + 1, [.ptr p]⟩]⟩ ∧
    vendorCalls (Common.exec ⟨true, false⟩ DebugLogger.off Vendor.zero
        (.CThostFtdcTraderApi_RegisterWechatUserSystemInfo 1 5)).trace
      ≠ vendorCalls (Linux.exec DebugLogger.off Vendor.zero
        (.CThostFtdcTraderApi_RegisterWechatUserSystemInfo 1 5)).trace := by
  refine ⟨?_, ?_, ?_, ?_, by decide⟩ <;>
    simp [Common.exec, Linux.exec, callInt, CTP_DEBUG, DebugLogger.isEnabled,
      DebugLogger.debug, DebugLogger.console]

/-! ## The timestamp -/

set_option maxRecDepth 100000 in
theorem setw3fill0_check :
    ∀ n < 1000, (setw3fill0 (Int.ofNat n)).length = 3 ∧
      (setw3fill0 (Int.ofNat n)).data.all Char.isDigit = true ∧
      decimalValue (setw3fill0 (Int.ofNat n)) = n := by
  decide

/-- C25: for a clock reading at or after the epoch the timestamp is the local
date and time as put_time renders it, a dot, and a fractional part of exactly
three decimal digits whose value is the milliseconds since the epoch mod 1000,
padded with zeros on the left, hence between 000 and 999. -/
theorem timestamp_fraction (put_time : Int → String) (now_ms : Int) (h : 0 ≤ now_ms) :
    DebugLogger.getCurrentTimestamp put_time now_ms
      = put_time (now_ms / 1000) ++ "." ++ setw3fill0 (now_ms % 1000) ∧
    (setw3fill0 (now_ms % 1000)).length = 3 ∧
    (∀ c ∈ (setw3fill0 (now_ms % 1000)).data, c.isDigit = true) ∧
    (decimalValue (setw3fill0 (now_ms % 1000)) : Int) = now_ms % 1000 ∧
    decimalValue (setw3fill0 (now_ms % 1000)) < 1000 := by
  have h0 : 0 ≤ now_ms % 1000 := Int.emod_nonneg _ (by decide)
  have h1 : now_ms % 1000 < 1000 := Int.emod_lt_of_pos _ (by decide)
  obtain ⟨n, hn⟩ := Int.eq_ofNat_of_zero_le h0
  have hlt : n < 1000 := by omega
  have hc := setw3fill0_check n hlt
  rw [hn]
  refine ⟨?_, hc.1, ?_, ?_, ?_⟩
  · unfold DebugLogger.getCurrentTimestamp
    simp only
    rw [Int.tdiv_eq_ediv h (by decide), Int.tmod_eq_emod h (by decide), hn]
  · intro c hcm
    exact List.all_eq_true.1 hc.2.1 c hcm
  · have := hc.2.2
    simp only [Int.ofNat_eq_coe] at this
    rw [this]
  · have := hc.2.2
    simp only [Int.ofNat_eq_coe] at this
    rw [this]
    exact hlt

/-- Concrete instance, evaluated on explicit inputs. -/
theorem timestamp_fraction_witness :
    DebugLogger.getCurrentTimestamp (fun _ => "2026-10-30 18:00:05") 1793383205007
      = "2026-10-30 18:00:05" ++ "." ++ setw3fill0 (1793383205007 % 1000) ∧
    setw3fill0 (1793383205007 % 1000) = "007" :=
  ⟨(timestamp_fraction (fun _ => "2026-10-30 18:00:05") 1793383205007 (by decide)).1,
   by decide⟩

/-! ## The C interface and the reachable states of the logger -/

/-- C26: CTP_InitializeDebugLogging with the null config changes nothing; with a
config it is init(enable_debug != 0, log_file_path): every non-zero
enable_debug enables logging, a null or empty path then gives console output
only, and the two reserved fields have no influence. -/
theorem initialize_debug_logging (canOpen : String → Bool) (lg : DebugLogger)
    (cfg : CtpLogConfig) (r1 r2 : Int) :
    CTP_InitializeDebugLogging canOpen lg none = (lg, []) ∧
    CTP_InitializeDebugLogging canOpen lg (some cfg)
      = lg.init canOpen (decide (cfg.enable_debug ≠ 0)) cfg.log_file_path ∧
    (cfg.enable_debug ≠ 0 →
      (CTP_InitializeDebugLogging canOpen lg (some cfg)).1.enabled_ = true) ∧
    (cfg.enable_debug ≠ 0 → (cfg.log_file_path = none ∨ cfg.log_file_path = some "") →
      CTP_InitializeDebugLogging canOpen lg (some cfg) = (⟨true, false, none⟩, [])) ∧
    (cfg.enable_debug = 0 →
      CTP_InitializeDebugLogging canOpen lg (some cfg) = ({ lg with enabled_ := false }, [])) ∧
    CTP_InitializeDebugLogging canOpen lg
        (some { cfg with max_file_size_mb := r1, max_backup_files := r2 })
      = CTP_InitializeDebugLogging canOpen lg (some cfg) := by
  obtain ⟨e, u, f⟩ := lg
  refine ⟨rfl, rfl, ?_, ?_, ?_, rfl⟩
  · intro h
    cases hp : cfg.log_file_path with
    | none => cases f <;> simp [CTP_InitializeDebugLogging, DebugLogger.init, h, hp]
    | some p =>
      by_cases hq : p = "" <;> cases ho : canOpen p <;> cases f <;>
        simp [CTP_InitializeDebugLogging, DebugLogger.init, h, hp, hq, ho]
  · intro h hp
    rcases hp with hp | hp <;> cases f <;>
      simp [CTP_InitializeDebugLogging, DebugLogger.init, h, hp]
  · intro h
    simp [CTP_InitializeDebugLogging, DebugLogger.init, h]

/-- Concrete instance, evaluated on explicit inputs. -/
theorem initialize_debug_logging_witness :
    (CTP_InitializeDebugLogging (fun _ => true) DebugLogger.off
        (some ⟨-1, some "a.log", 0, 0⟩)).1.enabled_ = true ∧
    CTP_InitializeDebugLogging (fun _ => true) ⟨false, true, some "a.log"⟩
        (some ⟨2, some "", 10, 3⟩) = (⟨true, false, none⟩, []) :=
  ⟨(initialize_debug_logging (fun _ => true) DebugLogger.off ⟨-1, some "a.log", 0, 0⟩
      0 0).2.2.1 (by decide),
   (initialize_debug_logging (fun _ => true) ⟨false, true, some "a.log"⟩ ⟨2, some "", 10, 3⟩
      0 0).2.2.2.1 (by decide) (Or.inr rfl)⟩

theorem call_preserves_file_flag (lg : DebugLogger) (c : LoggerCall)
    (h : lg.use_file_ = lg.file_stream_.isSome) :
    (lg.call c).1.use_file_ = (lg.call c).1.file_stream_.isSome := by
  obtain ⟨e, u, f⟩ := lg
  simp only at h
  subst h
  cases c with
  | init canOpen enable_debug log_file =>
    cases enable_debug
    · simp [DebugLogger.call, DebugLogger.init]
    · cases log_file with
      | none => cases f <;> simp [DebugLogger.call, DebugLogger.init]
      | some p =>
        by_cases hp : p = "" <;> cases ho : canOpen p <;> cases f <;>
          simp [DebugLogger.call, DebugLogger.init, hp, ho]
  | cleanup => cases f <;> simp [DebugLogger.call, DebugLogger.cleanup]
  | debug m => simp [DebugLogger.call]

/-- C27: in every state reachable from the initial state by any finite sequence
of init, cleanup and debug calls, with any arguments and any outcome of
opening a file, use_file is true exactly when a log file is open; so use_file
is never true with a closed stream. -/
theorem use_file_iff_open (calls : List LoggerCall) :
    (DebugLogger.off.run calls).1.use_file_
      = (DebugLogger.off.run calls).1.file_stream_.isSome ∧
    ¬ ((DebugLogger.off.run calls).1.use_file_ = true ∧
        (DebugLogger.off.run calls).1.file_stream_ = none) := by
  have key : ∀ (cs : List LoggerCall) (lg : DebugLogger),
      lg.use_file_ = lg.file_stream_.isSome →
      (lg.run cs).1.use_file_ = (lg.run cs).1.file_stream_.isSome := by
    intro cs
    induction cs with
    | nil => intro lg h; exact h
    | cons c rest ih =>
      intro lg h
      exact ih _ (call_preserves_file_flag lg c h)
  have h := key calls DebugLogger.off rfl
  refine ⟨h, ?_⟩
  rintro ⟨h1, h2⟩
  rw [h1, h2] at h
  simp at h

/-! ## Construction from the null pointer -/

/-- C28 (failing input): CreateMdSpiBridge and CreateTraderSpiBridge given the
null pointer print their line and then construct the adapter from the null
pointer, which reads through it: no adapter is defined. Given a table they
return the adapter holding its copy and print nothing, and the two destroy
functions given the null pointer delete nothing. -/
theorem create_bridge_null (md : MdSpiCallbacks) (tr : TraderSpiCallbacks) :
    CreateMdSpiBridge none = ([.cout "[Bridge] ❌ MD回调结构体为空!"], none) ∧
    CreateTraderSpiBridge none = ([.cout "[Bridge] ❌ Trader回调结构体为空!"], none) ∧
    CreateMdSpiBridge (some md) = ([], some ⟨md⟩) ∧
    CreateTraderSpiBridge (some tr) = ([], some ⟨tr⟩) ∧
    DestroyMdSpiBridge 0 = [] ∧ DestroyTraderSpiBridge 0 = [] :=
  ⟨rfl, rfl, rfl, rfl, rfl, rfl⟩

/-! ## The common wrapper built for Linux and the Linux wrapper -/

theorem afterLastSeparator_snoc (l : List Char) (c : Char) :
    afterLastSeparator (l ++ [c])
      = if isPathSeparator c then [] else afterLastSeparator l ++ [c] := by
  unfold afterLastSeparator
  rw [List.reverse_append]
  cases h : isPathSeparator c <;> simp [List.takeWhile_cons, h]

theorem lastSlash_spec (rest before : List Char) (last_slash : Option Nat)
    (hlt : ∀ i, last_slash = some i → i < before.length)
    (hinv : fromFileName before last_slash = afterLastSeparator before) :
    fromFileName (before ++ rest) (lastSlash rest before.length last_slash)
      = afterLastSeparator (before ++ rest) := by
  induction rest generalizing before last_slash with
  | nil => simpa [lastSlash] using hinv
  | cons c rest ih =>
    have h := ih (before ++ [c]) (if isPathSeparator c then some before.length else last_slash)
      (by
        intro i hi
        rw [List.length_append]
        split at hi
        · injection hi with hi
          simp [← hi]
        · have := hlt i hi
          simp
          omega)
      (by
        rw [afterLastSeparator_snoc]
        cases hc : isPathSeparator c
        · simp only [Bool.false_eq_true, if_false]
          rw [← hinv]
          cases last_slash with
          | none => rfl
          | some i =>
            have hi := hlt i rfl
            simp only [fromFileName]
            rw [List.drop_append_of_le_length (by omega)]
        · simp [fromFileName])
    simp only [List.length_append, List.length_singleton, List.append_assoc,
      List.singleton_append] at h
    simpa [lastSlash] using h

theorem extractFileName_data (path : String) :
    (DebugLogger.extractFileName (some path)).data = afterLastSeparator path.data := by
  have h := lastSlash_spec path.data [] none (by simp) rfl
  simp only [List.nil_append, List.length_nil] at h
  rw [← h]
  unfold DebugLogger.extractFileName
  simp only
  split <;> next hi => rw [hi]; rfl

theorem afterLastSeparator_suffix (l : List Char) :
    ∃ before, l = before ++ afterLastSeparator l := by
  refine ⟨(l.reverse.dropWhile fun c => !isPathSeparator c).reverse, ?_⟩
  unfold afterLastSeparator
  rw [← List.reverse_append, List.takeWhile_append_dropWhile, List.reverse_reverse]

theorem afterLastSeparator_clean (l : List Char) :
    ∀ c ∈ afterLastSeparator l, isPathSeparator c = false := by
  intro c hc
  unfold afterLastSeparator at hc
  rw [List.mem_reverse] at hc
  have := List.mem_takeWhile_imp hc
  simpa using this

theorem afterLastSeparator_of_clean (l : List Char)
    (h : ∀ c ∈ l, isPathSeparator c = false) : afterLastSeparator l = l := by
  unfold afterLastSeparator
  have : (l.reverse.takeWhile fun c => !isPathSeparator c) = l.reverse := by
    rw [List.takeWhile_eq_self_iff]
    intro c hc
    simp [h c (List.mem_reverse.1 hc)]
  rw [this, List.reverse_reverse]

theorem isPathSeparator_false_iff (c : Char) :
    isPathSeparator c = false ↔ c ≠ '/' ∧ c ≠ '\\' := by
  simp [isPathSeparator]

/-- C30: extractFileName gives "unknown" for the null path; for a path it gives
the part after the last '/' or '\\' (the whole path when there is neither, the
empty string when the path ends with one); the result is a suffix of the path,
holds no '/' and no '\\', and extractFileName of the result is the result. -/
theorem extractFileName_spec (path : String) :
    DebugLogger.extractFileName none = "unknown" ∧
    (DebugLogger.extractFileName (some path)).data = afterLastSeparator path.data ∧
    ((∀ c ∈ path.data, c ≠ '/' ∧ c ≠ '\\') → DebugLogger.extractFileName (some path) = path) ∧
    (∀ before c, path.data = before ++ [c] → (c = '/' ∨ c = '\\') →
      DebugLogger.extractFileName (some path) = "") ∧
    (∃ before, path.data = before ++ (DebugLogger.extractFileName (some path)).data) ∧
    (∀ c ∈ (DebugLogger.extractFileName (some path)).data, c ≠ '/' ∧ c ≠ '\\') ∧
    DebugLogger.extractFileName (some (DebugLogger.extractFileName (some path)))
      = DebugLogger.extractFileName (some path) ∧
    DebugLogger.extractFileName (some (DebugLogger.extractFileName none))
      = DebugLogger.extractFileName none := by
  refine ⟨rfl, extractFileName_data path, ?_, ?_, ?_, ?_, ?_, by decide⟩
  · intro h
    apply String.ext
    rw [extractFileName_data]
    exact afterLastSeparator_of_clean _ fun c hc => (isPathSeparator_false_iff c).2 (h c hc)
  · intro before c hp hc
    apply String.ext
    rw [extractFileName_data, hp, afterLastSeparator_snoc]
    have : isPathSeparator c = true := by
      rcases hc with rfl | rfl <;> rfl
    simp [this]
  · rw [extractFileName_data]
    exact afterLastSeparator_suffix _
  · intro c hc
    rw [extractFileName_data] at hc
    exact (isPathSeparator_false_iff c).1 (afterLastSeparator_clean _ c hc)
  · apply String.ext
    rw [extractFileName_data, extractFileName_data]
    exact afterLastSeparator_of_clean _ (afterLastSeparator_clean _)

/-- Concrete instance, evaluated on explicit inputs. -/
theorem extractFileName_spec_witness :
    DebugLogger.extractFileName (some "libs/ctp\\wrapper/logger.cpp") = "logger.cpp" ∧
    DebugLogger.extractFileName (some "logger.cpp") = "logger.cpp" ∧
    DebugLogger.extractFileName (some "libs/ctp/") = "" :=
  ⟨by decide,
   (extractFileName_spec "logger.cpp").2.2.1 (by decide),
   (extractFileName_spec "libs/ctp/").2.2.2.1 "libs/ctp".data '/' rfl (Or.inl rfl)⟩

end Ctp
